import Mathlib

/-! Fire-Fighter: a shallow embedding of the combat subsystem.

The C++ sources (`src/*.cpp`) are translated function by function.

Conventions of the embedding

* `float` values are exact rationals (`ℚ`).  Every constant that matters for
  the statements below (`1.0`, `0.25`, `0.75`, `1.5`, `2.0`, `3.0`) is a dyadic
  rational and is exactly representable; the threshold `0.29f` is written
  `29/100`, and every barrier size that occurs in a run of the game (1, 0.75,
  0.5, 0.25 before clamping, 0) lies on the same side of `29/100` and of the
  single-precision value of `0.29f`.
* `int` values are `Int`, unsigned values are `Nat`.
* The graphics library (sprites, rectangles) is not part of the repository; the
  few operations the game uses are modelled in the section `Graphics library`.
* Sound playback, texture loading, text rendering and logging are not
  modelled; sizes of loaded textures are inputs.
* Random draws are inputs of the operation that makes them.
-/

namespace FireFighter

/-! ## Graphics library -/

/-- Axis-aligned rectangle (`sf::FloatRect`): left, top, width, height. -/
structure FloatRect where
  left : ℚ
  top : ℚ
  width : ℚ
  height : ℚ
deriving DecidableEq

/-- Modelled from the spec: `sf::FloatRect::intersects` of the graphics library
(not under `src/`), the "simple axis-aligned bounding-box check" of the spec.
Two rectangles intersect when their overlap has positive width and positive
height; rectangles with negative dimensions are normalised first. -/
def FloatRect.intersects (a b : FloatRect) : Bool :=
  let r1MinX := min a.left (a.left + a.width)
  let r1MaxX := max a.left (a.left + a.width)
  let r1MinY := min a.top (a.top + a.height)
  let r1MaxY := max a.top (a.top + a.height)
  let r2MinX := min b.left (b.left + b.width)
  let r2MaxX := max b.left (b.left + b.width)
  let r2MinY := min b.top (b.top + b.height)
  let r2MaxY := max b.top (b.top + b.height)
  let interLeft := max r1MinX r2MinX
  let interTop := max r1MinY r2MinY
  let interRight := min r1MaxX r2MaxX
  let interBottom := min r1MaxY r2MaxY
  decide (interLeft < interRight) && decide (interTop < interBottom)

/-- Sprite (`sf::Sprite`) as the game uses it: a position, a scale and the size
of the texture it shows; origin and rotation are never changed by the game. -/
structure Sprite where
  posX : ℚ
  posY : ℚ
  scaleX : ℚ
  scaleY : ℚ
  texW : Nat
  texH : Nat
deriving DecidableEq

/-- Default-constructed sprite: at the origin, unit scale, no texture. -/
def Sprite.default : Sprite :=
  { posX := 0, posY := 0, scaleX := 1, scaleY := 1, texW := 0, texH := 0 }

/-- Library call `sf::Sprite::setPosition`. -/
def Sprite.setPosition (s : Sprite) (x y : ℚ) : Sprite :=
  { s with posX := x, posY := y }

/-- Library call `sf::Sprite::setScale`. -/
def Sprite.setScale (s : Sprite) (sx sy : ℚ) : Sprite :=
  { s with scaleX := sx, scaleY := sy }

/-- Library call `sf::Sprite::move`. -/
def Sprite.move (s : Sprite) (dx dy : ℚ) : Sprite :=
  { s with posX := s.posX + dx, posY := s.posY + dy }

/-- Library call `sf::Sprite::setTexture` with a texture of the given size. -/
def Sprite.setTexture (s : Sprite) (w h : Nat) : Sprite :=
  { s with texW := w, texH := h }

/-- Modelled from the spec: `sf::Sprite::getGlobalBounds` of the graphics
library (not under `src/`): the bounding box of the texture rectangle
`(0, 0, texW, texH)` after scaling and translation. -/
def Sprite.getGlobalBounds (s : Sprite) : FloatRect :=
  let x0 := s.posX
  let x1 := s.posX + s.scaleX * (s.texW : ℚ)
  let y0 := s.posY
  let y1 := s.posY + s.scaleY * (s.texH : ℚ)
  { left := min x0 x1, top := min y0 y1,
    width := max x0 x1 - min x0 x1, height := max y0 y1 - min y0 y1 }

/-! ## Settings (`settings.cpp`) -/

/-- The part of `Settings` the combat subsystem reads: the resolution and the
sound-effects toggle. -/
structure Settings where
  resX : Nat
  resY : Nat
  soundEffects : Bool
deriving DecidableEq

/-- `Settings::widthScaling`: `x * ((float)resolution[0] / 1280.f)`. -/
def Settings.widthScaling (s : Settings) (x : ℚ) : ℚ :=
  x * ((s.resX : ℚ) / 1280)

/-- `Settings::heightScaling`: `y * ((float)resolution[1] / 720.f)`. -/
def Settings.heightScaling (s : Settings) (y : ℚ) : ℚ :=
  y * ((s.resY : ℚ) / 720)

/-- `Settings::getVector`. -/
def Settings.getVector (s : Settings) : Nat × Nat :=
  (s.resX, s.resY)

/-! ## Barrier (`barrier.cpp`) -/

/-- State of a `Barrier`: the settings member, the sprite and the size. -/
structure Barrier where
  gameSettings : Settings
  iceBlockSprite : Sprite
  size : ℚ
deriving DecidableEq

/-- `Barrier::Barrier(Settings gameSettings)`.  The constructor parameter
`gameSettings` shadows the member of the same name: the initial scale is
computed from the parameter, while the member is default-constructed (read
from the configuration file, here the input `fileSettings`).  `texW`, `texH`
is the size of the ice-block texture. -/
def Barrier.new (gameSettings fileSettings : Settings) (texW texH : Nat) : Barrier :=
  let sprite := Sprite.default.setTexture texW texH
  { gameSettings := fileSettings
    size := 1
    iceBlockSprite :=
      if gameSettings.getVector.1 = 3840 then
        sprite.setScale (gameSettings.widthScaling (3 / 4)) (gameSettings.heightScaling (3 / 4))
      else
        sprite.setScale (gameSettings.widthScaling (3 / 2)) (gameSettings.heightScaling (3 / 2)) }

/-- `Barrier::setPosition(int posX, int posY)`. -/
def Barrier.setPosition (b : Barrier) (posX posY : Int) : Barrier :=
  { b with iceBlockSprite := b.iceBlockSprite.setPosition (posX : ℚ) (posY : ℚ) }

/-- `Barrier::bulletCollision`. -/
def Barrier.bulletCollision (b : Barrier) (bulletSprite : Sprite) : Bool :=
  b.iceBlockSprite.getGlobalBounds.intersects bulletSprite.getGlobalBounds

/-- `Barrier::shrink`: `size -= 0.25f`, clamp to `0` below `0.29f`, rescale. -/
def Barrier.shrink (b : Barrier) : Barrier :=
  let size1 := b.size - 1 / 4
  let size2 := if size1 < 29 / 100 then 0 else size1
  { b with
    size := size2
    iceBlockSprite :=
      if b.gameSettings.getVector.1 = 3840 then
        b.iceBlockSprite.setScale (b.gameSettings.widthScaling (3 / 4) * size2)
          (b.gameSettings.heightScaling (3 / 4) * size2)
      else
        b.iceBlockSprite.setScale (b.gameSettings.widthScaling (3 / 2) * size2)
          (b.gameSettings.heightScaling (3 / 2) * size2) }

/-- `Barrier::reset`. -/
def Barrier.reset (b : Barrier) : Barrier :=
  { b with
    size := 1
    iceBlockSprite :=
      if b.gameSettings.getVector.1 = 3840 then
        b.iceBlockSprite.setScale (b.gameSettings.widthScaling (3 / 4))
          (b.gameSettings.heightScaling (3 / 4))
      else
        b.iceBlockSprite.setScale (b.gameSettings.widthScaling (3 / 2))
          (b.gameSettings.heightScaling (3 / 2)) }

/-- The mutating operations the game applies to a barrier. -/
inductive BarrierOp where
  | shrink
  | reset
  | setPosition (posX posY : Int)
deriving DecidableEq

/-- One mutating call on a barrier. -/
def Barrier.apply (b : Barrier) : BarrierOp → Barrier
  | .shrink => b.shrink
  | .reset => b.reset
  | .setPosition x y => b.setPosition x y

/-- A sequence of mutating calls, applied from left to right. -/
def Barrier.run (b : Barrier) (ops : List BarrierOp) : Barrier :=
  ops.foldl Barrier.apply b

/-- Invariant of every barrier the game can hold: the size is not negative, and
a destroyed barrier has a sprite of scale zero. -/
def Barrier.Inv (b : Barrier) : Prop :=
  0 ≤ b.size ∧ (b.size = 0 → b.iceBlockSprite.scaleX = 0 ∧ b.iceBlockSprite.scaleY = 0)

/-- A barrier as `Game::Game` constructs it when the settings file holds the
preset 1280x720 and the game runs fullscreen on a 1920x1080 screen: the
constructor argument `*opt` carries the screen size that `userScreenInfo` put
into it, while the member `gameSettings` is read from the file. -/
def Barrier.fullscreenOnPreset : Barrier :=
  Barrier.new ⟨1920, 1080, true⟩ ⟨1280, 720, true⟩ 64 64

/-! ## Bullet (`bullet.cpp`) -/

/-- State of a `Bullet`: its sprite and its speed. -/
structure Bullet where
  bulletSprite : Sprite
  speed : ℚ
deriving DecidableEq

/-- `Bullet::Bullet(startX, startY, type, res)`; `texW`, `texH` is the size of
the texture that `loadTexture(type)` leaves in the sprite. -/
def Bullet.new (startX startY : ℚ) (type : String) (res : Nat × Nat) (texW texH : Nat) : Bullet :=
  let sprite := (Sprite.default.setTexture texW texH).setPosition startX startY
  let sprite :=
    if type = "enemy" then
      sprite.setScale (1 / 2 * ((res.1 : ℚ) / 1280)) (1 / 2 * ((res.2 : ℚ) / 720))
    else if res.1 = 3840 then
      sprite.setScale (1 / 2 * ((res.1 : ℚ) / 1280)) (1 / 2 * ((res.2 : ℚ) / 720))
    else
      sprite.setScale (6 / 5 * ((res.1 : ℚ) / 1280)) (6 / 5 * ((res.2 : ℚ) / 720))
  { bulletSprite := sprite, speed := 300 }

/-- `Bullet::update(delta, type)`, with `delta` in seconds. -/
def Bullet.update (b : Bullet) (delta : ℚ) (type : String) : Bullet :=
  if type = "enemy" then
    { b with bulletSprite := b.bulletSprite.move (b.speed * delta) 0 }
  else if type = "player" then
    { b with bulletSprite := b.bulletSprite.move (-b.speed * delta) 0 }
  else b

/-- `Bullet::getGlobalBounds`. -/
def Bullet.getGlobalBounds (b : Bullet) : FloatRect :=
  b.bulletSprite.getGlobalBounds

/-- `Bullet::getSprite`. -/
def Bullet.getSprite (b : Bullet) : Sprite :=
  b.bulletSprite

/-! ## Enemy (`enemy.cpp`) -/

/-- State of an `Enemy`.  The static death counter `totalDeath`, which is only
written to the log, is not modelled. -/
structure Enemy where
  sprite : Sprite
  bullets : List Bullet
  movementSpeed : ℚ
  screenWidth : Nat
  isAlive : Bool
  res1 : Nat × Nat
deriving DecidableEq

/-- `Entity::setPosition` on an enemy. -/
def Enemy.setPosition (e : Enemy) (x y : ℚ) : Enemy :=
  { e with sprite := e.sprite.setPosition x y }

/-- `Entity::getPosition` on an enemy. -/
def Enemy.getPosition (e : Enemy) : ℚ × ℚ :=
  (e.sprite.posX, e.sprite.posY)

/-- `Enemy::Enemy(startX, startY, screenWidth, resolution)`. -/
def Enemy.new (startX startY : ℚ) (screenWidth : Nat) (resolution : Nat × Nat) : Enemy :=
  let e : Enemy :=
    { sprite := Sprite.default, bullets := [], movementSpeed := 3,
      screenWidth := screenWidth, isAlive := true, res1 := (0, 0) }
  let e := e.setPosition startX startY
  { e with
    res1 := (resolution.1, resolution.2)
    sprite := e.sprite.setScale (1 * ((resolution.1 : ℚ) / 1280)) (1 * ((resolution.2 : ℚ) / 720))
    movementSpeed := e.movementSpeed * (1 * ((resolution.1 : ℚ) / 1280)) }

/-- `Enemy::setTexture` with a loaded texture of the given size. -/
def Enemy.setTexture (e : Enemy) (texW texH : Nat) : Enemy :=
  { e with sprite := e.sprite.setTexture texW texH }

/-- `Enemy::kill` (the liveness flag; the log line is not modelled). -/
def Enemy.kill (e : Enemy) : Enemy :=
  { e with isAlive := false }

/-- `Enemy::getIsAlive`. -/
def Enemy.getIsAlive (e : Enemy) : Bool :=
  e.isAlive

/-- `Enemy::setIsAlive`. -/
def Enemy.setIsAlive (e : Enemy) (alive : Bool) : Enemy :=
  { e with isAlive := alive }

/-- `Enemy::increaseSpeed`. -/
def Enemy.increaseSpeed (e : Enemy) (factor : ℚ) : Enemy :=
  { e with movementSpeed := e.movementSpeed * factor }

/-- `Enemy::getGlobalBounds`. -/
def Enemy.getGlobalBounds (e : Enemy) : FloatRect :=
  e.sprite.getGlobalBounds

/-- `Enemy::getBullets`. -/
def Enemy.getBullets (e : Enemy) : List Bullet :=
  e.bullets

/-! ## EnemyWave (`enemywave.cpp`) -/

/-- Nested counting loops
`for (i = 0; i < rows; ++i) for (j = 0; j < columns; ++j) body(i, j)`
over a state `σ`. -/
def forGrid {σ : Type} (rows columns : Nat) (body : σ → Nat → Nat → σ) (s : σ) : σ :=
  (List.range rows).foldl
    (fun s i => (List.range columns).foldl (fun s j => body s i j) s) s

/-- The cell `grid[i][j]` of a vector of vectors, when both indices are in range. -/
def cellAt {α : Type} (grid : List (List α)) (i j : Nat) : Option α :=
  match grid[i]? with
  | some row => row[j]?
  | none => none

/-- In-place update `grid[i][j] = f(grid[i][j])`; indices out of range are
undefined behaviour in the source and leave the grid unchanged here. -/
def modifyCell {α : Type} (grid : List (List α)) (i j : Nat) (f : α → α) : List (List α) :=
  grid.modify (fun row => row.modify f j) i

/-- State of an `EnemyWave`: the window size it refers to, the grid and the
layout parameters. -/
structure EnemyWave where
  windowSize : Nat × Nat
  enemyGrid : List (List Enemy)
  rows : Nat
  columns : Nat
  spacingX : ℚ
  spacingY : ℚ
  startX : ℚ
  startY : ℚ
  totalSpawned : Int
deriving DecidableEq

/-- The grid has `rows` rows of `columns` cells each, as `resize` in the
constructor makes it. -/
def EnemyWave.WellFormed (w : EnemyWave) : Prop :=
  w.enemyGrid.length = w.rows ∧ ∀ row ∈ w.enemyGrid, row.length = w.columns

instance (w : EnemyWave) : Decidable w.WellFormed := by
  unfold EnemyWave.WellFormed
  exact inferInstance

/-- `EnemyWave::getEnemy(row, column)`; `none` stands for an index out of range. -/
def EnemyWave.getEnemy (w : EnemyWave) (row column : Nat) : Option Enemy :=
  cellAt w.enemyGrid row column

/-- `EnemyWave::getRows`. -/
def EnemyWave.getRows (w : EnemyWave) : Nat :=
  w.rows

/-- `EnemyWave::getColumns`. -/
def EnemyWave.getColumns (w : EnemyWave) : Nat :=
  w.columns

/-- `EnemyWave::getTotalSpawned`. -/
def EnemyWave.getTotalSpawned (w : EnemyWave) : Int :=
  w.totalSpawned

/-- `EnemyWave::adjustSpacingForResolution`, as the pair `(spacingX, spacingY)`
it leaves; an unrecognised resolution keeps the current pair. -/
def EnemyWave.adjustSpacingForResolution (current : ℚ × ℚ) (resolution : Nat × Nat) : ℚ × ℚ :=
  if resolution = (640, 360) then (70, 40)
  else if resolution = (1280, 720) then (100, 70)
  else if resolution = (1920, 1080) then (130, 90)
  else if resolution = (3840, 2160) then (160, 110)
  else current

/-- `EnemyWave::EnemyWave(window, resolution, metricsBarHeight)`; `texW`, `texH`
is the size of the enemy texture. -/
def EnemyWave.new (windowSize resolution : Nat × Nat) (metricsBarHeight : ℚ)
    (texW texH : Nat) : EnemyWave :=
  let rows := 5
  let columns := 4
  let startX : ℚ := 0
  let startY : ℚ := 75 + metricsBarHeight
  let spacing := EnemyWave.adjustSpacingForResolution (100, 70) resolution
  let grid0 := List.replicate rows (List.replicate columns (Enemy.new 0 0 windowSize.1 resolution))
  let st := forGrid rows columns
    (fun (st : List (List Enemy) × Int) i j =>
      (modifyCell st.1 i j
        (fun _ => (Enemy.new (startX + (j : ℚ) * spacing.1) (startY + (i : ℚ) * spacing.2)
          windowSize.1 resolution).setTexture texW texH),
       st.2 + 1))
    (grid0, 0)
  { windowSize := windowSize, enemyGrid := st.1, rows := rows, columns := columns,
    spacingX := spacing.1, spacingY := spacing.2, startX := startX, startY := startY,
    totalSpawned := st.2 }

/-- Inner range-for of `EnemyWave::allEnemiesDead` over one row: `false` as
soon as a living enemy is met (the source returns from the function there),
`true` when the row has been scanned to its end. -/
def EnemyWave.rowAllDead : List Enemy → Bool
  | [] => true
  | enemy :: rest => if enemy.getIsAlive then false else EnemyWave.rowAllDead rest

/-- Outer range-for of `EnemyWave::allEnemiesDead` over the rows. -/
def EnemyWave.rowsAllDead : List (List Enemy) → Bool
  | [] => true
  | row :: rest => if EnemyWave.rowAllDead row then EnemyWave.rowsAllDead rest else false

/-- `EnemyWave::allEnemiesDead`. -/
def EnemyWave.allEnemiesDead (w : EnemyWave) : Bool :=
  EnemyWave.rowsAllDead w.enemyGrid

/-- Body of the loops of `EnemyWave::respawnEnemies(flag)` for the enemy `e`
stored at cell `(i, j)`. -/
def EnemyWave.respawnCell (w : EnemyWave) (flag : Int) (i j : Nat) (e : Enemy) : Enemy :=
  let speedIncreaseFactor : ℚ := 2
  let positionX := w.startX + (j : ℚ) * w.spacingX
  let positionY := w.startY + (i : ℚ) * w.spacingY
  let e := e.setPosition positionX positionY
  let e := e.setIsAlive true
  if flag = 0 then e.increaseSpeed speedIncreaseFactor else e

/-- `EnemyWave::respawnEnemies(flag)`. -/
def EnemyWave.respawnEnemies (w : EnemyWave) (flag : Int) : EnemyWave :=
  { w with
    enemyGrid := forGrid w.rows w.columns
      (fun grid i j => modifyCell grid i j (w.respawnCell flag i j)) w.enemyGrid }

/-- Operations of the game loop on the formation that the statements on
respawning range over: a kill of the enemy at a cell, and a respawn. -/
inductive WaveEvent where
  | kill (i j : Nat)
  | respawn (flag : Int)
deriving DecidableEq

/-- Effect of one formation event. -/
def EnemyWave.applyEvent (w : EnemyWave) : WaveEvent → EnemyWave
  | .kill i j => { w with enemyGrid := modifyCell w.enemyGrid i j Enemy.kill }
  | .respawn flag => w.respawnEnemies flag

/-- A sequence of formation events, applied from left to right. -/
def EnemyWave.runEvents (w : EnemyWave) (events : List WaveEvent) : EnemyWave :=
  events.foldl EnemyWave.applyEvent w

/-- Number of wave clears (respawns with flag 0) in a sequence of events. -/
def WaveEvent.clears : List WaveEvent → Nat
  | [] => 0
  | .respawn flag :: rest => (if flag = 0 then 1 else 0) + WaveEvent.clears rest
  | .kill _ _ :: rest => WaveEvent.clears rest

/-! ## Metrics (`metrics.cpp`) -/

/-- The scoring state of `Metrics`; `fileWrites` lists the values written to the
highest-score file, most recent first.  Text widgets are not modelled. -/
structure Metrics where
  score : Int
  highestScore : Int
  enemySum : Int
  fileWrites : List Int
deriving DecidableEq

/-- `Metrics::setEnemyCount`. -/
def Metrics.setEnemyCount (m : Metrics) (enemyCount : Int) : Metrics :=
  { m with enemySum := enemyCount }

/-- `Metrics::updateHighestScore`. -/
def Metrics.updateHighestScore (m : Metrics) : Metrics :=
  if m.score > m.highestScore then
    { m with highestScore := m.score, fileWrites := m.score :: m.fileWrites }
  else m

/-- `Metrics::increaseScore(points)`. -/
def Metrics.increaseScore (m : Metrics) (points : Int) : Metrics :=
  ({ m with score := m.score + points }).updateHighestScore

/-- `Metrics::reset`. -/
def Metrics.reset (m : Metrics) : Metrics :=
  { m with score := 0 }

/-- `Metrics::getStage`: `(score/10) / enemySum + 1`, both divisions truncating
as on C++ `int`. -/
def Metrics.getStage (m : Metrics) : Int :=
  (m.score.tdiv 10).tdiv m.enemySum + 1

/-! ## Player (`player.cpp`) -/

/-- State of the `Player`: sprite, projectile collection (`Entity::bullet`),
movement speed, life counter and its own settings object. -/
structure Player where
  sprite : Sprite
  bullet : List Bullet
  movementSpeed : ℚ
  lives : Int
  options : Settings
deriving DecidableEq

/-- `Entity::setPosition` on the player. -/
def Player.setPosition (p : Player) (x y : ℚ) : Player :=
  { p with sprite := p.sprite.setPosition x y }

/-- `Player::Player(window)`; `options` is the freshly read settings object. -/
def Player.new (windowSize : Nat × Nat) (options : Settings) : Player :=
  let p : Player :=
    { sprite := Sprite.default, bullet := [], movementSpeed := 3, lives := 3, options := options }
  let p : Player :=
    if options.getVector.1 = 3840 then
      { p with
        sprite := p.sprite.setScale (options.widthScaling (1 / 2)) (options.heightScaling (1 / 2))
        movementSpeed := p.movementSpeed * options.widthScaling 1 }
    else
      { p with
        sprite := p.sprite.setScale (options.widthScaling 1) (options.heightScaling 1)
        movementSpeed := p.movementSpeed * options.widthScaling (3 / 2) }
  p.setPosition ((windowSize.1 : ℚ) * (93 / 100)) ((windowSize.2 / 2 : Nat) : ℚ)

/-- `Player::setLives`. -/
def Player.setLives (p : Player) (lives : Int) : Player :=
  { p with lives := lives }

/-- `Player::getLives`. -/
def Player.getLives (p : Player) : Int :=
  p.lives

/-- `Player::decreaseLife`. -/
def Player.decreaseLife (p : Player) : Player :=
  if p.lives > 0 then { p with lives := p.lives - 1 } else p

/-- `Player::increaseLife`. -/
def Player.increaseLife (p : Player) : Player :=
  if p.lives < 3 then { p with lives := p.lives + 1 } else p

/-- `Player::reset(window)`. -/
def Player.reset (p : Player) (windowSize : Nat × Nat) : Player :=
  (p.setLives 3).setPosition ((windowSize.1 : ℚ) * (93 / 100)) ((windowSize.2 / 2 : Nat) : ℚ)

/-- The call `enemyWave.getEnemy(i, j).kill()` on the wave. -/
def EnemyWave.killAt (w : EnemyWave) (i j : Nat) : EnemyWave :=
  { w with enemyGrid := modifyCell w.enemyGrid i j Enemy.kill }

/-- The test of `Player::updateBullets` for projectile `b` at cell `(i, j)`:
`enemy.getIsAlive() && bullet.getGlobalBounds().intersects(enemy.getGlobalBounds())`. -/
def Player.hits (b : Bullet) (w : EnemyWave) (i j : Nat) : Bool :=
  match w.getEnemy i j with
  | none => false
  | some enemy => enemy.getIsAlive && b.getGlobalBounds.intersects enemy.getGlobalBounds

/-- Loop state of the enemy scan for one projectile in `Player::updateBullets`. -/
structure ScanState where
  wave : EnemyWave
  metrics : Metrics
  bulletRemoved : Bool
deriving DecidableEq

/-- Body of the two nested `for` loops of `Player::updateBullets` for the
projectile `b`.  Both loop conditions carry `&& !bulletRemoved`, so once the
flag is set no further cell is visited. -/
def Player.scanCell (b : Bullet) (st : ScanState) (i j : Nat) : ScanState :=
  if st.bulletRemoved then st
  else
    match st.wave.getEnemy i j with
    | none => st
    | some enemy =>
      if enemy.getIsAlive && b.getGlobalBounds.intersects enemy.getGlobalBounds then
        { wave := st.wave.killAt i j
          metrics := st.metrics.increaseScore 10
          bulletRemoved := true }
      else st

/-- One iteration of the `while` loop of `Player::updateBullets`: the scan of the
grid for the projectile `b`. -/
def Player.scanEnemies (b : Bullet) (wave : EnemyWave) (metrics : Metrics) : ScanState :=
  forGrid wave.getRows wave.getColumns (Player.scanCell b)
    { wave := wave, metrics := metrics, bulletRemoved := false }

/-- The `while (bulletIt != bullet.end())` loop of `Player::updateBullets`: the
projectiles that stay in the collection, and the wave and metrics afterwards. -/
def Player.resolveBullets : List Bullet → EnemyWave → Metrics → List Bullet × EnemyWave × Metrics
  | [], wave, metrics => ([], wave, metrics)
  | b :: rest, wave, metrics =>
    let st := Player.scanEnemies b wave metrics
    if st.bulletRemoved then
      Player.resolveBullets rest st.wave st.metrics
    else
      let r := Player.resolveBullets rest st.wave st.metrics
      (b :: r.1, r.2.1, r.2.2)

/-- `Player::updateBullets(delta, enemyWave, metrics)`. -/
def Player.updateBullets (p : Player) (delta : ℚ) (enemyWave : EnemyWave) (metrics : Metrics) :
    Player × EnemyWave × Metrics :=
  let moved := p.bullet.map (fun b => b.update delta "player")
  let r := Player.resolveBullets moved enemyWave metrics
  ({ p with bullet := r.1 }, r.2.1, r.2.2)

/-! ## Powerup (`powerup.cpp`) -/

/-- State of the `Powerup`; `time` is in seconds. -/
structure Powerup where
  sprite : Sprite
  speed : ℚ
  direction : ℚ × ℚ
  collected : Bool
  gameSettings : Settings
  time : ℚ
  appearanceDelay : Int
deriving DecidableEq

/-- The random values one call of `Powerup::reset` or `Powerup::update` may
draw: the start height, the appearance delay and the value of `std::rand()`. -/
structure PowerupDraws where
  startY : ℚ
  delay : Int
  rand : Nat
deriving DecidableEq

/-- `Powerup::reset`. -/
def Powerup.reset (u : Powerup) (draws : PowerupDraws) : Powerup :=
  { u with
    sprite := u.sprite.setPosition (-u.sprite.getGlobalBounds.width) draws.startY
    speed := 150
    direction := (1, 0)
    collected := false
    appearanceDelay := draws.delay
    time := 0 }

/-- `Powerup::update(delta, player, window)`. -/
def Powerup.update (u : Powerup) (delta : ℚ) (player : Player) (windowSize : Nat × Nat)
    (draws : PowerupDraws) : Powerup × Player :=
  if !u.collected && decide (player.getLives < 3) then
    let u := { u with time := u.time + delta }
    if u.time ≥ (u.appearanceDelay : ℚ) then
      let u := { u with
        sprite := u.sprite.move (u.direction.1 * u.speed * delta) (u.direction.2 * u.speed * delta) }
      let hit := u.sprite.getGlobalBounds.intersects player.sprite.getGlobalBounds
      let player := if hit then player.increaseLife else player
      let u := if hit then { u with collected := true } else u
      let u :=
        if u.sprite.posX < 0 then
          { u with direction := (1, u.direction.2) }
        else if u.sprite.posX + u.sprite.getGlobalBounds.width > (windowSize.1 : ℚ) then
          { u with direction := (-1, if draws.rand % 2 = 0 then 1 else -1) }
        else u
      let u :=
        if u.sprite.posY < (windowSize.2 : ℚ) * (1 / 10)
            ∨ u.sprite.posY + u.sprite.getGlobalBounds.height > (windowSize.2 : ℚ) then
          { u with direction := (u.direction.1, u.direction.2 * -1) }
        else u
      (u, player)
    else (u, player)
  else (u.reset draws, player)

/-! ## Life-changing events of the game loop (`game.cpp`) -/

/-- The operations of `Game::gameLoop` that touch the life counter: an enemy
projectile hitting the player, an enemy touching the player, the per-frame
`Powerup::update`, and the restart sequence `powerup.reset(); player->reset(window)`. -/
inductive LifeEvent where
  | projectileHit
  | enemyContact
  | powerupUpdate (delta : ℚ) (windowSize : Nat × Nat) (draws : PowerupDraws)
  | restart (windowSize : Nat × Nat) (draws : PowerupDraws)
deriving DecidableEq

/-- Effect of one life-changing event on the player and the power-up. -/
def LifeEvent.step (s : Player × Powerup) : LifeEvent → Player × Powerup
  | .projectileHit => (s.1.decreaseLife, s.2)
  | .enemyContact => (s.1.decreaseLife, s.2)
  | .powerupUpdate delta windowSize draws =>
    let r := s.2.update delta s.1 windowSize draws
    (r.2, r.1)
  | .restart windowSize draws => (s.1.reset windowSize, s.2.reset draws)

/-- A sequence of life-changing events, applied from left to right. -/
def LifeEvent.run (s : Player × Powerup) (events : List LifeEvent) : Player × Powerup :=
  events.foldl LifeEvent.step s

/-! ## Enemy projectiles and movement (`enemy.cpp`) -/

/-- One iteration of the loop of `Enemy::removeBullet` at index `i`:
`if (bullets[i].getGlobalBounds().getPosition().x > res1.x) bullets.erase(begin + i)`. -/
def Enemy.removeBulletAt (resX : Nat) (bullets : List Bullet) (i : Nat) : List Bullet :=
  match bullets[i]? with
  | none => bullets
  | some b => if b.getGlobalBounds.left > (resX : ℚ) then bullets.eraseIdx i else bullets

/-- `Enemy::removeBullet`: `for (int i = bullets.size() - 1; i >= 0; --i)`, the
indices visited from the last to the first. -/
def Enemy.removeBullet (e : Enemy) : Enemy :=
  { e with
    bullets := (List.range e.bullets.length).reverse.foldl (Enemy.removeBulletAt e.res1.1)
      e.bullets }

/-- `Enemy::update(deltaTime)`, with `deltaTime` in seconds. -/
def Enemy.update (e : Enemy) (deltaTime : ℚ) : Enemy :=
  let moveDistance := e.movementSpeed * deltaTime
  let e := { e with sprite := e.sprite.move moveDistance 0 }
  let e :=
    if e.sprite.posX > (e.screenWidth : ℚ) then
      { e with sprite := e.sprite.setPosition (-e.sprite.getGlobalBounds.width) e.sprite.posY }
    else e
  let e := { e with bullets := e.bullets.map (fun (b : Bullet) => b.update deltaTime "enemy") }
  e.removeBullet

/-- `Enemy::shoot`; `texW`, `texH` is the size of the projectile texture. -/
def Enemy.shoot (e : Enemy) (texW texH : Nat) : Enemy :=
  { e with
    bullets := e.bullets ++ [Bullet.new e.getPosition.1 e.getPosition.2 "enemy" e.res1 texW texH] }

/-! ## Formation movement (`enemywave.cpp`) -/

/-- The function-local `static` flags of `EnemyWave::update`. -/
structure WaveMotion where
  movingDown : Bool
  hasMovedRightAfterReach : Bool
  firstUpdate : Bool
deriving DecidableEq

/-- Initial values of the static flags. -/
def WaveMotion.initial : WaveMotion :=
  { movingDown := true, hasMovedRightAfterReach := false, firstUpdate := true }

/-- Body of the edge scan of `EnemyWave::update` at cell `(i, j)` on the pair
`(bottomReached, topReached)`.  The inner loop breaks as soon as it sets one of
the flags and the outer loop breaks when one of them is set, so no cell is
visited once a flag is set. -/
def EnemyWave.scanEdgeCell (w : EnemyWave) (metricsBarHeight : ℚ) (st : Bool × Bool)
    (i j : Nat) : Bool × Bool :=
  if st.1 || st.2 then st
  else
    match w.getEnemy i j with
    | none => st
    | some enemy =>
      if enemy.getPosition.2 + enemy.getGlobalBounds.height > (w.windowSize.2 : ℚ) then
        (true, st.2)
      else if enemy.getPosition.2 ≤ metricsBarHeight then
        (st.1, true)
      else st

/-- The edge scan at the start of `EnemyWave::update`: the pair
`(bottomReached, topReached)`. -/
def EnemyWave.scanEdges (w : EnemyWave) (metricsBarHeight : ℚ) : Bool × Bool :=
  forGrid w.rows w.columns (w.scanEdgeCell metricsBarHeight) (false, false)

/-- `EnemyWave::update(metricsBarHeight)` on the formation and the static flags. -/
def EnemyWave.update (w : EnemyWave) (motion : WaveMotion) (metricsBarHeight : ℚ) :
    EnemyWave × WaveMotion :=
  let moveRightDistance : ℚ := 50
  let edges := w.scanEdges metricsBarHeight
  let bottomReached := edges.1
  let topReached := edges.2
  if motion.firstUpdate then
    (w, { motion with movingDown := true, firstUpdate := false })
  else if (bottomReached || topReached) && !motion.hasMovedRightAfterReach then
    ({ w with
        enemyGrid := forGrid w.rows w.columns
          (fun grid i j => modifyCell grid i j (fun enemy =>
            enemy.setPosition (enemy.getPosition.1 + moveRightDistance) enemy.getPosition.2))
          w.enemyGrid },
     { motion with hasMovedRightAfterReach := true, movingDown := !motion.movingDown })
  else
    let moveDistance : ℚ := if motion.movingDown then 1 else -1
    ({ w with
        enemyGrid := forGrid w.rows w.columns
          (fun grid i j => modifyCell grid i j (fun enemy =>
            enemy.setPosition enemy.getPosition.1 (enemy.getPosition.2 + moveDistance)))
          w.enemyGrid },
     if motion.hasMovedRightAfterReach && (bottomReached || topReached) then
       { motion with hasMovedRightAfterReach := false }
     else motion)

/-- Operations of the game on the formation and the static movement flags: a
call of a member function of the enemy at a cell (through the reference
`getEnemy(i, j)`), a respawn, and the per-frame `update`. -/
inductive FormationOp where
  | onEnemy (i j : Nat) (f : Enemy → Enemy)
  | respawn (flag : Int)
  | update (metricsBarHeight : ℚ)

/-- Effect of one formation operation. -/
def FormationOp.step (s : EnemyWave × WaveMotion) : FormationOp → EnemyWave × WaveMotion
  | .onEnemy i j f => ({ s.1 with enemyGrid := modifyCell s.1.enemyGrid i j f }, s.2)
  | .respawn flag => (s.1.respawnEnemies flag, s.2)
  | .update metricsBarHeight => s.1.update s.2 metricsBarHeight

/-- A sequence of formation operations, applied from left to right. -/
def FormationOp.run (s : EnemyWave × WaveMotion) (ops : List FormationOp) :
    EnemyWave × WaveMotion :=
  ops.foldl FormationOp.step s

/-! ## Score texts (`metrics.cpp`) -/

/-- The numbers `Metrics::increaseScore(points)` puts into its texts after the
score update: round `(score/points)/enemySum + 1`, kills `score/points` and
remaining enemies `enemySum - (score/points) % enemySum`; `none` when a divisor
is zero (undefined behaviour in the source). -/
def Metrics.scoreTexts (m : Metrics) (points : Int) : Option (Int × Int × Int) :=
  if points = 0 ∨ m.enemySum = 0 then none
  else
    some ((m.score.tdiv points).tdiv m.enemySum + 1,
      m.score.tdiv points,
      m.enemySum - (m.score.tdiv points).tmod m.enemySum)

/-- `Metrics::getStage` with its divisor checked: `none` when `enemySum` is zero. -/
def Metrics.getStageChecked (m : Metrics) : Option Int :=
  if m.enemySum = 0 then none else some m.getStage

/-- The operations of the game on the metrics after `setEnemyCount`. -/
inductive MetricsOp where
  | increaseScore (points : Int)
  | reset
deriving DecidableEq

/-- Effect of one metrics operation. -/
def MetricsOp.step (m : Metrics) : MetricsOp → Metrics
  | .increaseScore points => m.increaseScore points
  | .reset => m.reset

/-- A sequence of metrics operations, applied from left to right. -/
def MetricsOp.run (m : Metrics) (ops : List MetricsOp) : Metrics :=
  ops.foldl MetricsOp.step m

/-! ## Player against enemies and barriers (`player.cpp`) -/

/-- `Player::isCollidingWithEnemy(enemySprite)`. -/
def Player.isCollidingWithEnemy (p : Player) (enemySprite : Sprite) : Bool :=
  let playerBounds := p.sprite.getGlobalBounds
  let enemyBounds := enemySprite.getGlobalBounds
  decide (playerBounds.left < enemyBounds.left + enemyBounds.width)
    && decide (playerBounds.left + playerBounds.width > enemyBounds.left)

/-- The loop of `Player::updateBarrier`: every projectile is moved, and one that
collides with the barrier is erased and shrinks the barrier. -/
def Player.updateBarrierLoop (delta : ℚ) : List Bullet → Barrier → List Bullet × Barrier
  | [], barrier => ([], barrier)
  | b :: rest, barrier =>
    let b := b.update delta "player"
    if barrier.bulletCollision b.getSprite then
      Player.updateBarrierLoop delta rest barrier.shrink
    else
      let r := Player.updateBarrierLoop delta rest barrier
      (b :: r.1, r.2)

/-- `Player::updateBarrier(delta, barrier)`. -/
def Player.updateBarrier (p : Player) (delta : ℚ) (barrier : Barrier) : Player × Barrier :=
  let r := Player.updateBarrierLoop delta p.bullet barrier
  ({ p with bullet := r.1 }, r.2)

/-- `Player::setPlayerTexture` with a loaded texture of the given size. -/
def Player.setPlayerTexture (p : Player) (texW texH : Nat) : Player :=
  { p with sprite := p.sprite.setTexture texW texH }

/-! ## Frame of the game loop (`game.cpp`) -/

/-- The part of the state of `Game::gameLoop` that the combat steps of a frame
read and write.  `restFlag` is the local flag of `gameLoop`, `windowOpen` is
`window.isOpen()`, and `gameOverCalls` counts the invocations of
`Game::gameOverScreen`. -/
structure Game where
  player : Player
  enemyWave : EnemyWave
  metrics : Metrics
  barrier1 : Barrier
  barrier2 : Barrier
  barrier3 : Barrier
  windowOpen : Bool
  restFlag : Bool
  gameOverCalls : Nat
deriving DecidableEq

/-- The block `bool flag = gameOverScreen(); if (!flag) restFlag = true; window.close();`
of the frame; `answers k` is what the invocation number `k` of `gameOverScreen`
returns. -/
def Game.gameOver (g : Game) (answers : Nat → Bool) : Game :=
  let flag := answers g.gameOverCalls
  { g with
    gameOverCalls := g.gameOverCalls + 1
    restFlag := if !flag then true else g.restFlag
    windowOpen := false }

/-- The statements `player->decreaseLife(); ... if (player->getLives() <= 0) { ... }`
that follow a hit of the player by an enemy projectile or an enemy. -/
def Game.playerHit (g : Game) (answers : Nat → Bool) : Game :=
  let g := { g with player := g.player.decreaseLife }
  if g.player.getLives ≤ 0 then g.gameOver answers else g

/-- The `while (bulletIt != bullets.end())` loop of the frame over the
projectiles of one enemy: the projectiles that stay in the collection and the
game state afterwards.  A projectile that hits the player is erased and the
loop goes on; one that hits a barrier is erased, the barrier shrinks and the
loop is left (`break`), the projectiles behind it staying unexamined. -/
def Game.enemyBulletLoop (answers : Nat → Bool) : List Bullet → Game → List Bullet × Game
  | [], g => ([], g)
  | b :: rest, g =>
    if b.getGlobalBounds.intersects g.player.sprite.getGlobalBounds then
      Game.enemyBulletLoop answers rest (g.playerHit answers)
    else if g.barrier1.bulletCollision b.getSprite then
      (rest, { g with barrier1 := g.barrier1.shrink })
    else if g.barrier2.bulletCollision b.getSprite then
      (rest, { g with barrier2 := g.barrier2.shrink })
    else if g.barrier3.bulletCollision b.getSprite then
      (rest, { g with barrier3 := g.barrier3.shrink })
    else
      let r := Game.enemyBulletLoop answers rest g
      (b :: r.1, r.2)

/-- Body of the two `for` loops of the enemy-projectile and contact resolution of
the frame at cell `(i, j)`: the projectile loop of that enemy, then the contact
test of the enemy with the player. -/
def Game.resolveEnemyAt (answers : Nat → Bool) (g : Game) (i j : Nat) : Game :=
  match g.enemyWave.getEnemy i j with
  | none => g
  | some enemy =>
    let r := Game.enemyBulletLoop answers enemy.getBullets g
    let g := { r.2 with
      enemyWave := { r.2.enemyWave with
        enemyGrid := modifyCell r.2.enemyWave.enemyGrid i j (fun e => { e with bullets := r.1 }) } }
    if enemy.getIsAlive && g.player.isCollidingWithEnemy enemy.sprite then
      let g := { g with enemyWave := g.enemyWave.killAt i j }
      g.playerHit answers
    else g

/-- The enemy-projectile and contact resolution of one frame. -/
def Game.resolveEnemyProjectiles (g : Game) (answers : Nat → Bool) : Game :=
  forGrid g.enemyWave.getRows g.enemyWave.getColumns (Game.resolveEnemyAt answers) g

/-- The four calls of a frame that touch the player's projectile collection, in
their order: `player->updateBullets(deltaTime, *enemyWave, metrics)` and
`player->updateBarrier(deltaTime, barrier)` for the three barriers.  The steps
of the frame between them do not touch that collection. -/
def Game.playerProjectileUpdates (g : Game) (delta : ℚ) : Game :=
  let r := g.player.updateBullets delta g.enemyWave g.metrics
  let g := { g with player := r.1, enemyWave := r.2.1, metrics := r.2.2 }
  let r1 := g.player.updateBarrier delta g.barrier1
  let g := { g with player := r1.1, barrier1 := r1.2 }
  let r2 := g.player.updateBarrier delta g.barrier2
  let g := { g with player := r2.1, barrier2 := r2.2 }
  let r3 := g.player.updateBarrier delta g.barrier3
  { g with player := r3.1, barrier3 := r3.2 }

/-- A state of a 1280x720 game right after its set-up: the constructed
formation, the three barriers at the positions `gameLoop` gives them, the
constructed player with a 32x32 texture, and metrics with 20 enemies. -/
def Game.start : Game :=
  { player := (Player.new (1280, 720) ⟨1280, 720, true⟩).setPlayerTexture 32 32
    enemyWave := EnemyWave.new (1280, 720) (1280, 720) 72 32 32
    metrics := { score := 0, highestScore := 0, enemySum := 20, fileWrites := [] }
    barrier1 := (Barrier.new ⟨1280, 720, true⟩ ⟨1280, 720, true⟩ 64 64).setPosition 1062 162
    barrier2 := (Barrier.new ⟨1280, 720, true⟩ ⟨1280, 720, true⟩ 64 64).setPosition 1062 356
    barrier3 := (Barrier.new ⟨1280, 720, true⟩ ⟨1280, 720, true⟩ 64 64).setPosition 1062 550
    windowOpen := true
    restFlag := false
    gameOverCalls := 0 }

/-- A player projectile at horizontal position `x`, height 376, as
`Player::shoot` constructs them at 1280x720 (16x16 texture). -/
def Game.playerShotAt (x : ℚ) : Bullet :=
  Bullet.new x 376 "player" (1280, 720) 16 16

/-- An enemy projectile at `(1200, 370)`, inside the bounding box of the player
of `Game.start`. -/
def Game.enemyShotOnPlayer : Bullet :=
  Bullet.new 1200 370 "enemy" (1280, 720) 16 16

/-- The state of `Game.start` in which the player has one life left and two
projectiles of the enemy at cell (4, 3) have reached the player. -/
def Game.lastLifeTwoShots : Game :=
  { Game.start with
    player := Game.start.player.setLives 1
    enemyWave :=
      { Game.start.enemyWave with
        enemyGrid := modifyCell Game.start.enemyWave.enemyGrid 4 3
          (fun e => { e with bullets := [Game.enemyShotOnPlayer, Game.enemyShotOnPlayer] }) } }

/-- The enemy the constructor of the 1280x720 formation of `Game.start` puts at
cell `(i, j)`. -/
def Game.startEnemy (i j : Nat) : Enemy :=
  (Enemy.new (0 + (j : ℚ) * 100) (75 + 72 + (i : ℚ) * 70) 1280 (1280, 720)).setTexture 32 32

/-- The state of `Game.start` in which the only projectile of the player has
flown past the left edge of the playfield, to `x = -500`. -/
def Game.shotPastEdge : Game :=
  { Game.start with
    player := { Game.start.player with bullet := [Game.playerShotAt (-500)] } }

/-- An enemy projectile at `(1070, 170)`, inside the bounding box of the first
barrier of `Game.start` and away from the player. -/
def Game.enemyShotOnBarrier : Bullet :=
  Bullet.new 1070 170 "enemy" (1280, 720) 16 16

/-- The state of `Game.start` in which the enemy at cell (4, 3) holds two
projectiles: the first has reached the first barrier, the second the player. -/
def Game.barrierShotThenPlayerShot : Game :=
  { Game.start with
    enemyWave :=
      { Game.start.enemyWave with
        enemyGrid := modifyCell Game.start.enemyWave.enemyGrid 4 3
          (fun e => { e with bullets := [Game.enemyShotOnBarrier, Game.enemyShotOnPlayer] }) } }

/-- The state of `Game.start` in which the only projectile of the player is at
horizontal position `x`. -/
def Game.shotFlownTo (x : ℚ) : Game :=
  { Game.start with
    player := { Game.start.player with bullet := [Game.playerShotAt x] } }

/-! ## Exhaustive edge scan -/

/-- Body of an edge scan that tests both edges at every cell and never leaves
the loops: each flag is set when its own test holds at the cell. -/
def EnemyWave.scanEdgeCellExhaustive (w : EnemyWave) (metricsBarHeight : ℚ) (st : Bool × Bool)
    (i j : Nat) : Bool × Bool :=
  match w.getEnemy i j with
  | none => st
  | some enemy =>
    (if enemy.getPosition.2 + enemy.getGlobalBounds.height > (w.windowSize.2 : ℚ) then true
       else st.1,
     if enemy.getPosition.2 ≤ metricsBarHeight then true else st.2)

/-- The pair `(bottomReached, topReached)` computed independently over all
enemies, without a `break`. -/
def EnemyWave.scanEdgesExhaustive (w : EnemyWave) (metricsBarHeight : ℚ) : Bool × Bool :=
  forGrid w.rows w.columns (w.scanEdgeCellExhaustive metricsBarHeight) (false, false)

/-- The variant of `EnemyWave::update` whose scan is `scanEdgesExhaustive`; the
three branches are those of `EnemyWave.update`. -/
def EnemyWave.updateExhaustive (w : EnemyWave) (motion : WaveMotion) (metricsBarHeight : ℚ) :
    EnemyWave × WaveMotion :=
  let moveRightDistance : ℚ := 50
  let edges := w.scanEdgesExhaustive metricsBarHeight
  let bottomReached := edges.1
  let topReached := edges.2
  if motion.firstUpdate then
    (w, { motion with movingDown := true, firstUpdate := false })
  else if (bottomReached || topReached) && !motion.hasMovedRightAfterReach then
    ({ w with
        enemyGrid := forGrid w.rows w.columns
          (fun grid i j => modifyCell grid i j (fun enemy =>
            enemy.setPosition (enemy.getPosition.1 + moveRightDistance) enemy.getPosition.2))
          w.enemyGrid },
     { motion with hasMovedRightAfterReach := true, movingDown := !motion.movingDown })
  else
    let moveDistance : ℚ := if motion.movingDown then 1 else -1
    ({ w with
        enemyGrid := forGrid w.rows w.columns
          (fun grid i j => modifyCell grid i j (fun enemy =>
            enemy.setPosition enemy.getPosition.1 (enemy.getPosition.2 + moveDistance)))
          w.enemyGrid },
     if motion.hasMovedRightAfterReach && (bottomReached || topReached) then
       { motion with hasMovedRightAfterReach := false }
     else motion)

/-- A 5x4 formation in a 1280x720 window whose enemies (32 high) all stand at
y = 688: their bottom edge is at 720, the window height, and their top edge is
below the bar of height 72. -/
def EnemyWave.restingOnBottom : EnemyWave :=
  { EnemyWave.new (1280, 720) (1280, 720) 72 32 32 with
    enemyGrid := List.replicate 5 (List.replicate 4
      ((Enemy.new 300 688 1280 (1280, 720)).setTexture 32 32)) }

/-! ## Vertical keys (`game.cpp`, `player.cpp`) -/

/-- `Player::move(direction)`: `sprite.move(direction * movementSpeed)` with the
member `movementSpeed` of the player. -/
def Player.move (p : Player) (dx dy : ℚ) : Player :=
  { p with sprite := p.sprite.move (dx * p.movementSpeed) (dy * p.movementSpeed) }

/-- `Entity::getPosition` on the player. -/
def Player.getPosition (p : Player) : ℚ × ℚ :=
  (p.sprite.posX, p.sprite.posY)

/-- `Player::getSize`: the size of the global bounds of the sprite. -/
def Player.getSize (p : Player) : ℚ × ℚ :=
  (p.sprite.getGlobalBounds.width, p.sprite.getGlobalBounds.height)

/-- The Up/Down key handling of a frame of `Game::gameLoop`; `up` and `down`
say whether the key is pressed, and `movementSpeed` is the local variable of
`gameLoop` (0.5). -/
def Game.handleVerticalKeys (windowSize : Nat × Nat) (up down : Bool) (p : Player) : Player :=
  let movementSpeed : ℚ := 1 / 2
  let p :=
    if up then
      if p.getPosition.2 - movementSpeed ≥ (windowSize.2 : ℚ) * (1 / 10) then
        p.move 0 (-movementSpeed)
      else p
    else p
  if down then
    if p.getPosition.2 + p.getSize.2 + movementSpeed ≤ (windowSize.2 : ℚ) then
      p.move 0 movementSpeed
    else p
  else p

/-! ## Enemy movement and shooting loop (`game.cpp`) -/

/-- State of the "update enemy movement and shooting" loop of a frame: the
formation, the elapsed time in seconds of each of the per-row clocks
`enemyShootClocks`, and the number of values drawn so far from the random
generator. -/
structure EnemyLoop where
  wave : EnemyWave
  clocks : Nat → ℚ
  drawsTaken : Nat

/-- Body of the loop at cell `(i, j)`; `draws k` is the value of the draw
number `k` of `dis(gen)`, and `texW`, `texH` is the size of the projectile
texture.  The condition is evaluated left to right: a value is drawn only when
the enemy has no living enemy on its right, and the liveness of the enemy is
tested last. -/
def Game.enemyFrameCell (deltaTime : ℚ) (draws : Nat → Int) (texW texH : Nat) (st : EnemyLoop)
    (i j : Nat) : EnemyLoop :=
  let wave1 : EnemyWave :=
    { st.wave with enemyGrid := modifyCell st.wave.enemyGrid i j (fun e => e.update deltaTime) }
  let hasEnemyOnRight : Bool :=
    decide ((j : Int) < (wave1.getColumns : Int) - 1)
      && (match wave1.getEnemy i (j + 1) with
          | some e => e.getIsAlive
          | none => false)
  if hasEnemyOnRight then { st with wave := wave1 }
  else
    let threshold : Int := draws st.drawsTaken
    if st.clocks i ≥ (threshold : ℚ) then
      match wave1.getEnemy i j with
      | some e =>
        if e.getIsAlive then
          { wave := { wave1 with
              enemyGrid := modifyCell wave1.enemyGrid i j (fun e => e.shoot texW texH) }
            clocks := Function.update st.clocks i 0
            drawsTaken := st.drawsTaken + 1 }
        else { st with wave := wave1, drawsTaken := st.drawsTaken + 1 }
      | none => { st with wave := wave1, drawsTaken := st.drawsTaken + 1 }
    else { st with wave := wave1, drawsTaken := st.drawsTaken + 1 }

/-- The "update enemy movement and shooting" loop of a frame. -/
def Game.enemyFrame (deltaTime : ℚ) (draws : Nat → Int) (texW texH : Nat) (st : EnemyLoop) :
    EnemyLoop :=
  forGrid st.wave.getRows st.wave.getColumns (Game.enemyFrameCell deltaTime draws texW texH) st

/-! ## A respawn between an edge shift and the next edge -/

/-- The formation is a 5x4 grid with the 1280x720 layout parameters in a window
of height 720 whose enemy at cell `(i, j)` is 32 high and stands at
`(x0 + 100 j, y0 + 70 i)`. -/
def EnemyWave.LaidAt (w : EnemyWave) (x0 y0 : ℚ) : Prop :=
  w.WellFormed ∧ w.rows = 5 ∧ w.columns = 4 ∧ w.windowSize.2 = 720
    ∧ w.startX = 0 ∧ w.startY = 147 ∧ w.spacingX = 100 ∧ w.spacingY = 70
    ∧ ∀ i j, i < 5 → j < 4 → ∃ e, w.getEnemy i j = some e
        ∧ e.sprite.posX = x0 + 100 * (j : ℚ) ∧ e.sprite.posY = y0 + 70 * (i : ℚ)
        ∧ e.sprite.scaleY = 1 ∧ e.sprite.texH = 32

/-- The calls `getEnemy(i, j).kill()` for every cell of the 5x4 grid, in
row-major order. -/
def FormationOp.killAll : List FormationOp :=
  forGrid 5 4 (fun ops i j => ops ++ [FormationOp.onEnemy i j Enemy.kill]) []

/-- Frames 1 to 264 of a 1280x720 game (bar height 72) as far as the formation
goes: the first invocation of `update`, 262 steps down, the shift at the
bottom edge; then every enemy is killed. -/
def FormationOp.clearedAfterShift : List FormationOp :=
  List.replicate 264 (FormationOp.update 72) ++ FormationOp.killAll

/-- The formation cleared right after its shift at the bottom edge, the respawn
of the next frame, and the `update` of that frame and of the 74 frames after
it. -/
def FormationOp.respawnAfterShift : List FormationOp :=
  FormationOp.clearedAfterShift ++ [FormationOp.respawn 0]
    ++ List.replicate 75 (FormationOp.update 72)

/-- The formation and the static flags of a 1280x720 game after the operations
`FormationOp.respawnAfterShift` and `n` further invocations of `update`. -/
def FormationOp.afterUpdates (n : Nat) : EnemyWave × WaveMotion :=
  FormationOp.run (Game.start.enemyWave, WaveMotion.initial)
    (FormationOp.respawnAfterShift ++ List.replicate n (FormationOp.update 72))

/-! # Verification -/

/-! ## Grids and counting loops -/

theorem cellAt_modifyCell {α : Type} (g : List (List α)) (i j : Nat) (f : α → α) (a b : Nat) :
    cellAt (modifyCell g i j f) a b
      = if i = a ∧ j = b then (cellAt g a b).map f else cellAt g a b := by
  unfold cellAt modifyCell
  rw [List.getElem?_modify]
  cases hrow : g[a]? with
  | none => simp
  | some row =>
    by_cases hi : i = a
    · subst hi
      simp only [Option.map_eq_map, Option.map_some', if_true, true_and, List.getElem?_modify]
      cases hcell : row[b]? with
      | none => simp
      | some e => by_cases hj : j = b <;> simp [hj]
    · simp [hi]

theorem length_modifyCell {α : Type} (g : List (List α)) (i j : Nat) (f : α → α) :
    (modifyCell g i j f).length = g.length := by
  unfold modifyCell
  simp

theorem row_length_modifyCell {α : Type} (g : List (List α)) (i j : Nat) (f : α → α) (c : Nat)
    (h : ∀ row ∈ g, row.length = c) : ∀ row ∈ modifyCell g i j f, row.length = c := by
  intro row hrow
  obtain ⟨k, hk⟩ := List.mem_iff_getElem?.mp hrow
  unfold modifyCell at hk
  rw [List.getElem?_modify] at hk
  cases hg : g[k]? with
  | none => simp [hg] at hk
  | some r =>
    have hr : r ∈ g := List.mem_iff_getElem?.mpr ⟨k, hg⟩
    simp only [hg, Option.map_eq_map, Option.map_some', Option.some.injEq] at hk
    rw [← hk]
    split_ifs
    · simp [h r hr]
    · exact h r hr

/-- A loop over `0 .. n-1` whose body keeps a property keeps it. -/
theorem foldl_range_invariant {σ : Type} (P : σ → Prop) (body : σ → Nat → σ)
    (hbody : ∀ s k, P s → P (body s k)) (n : Nat) (s : σ) (hs : P s) :
    P ((List.range n).foldl body s) := by
  induction n with
  | zero => simpa using hs
  | succ k ih =>
    rw [List.range_succ, List.foldl_append]
    simpa using hbody _ k ih

/-- The nested loops keep every property that the body keeps. -/
theorem forGrid_invariant {σ : Type} (P : σ → Prop) (rows columns : Nat)
    (body : σ → Nat → Nat → σ) (hbody : ∀ s i j, P s → P (body s i j)) (s : σ) (hs : P s) :
    P (forGrid rows columns body s) := by
  unfold forGrid
  apply foldl_range_invariant P _ _ rows s hs
  intro s i hs
  exact foldl_range_invariant P _ (fun s j hs => hbody s i j hs) columns s hs

/-- Inner loop of a cell-wise update: the cells `(i, 0) .. (i, n-1)` are updated. -/
theorem cellAt_rowLoop {α : Type} (F : Nat → Nat → α → α) (i n : Nat) (g : List (List α))
    (a b : Nat) :
    cellAt ((List.range n).foldl (fun g j => modifyCell g i j (F i j)) g) a b
      = if i = a ∧ b < n then (cellAt g a b).map (F a b) else cellAt g a b := by
  induction n with
  | zero => simp
  | succ k ih =>
    rw [List.range_succ, List.foldl_append]
    simp only [List.foldl_cons, List.foldl_nil]
    rw [cellAt_modifyCell, ih]
    by_cases hi : i = a
    · subst hi
      by_cases hk : k = b
      · subst hk
        simp
      · by_cases hb : b < k
        · have : b < k + 1 := by omega
          simp [hk, hb, this]
        · have : ¬ b < k + 1 := by omega
          simp [hk, hb, this]
    · simp [hi]

/-- Nested loops of a cell-wise update: exactly the cells `(a, b)` with
`a < rows`, `b < columns` are updated, each once. -/
theorem cellAt_forGrid {α : Type} (F : Nat → Nat → α → α) (rows columns : Nat)
    (g : List (List α)) (a b : Nat) :
    cellAt (forGrid rows columns (fun g i j => modifyCell g i j (F i j)) g) a b
      = if a < rows ∧ b < columns then (cellAt g a b).map (F a b) else cellAt g a b := by
  unfold forGrid
  induction rows with
  | zero => simp
  | succ k ih =>
    rw [List.range_succ, List.foldl_append]
    simp only [List.foldl_cons, List.foldl_nil]
    rw [cellAt_rowLoop, ih]
    by_cases hk : k = a
    · subst hk
      by_cases hb : b < columns
      · simp [hb]
      · simp [hb]
    · by_cases ha : a < k
      · have : a < k + 1 := by omega
        by_cases hb : b < columns <;> simp [hk, ha, this, hb]
      · have : ¬ a < k + 1 := by omega
        simp [hk, ha, this]

/-- In a grid of `rows` rows of `columns` cells every cell in range exists. -/
theorem cellAt_isSome {α : Type} (g : List (List α)) (rows columns : Nat)
    (hlen : g.length = rows) (hrow : ∀ row ∈ g, row.length = columns) (a b : Nat)
    (ha : a < rows) (hb : b < columns) : ∃ e, cellAt g a b = some e := by
  have hal : a < g.length := by omega
  have hmem : g[a] ∈ g := List.getElem_mem hal
  have hbl : b < (g[a]).length := by rw [hrow _ hmem]; exact hb
  refine ⟨(g[a])[b], ?_⟩
  unfold cellAt
  rw [List.getElem?_eq_getElem hal]
  exact List.getElem?_eq_getElem hbl

/-- Every element of a grid sits at some cell. -/
theorem exists_cellAt_of_mem {α : Type} (g : List (List α)) (row : List α) (e : α)
    (hrow : row ∈ g) (he : e ∈ row) : ∃ a b, a < g.length ∧ b < row.length ∧ cellAt g a b = some e := by
  obtain ⟨a, ha, hga⟩ := List.mem_iff_getElem.mp hrow
  obtain ⟨b, hb, hgb⟩ := List.mem_iff_getElem.mp he
  refine ⟨a, b, ha, hb, ?_⟩
  unfold cellAt
  rw [List.getElem?_eq_getElem ha, hga]
  simp only []
  rw [List.getElem?_eq_getElem hb, hgb]

/-! ## Barrier -/

theorem Barrier.shrink_size (b : Barrier) :
    b.shrink.size = if b.size - 1 / 4 < 29 / 100 then 0 else b.size - 1 / 4 := rfl

theorem Barrier.new_size (gs fs : Settings) (tw th : Nat) : (Barrier.new gs fs tw th).size = 1 := rfl

/-- The size is never negative after a `shrink`. -/
theorem Barrier.shrink_size_nonneg (b : Barrier) : 0 ≤ b.shrink.size := by
  rw [Barrier.shrink_size]
  split_ifs with h
  · exact le_refl _
  · push_neg at h
    linarith

/-- After a `shrink` the sprite scale vanishes whenever the size does. -/
theorem Barrier.shrink_scale_of_size_zero (b : Barrier) (h : b.shrink.size = 0) :
    b.shrink.iceBlockSprite.scaleX = 0 ∧ b.shrink.iceBlockSprite.scaleY = 0 := by
  have hs : b.shrink.size = (if b.size - 1 / 4 < 29 / 100 then 0 else b.size - 1 / 4) := rfl
  rw [hs] at h
  unfold Barrier.shrink
  by_cases h4 : b.gameSettings.getVector.1 = 3840
  · simp only [h4, if_true, Sprite.setScale, h, mul_zero, and_self]
  · simp only [h4, if_false, Sprite.setScale, h, mul_zero, and_self]

/-- A sprite whose scale is zero in both axes meets no rectangle. -/
theorem Sprite.not_intersects_of_scale_zero (s : Sprite) (r : FloatRect)
    (hx : s.scaleX = 0) (hy : s.scaleY = 0) : s.getGlobalBounds.intersects r = false := by
  unfold FloatRect.intersects Sprite.getGlobalBounds
  simp only [hx, hy, zero_mul, add_zero, min_self, max_self, sub_self]
  have h1 : ¬ (max s.posX (min r.left (r.left + r.width))
      < min s.posX (max r.left (r.left + r.width))) := by
    have a := le_max_left s.posX (min r.left (r.left + r.width))
    have c := min_le_left s.posX (max r.left (r.left + r.width))
    intro hlt
    linarith
  simp [h1]

theorem Barrier.inv_new (gs fs : Settings) (tw th : Nat) : (Barrier.new gs fs tw th).Inv := by
  refine ⟨by rw [Barrier.new_size]; norm_num, fun h => ?_⟩
  rw [Barrier.new_size] at h
  norm_num at h

theorem Barrier.inv_apply (b : Barrier) (op : BarrierOp) (hb : b.Inv) : (b.apply op).Inv := by
  cases op with
  | shrink => exact ⟨b.shrink_size_nonneg, b.shrink_scale_of_size_zero⟩
  | reset =>
    refine ⟨?_, fun h => ?_⟩
    · show (0 : ℚ) ≤ 1
      norm_num
    · have : (1 : ℚ) = 0 := h
      norm_num at this
  | setPosition x y => exact hb

theorem Barrier.inv_run (ops : List BarrierOp) (b : Barrier) (hb : b.Inv) : (b.run ops).Inv := by
  induction ops generalizing b with
  | nil => exact hb
  | cons op rest ih => exact ih (b.apply op) (b.inv_apply op hb)

theorem Barrier.apply_gameSettings (b : Barrier) (op : BarrierOp) :
    (b.apply op).gameSettings = b.gameSettings := by
  cases op <;> rfl

theorem Barrier.run_gameSettings (ops : List BarrierOp) (b : Barrier) :
    (b.run ops).gameSettings = b.gameSettings := by
  induction ops generalizing b with
  | nil => rfl
  | cons op rest ih => exact (ih (b.apply op)).trans (b.apply_gameSettings op)

/-- The size after `n` further hits depends on the current size only. -/
theorem Barrier.iterate_shrink_size (n : Nat) (a b : Barrier) (h : a.size = b.size) :
    (Barrier.shrink^[n] a).size = (Barrier.shrink^[n] b).size := by
  induction n generalizing a b with
  | zero => exact h
  | succ k ih =>
    rw [Function.iterate_succ_apply, Function.iterate_succ_apply]
    exact ih a.shrink b.shrink (by rw [Barrier.shrink_size, Barrier.shrink_size, h])

/-- After a `shrink` the sprite scale is determined by the settings member and
the size. -/
theorem Barrier.shrink_scale_congr (a b : Barrier) (hs : a.size = b.size)
    (hg : a.gameSettings = b.gameSettings) :
    a.shrink.iceBlockSprite.scaleX = b.shrink.iceBlockSprite.scaleX
      ∧ a.shrink.iceBlockSprite.scaleY = b.shrink.iceBlockSprite.scaleY := by
  unfold Barrier.shrink
  rw [hs, hg]
  by_cases h4 : b.gameSettings.getVector.1 = 3840
  · simp only [h4, if_true, Sprite.setScale, and_self]
  · simp only [h4, if_false, Sprite.setScale, and_self]

/-- Claim C3, as the code has it: from a pristine barrier (size 1) the sizes
after the first, second and third `shrink` are 0.75, 0.5 and 0; the barrier
absorbs exactly three hits, the size is still positive after the second hit,
and it stays 0 under every further hit. -/
theorem barrier_three_hits (gs fs : Settings) (tw th : Nat) :
    (Barrier.new gs fs tw th).size = 1
      ∧ (Barrier.shrink^[1] (Barrier.new gs fs tw th)).size = 3 / 4
      ∧ (Barrier.shrink^[2] (Barrier.new gs fs tw th)).size = 1 / 2
      ∧ (Barrier.shrink^[3] (Barrier.new gs fs tw th)).size = 0
      ∧ (∀ n, n < 3 → 0 < (Barrier.shrink^[n] (Barrier.new gs fs tw th)).size)
      ∧ (∀ n, 3 ≤ n → (Barrier.shrink^[n] (Barrier.new gs fs tw th)).size = 0) := by
  have h1 : (Barrier.shrink^[1] (Barrier.new gs fs tw th)).size = 3 / 4 := by
    simp only [Function.iterate_succ, Function.iterate_zero, Function.comp_apply, id_eq,
      Barrier.shrink_size, Barrier.new_size]
    norm_num
  have h2 : (Barrier.shrink^[2] (Barrier.new gs fs tw th)).size = 1 / 2 := by
    simp only [Function.iterate_succ, Function.iterate_zero, Function.comp_apply, id_eq,
      Barrier.shrink_size, Barrier.new_size]
    norm_num
  have h3 : (Barrier.shrink^[3] (Barrier.new gs fs tw th)).size = 0 := by
    simp only [Function.iterate_succ, Function.iterate_zero, Function.comp_apply, id_eq,
      Barrier.shrink_size, Barrier.new_size]
    norm_num
  refine ⟨rfl, h1, h2, h3, ?_, ?_⟩
  · intro n hn
    interval_cases n
    · show (0 : ℚ) < (Barrier.new gs fs tw th).size
      rw [Barrier.new_size]; norm_num
    · rw [h1]; norm_num
    · rw [h2]; norm_num
  · intro n hn
    induction n, hn using Nat.le_induction with
    | base => exact h3
    | succ k _ ih =>
      rw [Function.iterate_succ_apply', Barrier.shrink_size, ih]
      norm_num

/-- Claim C3, as stated, fails on a 1280x720 barrier: the third `shrink` leaves
size 0, not 0.25, so the claimed size sequence 0.75, 0.5, 0.25, 0 does not occur. -/
theorem barrier_four_hits_refuted :
    ¬ ((Barrier.shrink^[1] (Barrier.new ⟨1280, 720, true⟩ ⟨1280, 720, true⟩ 64 64)).size = 3 / 4
      ∧ (Barrier.shrink^[2] (Barrier.new ⟨1280, 720, true⟩ ⟨1280, 720, true⟩ 64 64)).size = 1 / 2
      ∧ (Barrier.shrink^[3] (Barrier.new ⟨1280, 720, true⟩ ⟨1280, 720, true⟩ 64 64)).size = 1 / 4
      ∧ (Barrier.shrink^[4] (Barrier.new ⟨1280, 720, true⟩ ⟨1280, 720, true⟩ 64 64)).size = 0) := by
  intro h
  have h3 := h.2.2.1
  simp only [Function.iterate_succ, Function.iterate_zero, Function.comp_apply, id_eq,
    Barrier.shrink_size, Barrier.new_size] at h3
  norm_num at h3

/-- Claim C4: in every barrier state the game can reach (constructor followed by
any calls of shrink, reset, setPosition), size 0 implies sprite scale 0 in both
axes, hence `bulletCollision` is false for every projectile sprite; one more
`shrink` leaves the size at 0, and the size is never negative. -/
theorem barrier_destroyed_inert (gs fs : Settings) (tw th : Nat) (ops : List BarrierOp)
    (bulletSprite : Sprite)
    (h : ((Barrier.new gs fs tw th).run ops).size = 0) :
    ((Barrier.new gs fs tw th).run ops).iceBlockSprite.scaleX = 0
      ∧ ((Barrier.new gs fs tw th).run ops).iceBlockSprite.scaleY = 0
      ∧ ((Barrier.new gs fs tw th).run ops).bulletCollision bulletSprite = false
      ∧ ((Barrier.new gs fs tw th).run ops).shrink.size = 0
      ∧ (∀ more : List BarrierOp, 0 ≤ ((Barrier.new gs fs tw th).run (ops ++ more)).size) := by
  have hinv := Barrier.inv_run ops _ (Barrier.inv_new gs fs tw th)
  obtain ⟨hx, hy⟩ := hinv.2 h
  refine ⟨hx, hy, ?_, ?_, ?_⟩
  · exact Sprite.not_intersects_of_scale_zero _ _ hx hy
  · rw [Barrier.shrink_size, h]
    norm_num
  · intro more
    exact (Barrier.inv_run (ops ++ more) _ (Barrier.inv_new gs fs tw th)).1

/-- Witness for claim C4: a 1280x720 barrier placed at (1062, 162) and hit three
times is destroyed. -/
theorem barrier_destroyed_inert_witness :
    ((Barrier.new ⟨1280, 720, true⟩ ⟨1280, 720, true⟩ 64 64).run
        [.setPosition 1062 162, .shrink, .shrink, .shrink]).bulletCollision
        ⟨1060, 160, 1, 1, 16, 16⟩ = false :=
  (barrier_destroyed_inert ⟨1280, 720, true⟩ ⟨1280, 720, true⟩ 64 64
    [.setPosition 1062 162, .shrink, .shrink, .shrink] ⟨1060, 160, 1, 1, 16, 16⟩
    (by
      simp only [Barrier.run, List.foldl, Barrier.apply, Barrier.shrink_size]
      norm_num [Barrier.setPosition, Barrier.new])).2.2.1

/-- In every state reached from a constructed barrier by shrink, reset and
setPosition calls (the destroyed state included), `reset` sets the size to 1
and the sprite scale to the full-size scale of the settings member (1.5, or 0.75
at width 3840, scaled to the resolution of the member); the sizes after any
number of later `shrink` calls equal those of a freshly constructed barrier, and
so do the scales after at least one `shrink`.  The scale right after `reset`
equals the constructor's scale when the constructor's argument has the
resolution of the settings member. -/
theorem Barrier.reset_after_run (gs fs : Settings) (tw th : Nat) (ops : List BarrierOp) :
    (((Barrier.new gs fs tw th).run ops).reset.size = 1)
      ∧ (((Barrier.new gs fs tw th).run ops).reset.iceBlockSprite.scaleX
            = fs.widthScaling (if fs.resX = 3840 then 3 / 4 else 3 / 2)
          ∧ ((Barrier.new gs fs tw th).run ops).reset.iceBlockSprite.scaleY
            = fs.heightScaling (if fs.resX = 3840 then 3 / 4 else 3 / 2))
      ∧ (∀ n, (Barrier.shrink^[n] ((Barrier.new gs fs tw th).run ops).reset).size
            = (Barrier.shrink^[n] (Barrier.new gs fs tw th)).size)
      ∧ (∀ n, 0 < n →
          (Barrier.shrink^[n] ((Barrier.new gs fs tw th).run ops).reset).iceBlockSprite.scaleX
              = (Barrier.shrink^[n] (Barrier.new gs fs tw th)).iceBlockSprite.scaleX
            ∧ (Barrier.shrink^[n] ((Barrier.new gs fs tw th).run ops).reset).iceBlockSprite.scaleY
              = (Barrier.shrink^[n] (Barrier.new gs fs tw th)).iceBlockSprite.scaleY)
      ∧ (gs.getVector = fs.getVector →
          ((Barrier.new gs fs tw th).run ops).reset.iceBlockSprite.scaleX
              = (Barrier.new gs fs tw th).iceBlockSprite.scaleX
            ∧ ((Barrier.new gs fs tw th).run ops).reset.iceBlockSprite.scaleY
              = (Barrier.new gs fs tw th).iceBlockSprite.scaleY) := by
  have hg : ((Barrier.new gs fs tw th).run ops).gameSettings = fs :=
    Barrier.run_gameSettings ops _
  have hscale : ((Barrier.new gs fs tw th).run ops).reset.iceBlockSprite.scaleX
            = fs.widthScaling (if fs.resX = 3840 then 3 / 4 else 3 / 2)
          ∧ ((Barrier.new gs fs tw th).run ops).reset.iceBlockSprite.scaleY
            = fs.heightScaling (if fs.resX = 3840 then 3 / 4 else 3 / 2) := by
    unfold Barrier.reset
    rw [hg]
    by_cases h4 : fs.resX = 3840
    · simp [h4, Settings.getVector, Sprite.setScale]
    · simp [h4, Settings.getVector, Sprite.setScale]
  refine ⟨rfl, hscale, ?_, ?_, ?_⟩
  · intro n
    exact Barrier.iterate_shrink_size n _ _ rfl
  · intro n hn
    obtain ⟨k, rfl⟩ := Nat.exists_eq_succ_of_ne_zero (Nat.pos_iff_ne_zero.mp hn)
    rw [Function.iterate_succ_apply', Function.iterate_succ_apply']
    apply Barrier.shrink_scale_congr
    · exact Barrier.iterate_shrink_size k _ _ rfl
    · have e1 : ∀ (m : Nat) (b : Barrier), (Barrier.shrink^[m] b).gameSettings = b.gameSettings := by
        intro m
        induction m with
        | zero => intro b; rfl
        | succ j ih => intro b; rw [Function.iterate_succ_apply', ← ih b]; rfl
      rw [e1, e1]
      exact hg
  · intro hres
    rw [hscale.1, hscale.2]
    have hx : gs.resX = fs.resX := congrArg Prod.fst hres
    have hy : gs.resY = fs.resY := congrArg Prod.snd hres
    unfold Barrier.new
    by_cases h4 : fs.resX = 3840
    · simp [h4, hx, hy, Settings.getVector, Sprite.setScale, Settings.widthScaling,
        Settings.heightScaling]
    · simp [h4, hx, hy, Settings.getVector, Sprite.setScale, Settings.widthScaling,
        Settings.heightScaling]

/-- Claim C5 fails on the code.  `Barrier.fullscreenOnPreset` is constructed
with the scale 2.25 (1.5 scaled by 1920/1280, from the constructor argument).
After one `shrink`, `reset` sets the size to 1 but the scale to 1.5 (from the
settings member, which the constructor argument shadows and never reaches): the
pristine scale is not restored, and the same holds for a `reset` of the barrier
as constructed and for a `reset` of the destroyed barrier. -/
theorem barrier_reset_not_pristine :
    (Barrier.fullscreenOnPreset.size = 1
        ∧ Barrier.fullscreenOnPreset.iceBlockSprite.scaleX = 9 / 4
        ∧ Barrier.fullscreenOnPreset.iceBlockSprite.scaleY = 9 / 4)
      ∧ ((Barrier.fullscreenOnPreset.run [.shrink]).reset.size = 1
        ∧ (Barrier.fullscreenOnPreset.run [.shrink]).reset.iceBlockSprite.scaleX = 3 / 2
        ∧ (Barrier.fullscreenOnPreset.run [.shrink]).reset.iceBlockSprite.scaleY = 3 / 2)
      ∧ ¬ ((Barrier.fullscreenOnPreset.run [.shrink]).reset.iceBlockSprite.scaleX
            = Barrier.fullscreenOnPreset.iceBlockSprite.scaleX)
      ∧ ¬ ((Barrier.fullscreenOnPreset.run [.shrink]).reset.iceBlockSprite.scaleY
            = Barrier.fullscreenOnPreset.iceBlockSprite.scaleY)
      ∧ Barrier.fullscreenOnPreset.reset.iceBlockSprite.scaleX = 3 / 2
      ∧ (Barrier.fullscreenOnPreset.run [.shrink, .shrink, .shrink]).reset.iceBlockSprite.scaleX
          = 3 / 2 := by
  have hnew : Barrier.fullscreenOnPreset.size = 1
      ∧ Barrier.fullscreenOnPreset.iceBlockSprite.scaleX = 9 / 4
      ∧ Barrier.fullscreenOnPreset.iceBlockSprite.scaleY = 9 / 4 := by
    norm_num [Barrier.fullscreenOnPreset, Barrier.new, Settings.getVector,
      Settings.widthScaling, Settings.heightScaling, Sprite.setScale, Sprite.setTexture,
      Sprite.default]
  have hreset : ∀ ops : List BarrierOp,
      (Barrier.fullscreenOnPreset.run ops).reset.iceBlockSprite.scaleX = 3 / 2
        ∧ (Barrier.fullscreenOnPreset.run ops).reset.iceBlockSprite.scaleY = 3 / 2 := by
    intro ops
    have h := (Barrier.reset_after_run ⟨1920, 1080, true⟩ ⟨1280, 720, true⟩ 64 64 ops).2.1
    constructor
    · have h1 := h.1
      norm_num [Settings.widthScaling] at h1
      exact h1
    · have h2 := h.2
      norm_num [Settings.heightScaling] at h2
      exact h2
  refine ⟨hnew, ⟨rfl, (hreset [.shrink]).1, (hreset [.shrink]).2⟩, ?_, ?_, (hreset []).1,
    (hreset [.shrink, .shrink, .shrink]).1⟩
  · rw [(hreset [.shrink]).1, hnew.2.1]
    norm_num
  · rw [(hreset [.shrink]).2, hnew.2.2]
    norm_num

/-! ## Formation: liveness scan -/

theorem EnemyWave.rowAllDead_iff (row : List Enemy) :
    EnemyWave.rowAllDead row = true ↔ ∀ e ∈ row, e.isAlive = false := by
  induction row with
  | nil => simp [EnemyWave.rowAllDead]
  | cons e rest ih =>
    cases he : e.isAlive <;> simp [EnemyWave.rowAllDead, Enemy.getIsAlive, he, ih]

theorem EnemyWave.rowsAllDead_iff (grid : List (List Enemy)) :
    EnemyWave.rowsAllDead grid = true ↔ ∀ row ∈ grid, ∀ e ∈ row, e.isAlive = false := by
  induction grid with
  | nil => simp [EnemyWave.rowsAllDead]
  | cons row rest ih =>
    by_cases hr : EnemyWave.rowAllDead row = true
    · have hr2 := (EnemyWave.rowAllDead_iff row).mp hr
      simp only [EnemyWave.rowsAllDead, hr, if_true, ih, List.mem_cons, forall_eq_or_imp]
      exact ⟨fun h => ⟨hr2, h⟩, fun h => h.2⟩
    · have hr2 : ¬ ∀ e ∈ row, e.isAlive = false := fun h => hr ((EnemyWave.rowAllDead_iff row).mpr h)
      simp only [EnemyWave.rowsAllDead, hr, List.mem_cons, forall_eq_or_imp]
      constructor
      · intro h
        cases h
      · intro h
        exact absurd h.1 hr2

/-- Claim C2: `allEnemiesDead` returns true exactly when the liveness flag of
every cell of the grid is false, and false exactly when some cell is alive. -/
theorem allEnemiesDead_iff (w : EnemyWave) :
    (w.allEnemiesDead = true ↔ ∀ row ∈ w.enemyGrid, ∀ e ∈ row, e.isAlive = false)
      ∧ (w.allEnemiesDead = false ↔ ∃ row ∈ w.enemyGrid, ∃ e ∈ row, e.isAlive = true) := by
  have h1 : w.allEnemiesDead = true ↔ ∀ row ∈ w.enemyGrid, ∀ e ∈ row, e.isAlive = false :=
    EnemyWave.rowsAllDead_iff w.enemyGrid
  refine ⟨h1, ?_⟩
  rw [← Bool.not_eq_true, h1]
  push_neg
  constructor
  · rintro ⟨row, hrow, e, he, hne⟩
    exact ⟨row, hrow, e, he, by simpa using hne⟩
  · rintro ⟨row, hrow, e, he, halive⟩
    exact ⟨row, hrow, e, he, by simp [halive]⟩

/-! ## Player lives -/

/-- Claim C6: for a life count n in [0,3], `decreaseLife` yields n-1 when n > 0
and leaves n = 0 unchanged, `increaseLife` yields n+1 when n < 3 and leaves
n = 3 unchanged; sprite (position), projectile collection, movement speed and
settings of the player are untouched by both. -/
theorem player_life_clamped (p : Player) (h0 : 0 ≤ p.lives) (h3 : p.lives ≤ 3) :
    (0 < p.lives → p.decreaseLife.lives = p.lives - 1)
      ∧ (p.lives = 0 → p.decreaseLife.lives = 0)
      ∧ (p.lives < 3 → p.increaseLife.lives = p.lives + 1)
      ∧ (p.lives = 3 → p.increaseLife.lives = 3)
      ∧ (0 ≤ p.decreaseLife.lives ∧ p.decreaseLife.lives ≤ 3)
      ∧ (0 ≤ p.increaseLife.lives ∧ p.increaseLife.lives ≤ 3)
      ∧ p.decreaseLife = { p with lives := p.decreaseLife.lives }
      ∧ p.increaseLife = { p with lives := p.increaseLife.lives } := by
  unfold Player.decreaseLife Player.increaseLife
  refine ⟨?_, ?_, ?_, ?_, ?_, ?_, ?_, ?_⟩
  · intro h; simp [h]
  · intro h; simp [h]
  · intro h; simp [h]
  · intro h; simp [h]
  · split_ifs with h
    · exact ⟨by show 0 ≤ p.lives - 1; omega, by show p.lives - 1 ≤ 3; omega⟩
    · exact ⟨h0, h3⟩
  · split_ifs with h
    · exact ⟨by show 0 ≤ p.lives + 1; omega, by show p.lives + 1 ≤ 3; omega⟩
    · exact ⟨h0, h3⟩
  · split_ifs <;> rfl
  · split_ifs <;> rfl

/-- Witness for claim C6: the freshly constructed player (3 lives). -/
theorem player_life_clamped_witness :
    (Player.new (1280, 720) ⟨1280, 720, true⟩).decreaseLife.lives
        = (Player.new (1280, 720) ⟨1280, 720, true⟩).lives - 1
      ∧ (Player.new (1280, 720) ⟨1280, 720, true⟩).increaseLife.lives = 3 :=
  ⟨(player_life_clamped (Player.new (1280, 720) ⟨1280, 720, true⟩)
      (by decide) (by decide)).1 (by decide),
   (player_life_clamped (Player.new (1280, 720) ⟨1280, 720, true⟩)
      (by decide) (by decide)).2.2.2.1 (by decide)⟩

theorem Player.decreaseLife_bounds (p : Player) (h : 0 ≤ p.lives ∧ p.lives ≤ 3) :
    0 ≤ p.decreaseLife.lives ∧ p.decreaseLife.lives ≤ 3 := by
  unfold Player.decreaseLife
  split_ifs with h0
  · exact ⟨by show 0 ≤ p.lives - 1; omega, by show p.lives - 1 ≤ 3; omega⟩
  · exact h

/-- Effect of `Powerup::update` on the life counter. -/
theorem Powerup.update_lives (u : Powerup) (delta : ℚ) (p : Player) (ws : Nat × Nat)
    (draws : PowerupDraws) :
    (u.update delta p ws draws).2 = p ∨ (u.update delta p ws draws).2 = p.increaseLife := by
  unfold Powerup.update
  by_cases h1 : (!u.collected && decide (p.getLives < 3)) = true
  · rw [if_pos h1]
    dsimp only
    by_cases h2 : u.time + delta ≥ (u.appearanceDelay : ℚ)
    · rw [if_pos h2]
      dsimp only
      split_ifs <;> first | exact Or.inl rfl | exact Or.inr rfl
    · rw [if_neg h2]
      exact Or.inl rfl
  · rw [if_neg h1]
    exact Or.inl rfl

theorem Player.increaseLife_lives (p : Player) :
    p.increaseLife.lives = if p.lives < 3 then p.lives + 1 else p.lives := by
  unfold Player.increaseLife
  split_ifs <;> rfl

theorem LifeEvent.step_bounds (s : Player × Powerup) (ev : LifeEvent)
    (h : 0 ≤ s.1.lives ∧ s.1.lives ≤ 3) :
    0 ≤ (LifeEvent.step s ev).1.lives ∧ (LifeEvent.step s ev).1.lives ≤ 3 := by
  cases ev with
  | projectileHit => exact s.1.decreaseLife_bounds h
  | enemyContact => exact s.1.decreaseLife_bounds h
  | powerupUpdate delta ws draws =>
    show 0 ≤ (s.2.update delta s.1 ws draws).2.lives ∧ (s.2.update delta s.1 ws draws).2.lives ≤ 3
    rcases Powerup.update_lives s.2 delta s.1 ws draws with e | e
    · rw [e]; exact h
    · rw [e, Player.increaseLife_lives]
      split_ifs <;> omega
  | restart ws draws =>
    show (0 : Int) ≤ 3 ∧ (3 : Int) ≤ 3
    decide

theorem LifeEvent.run_bounds (events : List LifeEvent) (s : Player × Powerup)
    (h : 0 ≤ s.1.lives ∧ s.1.lives ≤ 3) :
    0 ≤ (LifeEvent.run s events).1.lives ∧ (LifeEvent.run s events).1.lives ≤ 3 := by
  induction events generalizing s with
  | nil => exact h
  | cons ev rest ih => exact ih (LifeEvent.step s ev) (LifeEvent.step_bounds s ev h)

/-- Claim C7: a newly constructed player has 3 lives, and after every sequence
of life-changing events of the game loop (projectile hit, enemy contact,
`Powerup::update`, restart) the life counter lies in [0,3]; `Powerup::update`
leaves the counter of a player with 3 lives (or more) unchanged and otherwise
either leaves it or raises it by exactly 1. -/
theorem lives_stay_in_range (windowSize : Nat × Nat) (options : Settings) (u : Powerup)
    (events : List LifeEvent) :
    (Player.new windowSize options).lives = 3
      ∧ (0 ≤ (LifeEvent.run (Player.new windowSize options, u) events).1.lives
          ∧ (LifeEvent.run (Player.new windowSize options, u) events).1.lives ≤ 3)
      ∧ (∀ (v : Powerup) (delta : ℚ) (p : Player) (ws : Nat × Nat) (draws : PowerupDraws),
          (3 ≤ p.lives → (v.update delta p ws draws).2.lives = p.lives)
            ∧ (p.lives < 3 → (v.update delta p ws draws).2.lives = p.lives
                ∨ (v.update delta p ws draws).2.lives = p.lives + 1)) := by
  have hnew : (Player.new windowSize options).lives = 3 := by
    unfold Player.new
    split_ifs <;> rfl
  refine ⟨hnew, ?_, ?_⟩
  · apply LifeEvent.run_bounds
    show 0 ≤ (Player.new windowSize options).lives ∧ (Player.new windowSize options).lives ≤ 3
    rw [hnew]
    decide
  · intro v delta p ws draws
    constructor
    · intro h3
      rcases Powerup.update_lives v delta p ws draws with e | e
      · rw [e]
      · rw [e, Player.increaseLife_lives, if_neg (by omega)]
    · intro h3
      rcases Powerup.update_lives v delta p ws draws with e | e
      · left; rw [e]
      · right; rw [e, Player.increaseLife_lives, if_pos h3]

/-! ## Stage -/

/-- Claim C8: for score >= 0 and enemySum > 0, `getStage` is
`(score / 10) / enemySum + 1` with truncating (here: floor, the operands being
non-negative) divisions; it is at least 1 and non-decreasing in the score; with
enemySum = 20 the scores 37 and 210 give the stages 1 and 2. -/
theorem getStage_value (m : Metrics) (hs : 0 ≤ m.score) (he : 0 < m.enemySum) :
    m.getStage = (m.score.tdiv 10).tdiv m.enemySum + 1
      ∧ m.getStage = ((m.score.toNat / 10 / m.enemySum.toNat + 1 : Nat) : Int)
      ∧ 1 ≤ m.getStage
      ∧ (∀ m2 : Metrics, m2.enemySum = m.enemySum → m.score ≤ m2.score → m.getStage ≤ m2.getStage)
      ∧ ({ m with score := 37, enemySum := 20 } : Metrics).getStage = 1
      ∧ ({ m with score := 210, enemySum := 20 } : Metrics).getStage = 2 := by
  have key : ∀ a b : Int, 0 ≤ a → 0 < b → (a.tdiv 10).tdiv b = a / 10 / b := by
    intro a b ha hb
    rw [Int.tdiv_eq_ediv ha (by decide),
      Int.tdiv_eq_ediv (Int.ediv_nonneg ha (by decide)) (le_of_lt hb)]
  refine ⟨rfl, ?_, ?_, ?_, rfl, rfl⟩
  · unfold Metrics.getStage
    rw [key _ _ hs he]
    obtain ⟨a, ha⟩ := Int.eq_ofNat_of_zero_le hs
    obtain ⟨b, hb⟩ := Int.eq_ofNat_of_zero_le (le_of_lt he)
    rw [ha, hb]
    simp
  · unfold Metrics.getStage
    rw [key _ _ hs he]
    have : 0 ≤ m.score / 10 / m.enemySum :=
      Int.ediv_nonneg (Int.ediv_nonneg hs (by decide)) (le_of_lt he)
    omega
  · intro m2 h2 hle
    unfold Metrics.getStage
    rw [key _ _ hs he, h2, key _ _ (le_trans hs hle) he]
    have h10 : m.score / 10 ≤ m2.score / 10 := Int.ediv_le_ediv (by decide) hle
    have := Int.ediv_le_ediv he h10
    omega

/-- Witness for claim C8: score 210 with 20 enemies is stage 2. -/
theorem getStage_value_witness :
    ({ score := 210, highestScore := 210, enemySum := 20, fileWrites := [] } : Metrics).getStage
      = ((210 / 10 / 20 + 1 : Nat) : Int) :=
  (getStage_value { score := 210, highestScore := 210, enemySum := 20, fileWrites := [] }
    (by decide) (by decide)).2.1

/-! ## Formation: respawn -/

theorem EnemyWave.getEnemy_respawnEnemies (w : EnemyWave) (flag : Int) (a b : Nat) :
    (w.respawnEnemies flag).getEnemy a b
      = if a < w.rows ∧ b < w.columns then (w.getEnemy a b).map (w.respawnCell flag a b)
        else w.getEnemy a b :=
  cellAt_forGrid (fun i j => w.respawnCell flag i j) w.rows w.columns w.enemyGrid a b

theorem EnemyWave.wellFormed_respawnEnemies (w : EnemyWave) (flag : Int) (h : w.WellFormed) :
    (w.respawnEnemies flag).WellFormed := by
  show (forGrid w.rows w.columns _ w.enemyGrid).length = w.rows
    ∧ ∀ row ∈ forGrid w.rows w.columns _ w.enemyGrid, row.length = w.columns
  apply forGrid_invariant (fun g : List (List Enemy) => g.length = w.rows
    ∧ ∀ row ∈ g, row.length = w.columns) _ _ _ _ _ h
  intro g i j hg
  exact ⟨by rw [length_modifyCell]; exact hg.1, row_length_modifyCell g i j _ _ hg.2⟩

theorem EnemyWave.wellFormed_applyEvent (w : EnemyWave) (ev : WaveEvent) (h : w.WellFormed) :
    (w.applyEvent ev).WellFormed := by
  cases ev with
  | kill i j =>
    exact ⟨by show (modifyCell w.enemyGrid i j Enemy.kill).length = w.rows
              rw [length_modifyCell]; exact h.1,
      row_length_modifyCell w.enemyGrid i j _ _ h.2⟩
  | respawn flag => exact w.wellFormed_respawnEnemies flag h

/-- Layout parameters, dimensions and the spawn counter of a formation. -/
theorem EnemyWave.layout_applyEvent (w : EnemyWave) (ev : WaveEvent) :
    (w.applyEvent ev).rows = w.rows ∧ (w.applyEvent ev).columns = w.columns
      ∧ (w.applyEvent ev).startX = w.startX ∧ (w.applyEvent ev).startY = w.startY
      ∧ (w.applyEvent ev).spacingX = w.spacingX ∧ (w.applyEvent ev).spacingY = w.spacingY
      ∧ (w.applyEvent ev).totalSpawned = w.totalSpawned := by
  cases ev <;> exact ⟨rfl, rfl, rfl, rfl, rfl, rfl, rfl⟩

theorem EnemyWave.layout_runEvents (events : List WaveEvent) (w : EnemyWave) :
    (w.runEvents events).rows = w.rows ∧ (w.runEvents events).columns = w.columns
      ∧ (w.runEvents events).startX = w.startX ∧ (w.runEvents events).startY = w.startY
      ∧ (w.runEvents events).spacingX = w.spacingX ∧ (w.runEvents events).spacingY = w.spacingY
      ∧ (w.runEvents events).totalSpawned = w.totalSpawned := by
  induction events generalizing w with
  | nil => exact ⟨rfl, rfl, rfl, rfl, rfl, rfl, rfl⟩
  | cons ev rest ih =>
    have h1 := ih (w.applyEvent ev)
    have h2 := w.layout_applyEvent ev
    show ((w.applyEvent ev).runEvents rest).rows = w.rows ∧ _
    refine ⟨h1.1.trans h2.1, h1.2.1.trans h2.2.1, h1.2.2.1.trans h2.2.2.1,
      h1.2.2.2.1.trans h2.2.2.2.1, h1.2.2.2.2.1.trans h2.2.2.2.2.1,
      h1.2.2.2.2.2.1.trans h2.2.2.2.2.2.1, h1.2.2.2.2.2.2.trans h2.2.2.2.2.2.2⟩

theorem EnemyWave.wellFormed_runEvents (events : List WaveEvent) (w : EnemyWave)
    (h : w.WellFormed) : (w.runEvents events).WellFormed := by
  induction events generalizing w with
  | nil => exact h
  | cons ev rest ih => exact ih (w.applyEvent ev) (w.wellFormed_applyEvent ev h)

theorem EnemyWave.getEnemy_isSome (w : EnemyWave) (h : w.WellFormed) (a b : Nat)
    (ha : a < w.rows) (hb : b < w.columns) : ∃ e, w.getEnemy a b = some e :=
  cellAt_isSome w.enemyGrid w.rows w.columns h.1 h.2 a b ha hb

theorem EnemyWave.respawnCell_speed (w : EnemyWave) (flag : Int) (i j : Nat) (e : Enemy) :
    (w.respawnCell flag i j e).movementSpeed
      = e.movementSpeed * 2 ^ (if flag = 0 then 1 else 0) := by
  unfold EnemyWave.respawnCell
  by_cases hf : flag = 0
  · simp [hf, Enemy.increaseSpeed, Enemy.setIsAlive, Enemy.setPosition]
  · simp [hf, Enemy.setIsAlive, Enemy.setPosition]

/-- Speed of the enemy at a cell after a sequence of formation events: the
speed before, doubled once per wave clear. -/
theorem EnemyWave.speed_runEvents (events : List WaveEvent) (w : EnemyWave) (h : w.WellFormed)
    (a b : Nat) (ha : a < w.rows) (hb : b < w.columns) :
    ∃ e e2, w.getEnemy a b = some e ∧ (w.runEvents events).getEnemy a b = some e2
      ∧ e2.movementSpeed = e.movementSpeed * 2 ^ WaveEvent.clears events := by
  induction events generalizing w with
  | nil =>
    obtain ⟨e, he⟩ := w.getEnemy_isSome h a b ha hb
    exact ⟨e, e, he, he, by simp [WaveEvent.clears]⟩
  | cons ev rest ih =>
    obtain ⟨e, he⟩ := w.getEnemy_isSome h a b ha hb
    have hl := w.layout_applyEvent ev
    obtain ⟨e1, e2, h1, h2, h3⟩ := ih (w.applyEvent ev) (w.wellFormed_applyEvent ev h)
      (by rw [hl.1]; exact ha) (by rw [hl.2.1]; exact hb)
    refine ⟨e, e2, he, h2, ?_⟩
    rw [h3]
    cases ev with
    | kill i j =>
      have hk : (w.applyEvent (.kill i j)).getEnemy a b
          = if i = a ∧ j = b then (w.getEnemy a b).map Enemy.kill else w.getEnemy a b :=
        cellAt_modifyCell w.enemyGrid i j Enemy.kill a b
      rw [hk, he] at h1
      have : e1.movementSpeed = e.movementSpeed := by
        split_ifs at h1
        · simp only [Option.map_some', Option.some.injEq] at h1
          rw [← h1]; rfl
        · simp only [Option.some.injEq] at h1
          rw [← h1]
      rw [this]
      simp [WaveEvent.clears]
    | respawn flag =>
      have hk : (w.applyEvent (.respawn flag)).getEnemy a b
          = some (w.respawnCell flag a b e) := by
        show (w.respawnEnemies flag).getEnemy a b = _
        rw [EnemyWave.getEnemy_respawnEnemies, if_pos ⟨ha, hb⟩, he]
        rfl
      rw [hk] at h1
      simp only [Option.some.injEq] at h1
      rw [← h1, EnemyWave.respawnCell_speed]
      simp only [WaveEvent.clears, pow_add, mul_assoc]

/-- First component of nested loops over a pair state whose first component
evolves on its own. -/
theorem forGrid_fst {α β : Type} (rows columns : Nat) (body : α × β → Nat → Nat → α × β)
    (body1 : α → Nat → Nat → α) (hbody : ∀ s i j, (body s i j).1 = body1 s.1 i j) (s : α × β) :
    (forGrid rows columns body s).1 = forGrid rows columns body1 s.1 := by
  have inner : ∀ (i n : Nat) (s : α × β),
      ((List.range n).foldl (fun s j => body s i j) s).1
        = (List.range n).foldl (fun g j => body1 g i j) s.1 := by
    intro i n s
    induction n with
    | zero => simp
    | succ k ih =>
      rw [List.range_succ, List.foldl_append, List.foldl_append]
      simp only [List.foldl_cons, List.foldl_nil]
      rw [hbody, ih]
  unfold forGrid
  induction rows with
  | zero => simp
  | succ k ih =>
    rw [List.range_succ, List.foldl_append, List.foldl_append]
    simp only [List.foldl_cons, List.foldl_nil]
    rw [inner, ih]

/-- The grid the constructor builds, as a cell-wise update of the resized grid. -/
theorem EnemyWave.new_enemyGrid (ws res : Nat × Nat) (mbh : ℚ) (tw th : Nat) :
    (EnemyWave.new ws res mbh tw th).enemyGrid
      = forGrid 5 4
          (fun g i j => modifyCell g i j (fun _ =>
            (Enemy.new (0 + (j : ℚ) * (EnemyWave.adjustSpacingForResolution (100, 70) res).1)
              (75 + mbh + (i : ℚ) * (EnemyWave.adjustSpacingForResolution (100, 70) res).2)
              ws.1 res).setTexture tw th))
          (List.replicate 5 (List.replicate 4 (Enemy.new 0 0 ws.1 res))) :=
  forGrid_fst 5 4 _ _ (fun _ _ _ => rfl) _

theorem EnemyWave.new_wellFormed (ws res : Nat × Nat) (mbh : ℚ) (tw th : Nat) :
    (EnemyWave.new ws res mbh tw th).WellFormed := by
  unfold EnemyWave.WellFormed
  rw [EnemyWave.new_enemyGrid]
  apply forGrid_invariant (fun g : List (List Enemy) => g.length = 5
    ∧ ∀ row ∈ g, row.length = 4)
  · intro g i j hg
    exact ⟨by rw [length_modifyCell]; exact hg.1, row_length_modifyCell g i j _ _ hg.2⟩
  · refine ⟨by simp, ?_⟩
    intro row hrow
    rw [List.eq_of_mem_replicate hrow]
    simp

/-- The constructor puts a living enemy at `(startX + j*spacingX, startY + i*spacingY)`
into every cell `(i, j)` of the 5x4 grid. -/
theorem EnemyWave.new_getEnemy (ws res : Nat × Nat) (mbh : ℚ) (tw th : Nat) (a b : Nat)
    (ha : a < 5) (hb : b < 4) :
    (EnemyWave.new ws res mbh tw th).getEnemy a b
      = some ((Enemy.new
          ((EnemyWave.new ws res mbh tw th).startX
            + (b : ℚ) * (EnemyWave.new ws res mbh tw th).spacingX)
          ((EnemyWave.new ws res mbh tw th).startY
            + (a : ℚ) * (EnemyWave.new ws res mbh tw th).spacingY)
          ws.1 res).setTexture tw th) := by
  unfold EnemyWave.getEnemy
  rw [EnemyWave.new_enemyGrid, cellAt_forGrid (fun i j _ =>
    (Enemy.new (0 + (j : ℚ) * (EnemyWave.adjustSpacingForResolution (100, 70) res).1)
      (75 + mbh + (i : ℚ) * (EnemyWave.adjustSpacingForResolution (100, 70) res).2)
      ws.1 res).setTexture tw th), if_pos ⟨ha, hb⟩]
  obtain ⟨e, he⟩ := cellAt_isSome (List.replicate 5 (List.replicate 4 (Enemy.new 0 0 ws.1 res)))
    5 4 (by simp) (fun row hrow => by rw [List.eq_of_mem_replicate hrow]; simp) a b ha hb
  rw [he]
  rfl

theorem mem_of_cellAt {α : Type} (g : List (List α)) (a b : Nat) (e : α)
    (h : cellAt g a b = some e) : ∃ row ∈ g, e ∈ row := by
  unfold cellAt at h
  cases hrow : g[a]? with
  | none => simp [hrow] at h
  | some row =>
    simp only [hrow] at h
    exact ⟨row, List.mem_iff_getElem?.mpr ⟨a, hrow⟩, List.mem_iff_getElem?.mpr ⟨b, h⟩⟩

theorem EnemyWave.respawnCell_isAlive (w : EnemyWave) (flag : Int) (i j : Nat) (e : Enemy) :
    (w.respawnCell flag i j e).isAlive = true := by
  unfold EnemyWave.respawnCell
  by_cases hf : flag = 0
  · simp [hf, Enemy.increaseSpeed, Enemy.setIsAlive]
  · simp [hf, Enemy.setIsAlive]

theorem EnemyWave.respawnCell_position (w : EnemyWave) (flag : Int) (i j : Nat) (e : Enemy) :
    (w.respawnCell flag i j e).getPosition
      = (w.startX + (j : ℚ) * w.spacingX, w.startY + (i : ℚ) * w.spacingY) := by
  unfold EnemyWave.respawnCell
  by_cases hf : flag = 0
  · simp [hf, Enemy.increaseSpeed, Enemy.setIsAlive, Enemy.setPosition, Enemy.getPosition,
      Sprite.setPosition]
  · simp [hf, Enemy.setIsAlive, Enemy.setPosition, Enemy.getPosition, Sprite.setPosition]

/-- After a respawn every liveness flag of a well-formed grid is true. -/
theorem EnemyWave.respawnEnemies_all_alive (w : EnemyWave) (flag : Int) (h : w.WellFormed) :
    ∀ row ∈ (w.respawnEnemies flag).enemyGrid, ∀ x ∈ row, x.isAlive = true := by
  intro row hrow x hx
  have hwf := w.wellFormed_respawnEnemies flag h
  obtain ⟨a, b, ha, hb, hcell⟩ := exists_cellAt_of_mem _ row x hrow hx
  have ha2 : a < w.rows := by
    have := hwf.1
    change (w.respawnEnemies flag).enemyGrid.length = w.rows at this
    omega
  have hb2 : b < w.columns := by
    have := hwf.2 row hrow
    change row.length = w.columns at this
    omega
  obtain ⟨e, he⟩ := w.getEnemy_isSome h a b ha2 hb2
  have hget := w.getEnemy_respawnEnemies flag a b
  rw [if_pos ⟨ha2, hb2⟩, he] at hget
  have : some x = some (w.respawnCell flag a b e) := hcell.symm.trans hget
  rw [Option.some.injEq] at this
  rw [this]
  exact w.respawnCell_isAlive flag a b e

/-- After a respawn of a non-empty well-formed grid `allEnemiesDead` is false. -/
theorem EnemyWave.respawnEnemies_not_allDead (w : EnemyWave) (flag : Int) (h : w.WellFormed)
    (hr : 0 < w.rows) (hc : 0 < w.columns) : (w.respawnEnemies flag).allEnemiesDead = false := by
  have hwf := w.wellFormed_respawnEnemies flag h
  obtain ⟨x, hx⟩ := (w.respawnEnemies flag).getEnemy_isSome hwf 0 0 hr hc
  obtain ⟨row, hrow, hmem⟩ := mem_of_cellAt _ 0 0 x hx
  have halive := w.respawnEnemies_all_alive flag h row hrow x hmem
  rw [← Bool.not_eq_true]
  intro hdead
  have := (EnemyWave.rowsAllDead_iff _).mp hdead row hrow x hmem
  rw [halive] at this
  cases this

theorem WaveEvent.clears_append_respawn (events : List WaveEvent) :
    WaveEvent.clears (events ++ [.respawn 0]) = WaveEvent.clears events + 1 := by
  induction events with
  | nil => rfl
  | cons ev rest ih =>
    cases ev with
    | kill a b =>
      show WaveEvent.clears (rest ++ [.respawn 0]) = WaveEvent.clears rest + 1
      exact ih
    | respawn f =>
      show (if f = 0 then 1 else 0) + WaveEvent.clears (rest ++ [.respawn 0])
        = (if f = 0 then 1 else 0) + WaveEvent.clears rest + 1
      rw [ih]
      omega

/-- Claim C9: on every 5x4 formation with the layout parameters of the
constructed one (in particular one whose enemies are all dead),
`respawnEnemies(0)` leaves all 20 liveness flags true (so `allEnemiesDead` is
false), puts enemy (i,j) at (startX + j*spacingX, startY + i*spacingY), which is
where the constructor put it, and doubles its movement speed; along the events
of a game that starts from the constructed formation the speed is the base
speed 3 * (width / 1280) times 2^k after k wave clears, and it grows strictly
with each wave clear when the resolution width is positive. -/
theorem respawn_wave_clear (ws res : Nat × Nat) (mbh : ℚ) (tw th : Nat) (w : EnemyWave)
    (hwf : w.WellFormed) (hrows : w.rows = 5) (hcols : w.columns = 4)
    (hstart : w.startX = (EnemyWave.new ws res mbh tw th).startX
      ∧ w.startY = (EnemyWave.new ws res mbh tw th).startY)
    (hspacing : w.spacingX = (EnemyWave.new ws res mbh tw th).spacingX
      ∧ w.spacingY = (EnemyWave.new ws res mbh tw th).spacingY)
    (i j : Nat) (hi : i < 5) (hj : j < 4) :
    (∃ e0 e e2, (EnemyWave.new ws res mbh tw th).getEnemy i j = some e0
        ∧ w.getEnemy i j = some e
        ∧ (w.respawnEnemies 0).getEnemy i j = some e2
        ∧ e2.isAlive = true
        ∧ e2.getPosition = (w.startX + (j : ℚ) * w.spacingX, w.startY + (i : ℚ) * w.spacingY)
        ∧ e2.getPosition = e0.getPosition
        ∧ e2.movementSpeed = e.movementSpeed * 2
        ∧ (0 < e.movementSpeed → e.movementSpeed < e2.movementSpeed))
      ∧ (w.respawnEnemies 0).allEnemiesDead = false
      ∧ (∀ row ∈ (w.respawnEnemies 0).enemyGrid, ∀ x ∈ row, x.isAlive = true)
      ∧ ((w.respawnEnemies 0).enemyGrid.length = 5
          ∧ ∀ row ∈ (w.respawnEnemies 0).enemyGrid, row.length = 4)
      ∧ (∀ events : List WaveEvent, ∃ ek ek2,
          ((EnemyWave.new ws res mbh tw th).runEvents events).getEnemy i j = some ek
            ∧ ek.movementSpeed = 3 * (1 * ((res.1 : ℚ) / 1280)) * 2 ^ WaveEvent.clears events
            ∧ ((EnemyWave.new ws res mbh tw th).runEvents (events ++ [.respawn 0])).getEnemy i j
                = some ek2
            ∧ ek2.movementSpeed = ek.movementSpeed * 2
            ∧ (0 < res.1 → ek.movementSpeed < ek2.movementSpeed)) := by
  have hi2 : i < w.rows := by omega
  have hj2 : j < w.columns := by omega
  obtain ⟨e, he⟩ := w.getEnemy_isSome hwf i j hi2 hj2
  have hget := w.getEnemy_respawnEnemies 0 i j
  rw [if_pos ⟨hi2, hj2⟩, he] at hget
  have hnew := EnemyWave.new_getEnemy ws res mbh tw th i j hi hj
  refine ⟨⟨_, e, _, hnew, he, hget, w.respawnCell_isAlive 0 i j e,
    w.respawnCell_position 0 i j e, ?_, ?_, ?_⟩, ?_, ?_, ?_, ?_⟩
  · rw [w.respawnCell_position 0 i j e, hstart.1, hstart.2, hspacing.1, hspacing.2]
    rfl
  · rw [w.respawnCell_speed 0 i j e]
    simp
  · intro hpos
    rw [w.respawnCell_speed 0 i j e]
    simp only [if_true, pow_one]
    linarith
  · exact w.respawnEnemies_not_allDead 0 hwf (by omega) (by omega)
  · exact w.respawnEnemies_all_alive 0 hwf
  · have h2 := w.wellFormed_respawnEnemies 0 hwf
    refine ⟨h2.1.trans hrows, fun row hrow => (h2.2 row hrow).trans hcols⟩
  · intro events
    have hw0 := EnemyWave.new_wellFormed ws res mbh tw th
    obtain ⟨e1, ek, h1, h2, h3⟩ := EnemyWave.speed_runEvents events _ hw0 i j hi hj
    obtain ⟨e1b, ek2, h1b, h2b, h3b⟩ :=
      EnemyWave.speed_runEvents (events ++ [.respawn 0]) _ hw0 i j hi hj
    rw [hnew] at h1 h1b
    simp only [Option.some.injEq] at h1 h1b
    have hbase : e1.movementSpeed = 3 * (1 * ((res.1 : ℚ) / 1280)) := by
      rw [← h1]; rfl
    have hclears := WaveEvent.clears_append_respawn events
    have hdouble : ek2.movementSpeed = ek.movementSpeed * 2 := by
      rw [h3b, h3, ← h1b, h1, hclears, pow_succ, mul_assoc]
    refine ⟨ek, ek2, h2, by rw [h3, hbase], h2b, hdouble, ?_⟩
    intro hres
    have hpos : 0 < ek.movementSpeed := by
      rw [h3, hbase]
      have : (0 : ℚ) < (res.1 : ℚ) := by exact_mod_cast hres
      positivity
    rw [hdouble]
    linarith

/-- Witness for claim C9: the constructed 1280x720 formation with every enemy
replaced by a dead one, cell (1, 2). -/
theorem respawn_wave_clear_witness :
    ({ EnemyWave.new (1280, 720) (1280, 720) 72 32 32 with
        enemyGrid := List.replicate 5 (List.replicate 4
          (Enemy.new 10 20 1280 (1280, 720)).kill) } : EnemyWave).allEnemiesDead = true
      ∧ (({ EnemyWave.new (1280, 720) (1280, 720) 72 32 32 with
        enemyGrid := List.replicate 5 (List.replicate 4
          (Enemy.new 10 20 1280 (1280, 720)).kill) } : EnemyWave).respawnEnemies 0).allEnemiesDead
        = false :=
  ⟨by decide,
   (respawn_wave_clear (1280, 720) (1280, 720) 72 32 32
    { EnemyWave.new (1280, 720) (1280, 720) 72 32 32 with
        enemyGrid := List.replicate 5 (List.replicate 4
          (Enemy.new 10 20 1280 (1280, 720)).kill) }
    (by decide) rfl rfl ⟨rfl, rfl⟩ ⟨rfl, rfl⟩ 1 2 (by decide) (by decide)).2.1⟩

/-- Claim C10: in every well-formed formation state `respawnEnemies(1)` moves the
enemy of every cell (i,j) to (startX + j*spacingX, startY + i*spacingY), the
position the constructor gave it, and sets its liveness flag, and changes
nothing else: movement speed, in-flight projectiles and every other field of
each enemy, and the total-spawned counter, dimensions and layout parameters of
the formation stay as they were. -/
theorem respawn_restart_frame (w : EnemyWave) (hwf : w.WellFormed) :
    (w.respawnEnemies 1).totalSpawned = w.totalSpawned
      ∧ (∀ i j, i < w.rows → j < w.columns → ∃ e, w.getEnemy i j = some e
          ∧ (w.respawnEnemies 1).getEnemy i j
              = some { e with
                  sprite := e.sprite.setPosition (w.startX + (j : ℚ) * w.spacingX)
                    (w.startY + (i : ℚ) * w.spacingY)
                  isAlive := true })
      ∧ (∀ i j e e2, w.getEnemy i j = some e → (w.respawnEnemies 1).getEnemy i j = some e2 →
          e2.movementSpeed = e.movementSpeed ∧ e2.bullets = e.bullets)
      ∧ (∀ row ∈ (w.respawnEnemies 1).enemyGrid, ∀ x ∈ row, x.isAlive = true)
      ∧ (w.respawnEnemies 1).WellFormed
      ∧ ((w.respawnEnemies 1).rows = w.rows ∧ (w.respawnEnemies 1).columns = w.columns
          ∧ (w.respawnEnemies 1).startX = w.startX ∧ (w.respawnEnemies 1).startY = w.startY
          ∧ (w.respawnEnemies 1).spacingX = w.spacingX
          ∧ (w.respawnEnemies 1).spacingY = w.spacingY)
      ∧ (∀ (ws res : Nat × Nat) (mbh : ℚ) (tw th : Nat) (events : List WaveEvent),
          w = (EnemyWave.new ws res mbh tw th).runEvents events →
          ∀ i j, i < 5 → j < 4 → ∃ e0 e2,
            (EnemyWave.new ws res mbh tw th).getEnemy i j = some e0
              ∧ (w.respawnEnemies 1).getEnemy i j = some e2
              ∧ e2.getPosition = e0.getPosition) := by
  have hcell : ∀ i j (e : Enemy), w.respawnCell 1 i j e
      = { e with
          sprite := e.sprite.setPosition (w.startX + (j : ℚ) * w.spacingX)
            (w.startY + (i : ℚ) * w.spacingY)
          isAlive := true } := fun _ _ _ => rfl
  refine ⟨rfl, ?_, ?_, w.respawnEnemies_all_alive 1 hwf, w.wellFormed_respawnEnemies 1 hwf,
    ⟨rfl, rfl, rfl, rfl, rfl, rfl⟩, ?_⟩
  · intro i j hi hj
    obtain ⟨e, he⟩ := w.getEnemy_isSome hwf i j hi hj
    refine ⟨e, he, ?_⟩
    rw [w.getEnemy_respawnEnemies 1 i j, if_pos ⟨hi, hj⟩, he]
    rfl
  · intro i j e e2 he he2
    rw [w.getEnemy_respawnEnemies 1 i j, he] at he2
    split_ifs at he2
    · simp only [Option.map_some', Option.some.injEq] at he2
      rw [← he2, hcell]
      exact ⟨rfl, rfl⟩
    · simp only [Option.some.injEq] at he2
      rw [← he2]
      exact ⟨rfl, rfl⟩
  · intro ws res mbh tw th events hw i j hi hj
    have hl := EnemyWave.layout_runEvents events (EnemyWave.new ws res mbh tw th)
    rw [← hw] at hl
    have hi2 : i < w.rows := by rw [hl.1]; exact hi
    have hj2 : j < w.columns := by rw [hl.2.1]; exact hj
    obtain ⟨e, he⟩ := w.getEnemy_isSome hwf i j hi2 hj2
    refine ⟨_, w.respawnCell 1 i j e, EnemyWave.new_getEnemy ws res mbh tw th i j hi hj, ?_, ?_⟩
    · rw [w.getEnemy_respawnEnemies 1 i j, if_pos ⟨hi2, hj2⟩, he]
      rfl
    · rw [w.respawnCell_position 1 i j e, hl.2.2.1, hl.2.2.2.1, hl.2.2.2.2.1, hl.2.2.2.2.2.1]
      rfl

/-- Witness for claim C10: the constructed 1280x720 formation after two kills. -/
theorem respawn_restart_frame_witness :
    (((EnemyWave.new (1280, 720) (1280, 720) 72 32 32).runEvents
        [.kill 0 0, .kill 3 1]).respawnEnemies 1).totalSpawned
      = ((EnemyWave.new (1280, 720) (1280, 720) 72 32 32).runEvents
        [.kill 0 0, .kill 3 1]).totalSpawned :=
  (respawn_restart_frame
    ((EnemyWave.new (1280, 720) (1280, 720) 72 32 32).runEvents [.kill 0 0, .kill 3 1])
    (by decide)).1

/-! ## Player projectiles against the formation -/

theorem Player.scanCell_removed (b : Bullet) (st : ScanState) (i j : Nat)
    (h : st.bulletRemoved = true) : Player.scanCell b st i j = st := by
  unfold Player.scanCell
  rw [if_pos h]

theorem Player.scanCell_miss (b : Bullet) (st : ScanState) (i j : Nat)
    (hm : Player.hits b st.wave i j = false) : Player.scanCell b st i j = st := by
  unfold Player.scanCell
  unfold Player.hits at hm
  split_ifs with h
  · rfl
  · cases he : st.wave.getEnemy i j with
    | none => rfl
    | some e =>
      rw [he] at hm
      simp only [] at hm
      simp only [hm]
      rfl

theorem Player.scanCell_hit (b : Bullet) (st : ScanState) (i j : Nat)
    (h : st.bulletRemoved = false) (hh : Player.hits b st.wave i j = true) :
    Player.scanCell b st i j
      = { wave := st.wave.killAt i j, metrics := st.metrics.increaseScore 10,
          bulletRemoved := true } := by
  unfold Player.scanCell
  unfold Player.hits at hh
  rw [if_neg (by rw [h]; exact Bool.false_ne_true)]
  cases he : st.wave.getEnemy i j with
  | none => rw [he] at hh; cases hh
  | some e =>
    rw [he] at hh
    simp only [] at hh
    simp only [hh, if_true]

/-- Once the projectile is removed the rest of a row is skipped. -/
theorem Player.rowScan_removed (b : Bullet) (i n : Nat) (st : ScanState)
    (h : st.bulletRemoved = true) :
    (List.range n).foldl (fun s j => Player.scanCell b s i j) st = st := by
  apply foldl_range_invariant (fun s => s = st) _ _ n st rfl
  intro s k hs
  rw [hs]
  exact Player.scanCell_removed b st i k h

/-- A row without a hit leaves the scan state as it is. -/
theorem Player.rowScan_miss (b : Bullet) (i n : Nat) (st : ScanState)
    (hm : ∀ j, j < n → Player.hits b st.wave i j = false) :
    (List.range n).foldl (fun s j => Player.scanCell b s i j) st = st := by
  induction n with
  | zero => rfl
  | succ k ih =>
    rw [List.range_succ, List.foldl_append, ih (fun j hj => hm j (by omega))]
    exact Player.scanCell_miss b st i k (hm k (by omega))

/-- The first hit of a row kills that enemy, scores and removes the projectile. -/
theorem Player.rowScan_hit (b : Bullet) (i n : Nat) (st : ScanState)
    (h : st.bulletRemoved = false) (j0 : Nat) (hj0 : j0 < n)
    (hh : Player.hits b st.wave i j0 = true)
    (hm : ∀ j, j < j0 → Player.hits b st.wave i j = false) :
    (List.range n).foldl (fun s j => Player.scanCell b s i j) st
      = { wave := st.wave.killAt i j0, metrics := st.metrics.increaseScore 10,
          bulletRemoved := true } := by
  induction n with
  | zero => omega
  | succ k ih =>
    rw [List.range_succ, List.foldl_append]
    by_cases hk : j0 < k
    · rw [ih hk]
      exact Player.scanCell_removed b
        { wave := st.wave.killAt i j0, metrics := st.metrics.increaseScore 10,
          bulletRemoved := true } i k rfl
    · have hjk : j0 = k := by omega
      subst hjk
      rw [Player.rowScan_miss b i j0 st hm]
      exact Player.scanCell_hit b st i j0 h hh

/-- Rows without a hit leave the scan state as it is. -/
theorem Player.gridScan_miss (b : Bullet) (n columns : Nat) (st : ScanState)
    (hm : ∀ i j, i < n → j < columns → Player.hits b st.wave i j = false) :
    forGrid n columns (Player.scanCell b) st = st := by
  unfold forGrid
  induction n with
  | zero => rfl
  | succ k ih =>
    rw [List.range_succ, List.foldl_append, ih (fun i j hi hj => hm i j (by omega) hj)]
    exact Player.rowScan_miss b k columns st (fun j hj => hm k j (by omega) hj)

/-- The first hit in row-major order kills that enemy, scores and removes the
projectile; no later cell is touched. -/
theorem Player.gridScan_hit (b : Bullet) (n columns : Nat) (st : ScanState)
    (h : st.bulletRemoved = false) (i0 j0 : Nat) (hi0 : i0 < n) (hj0 : j0 < columns)
    (hh : Player.hits b st.wave i0 j0 = true)
    (hm : ∀ i j, i < n → j < columns → (i < i0 ∨ (i = i0 ∧ j < j0)) →
      Player.hits b st.wave i j = false) :
    forGrid n columns (Player.scanCell b) st
      = { wave := st.wave.killAt i0 j0, metrics := st.metrics.increaseScore 10,
          bulletRemoved := true } := by
  unfold forGrid
  induction n with
  | zero => omega
  | succ k ih =>
    rw [List.range_succ, List.foldl_append]
    by_cases hk : i0 < k
    · rw [ih hk (fun i j hi hj hlt => hm i j (by omega) hj hlt)]
      exact Player.rowScan_removed b k columns _ rfl
    · have hik : i0 = k := by omega
      subst hik
      have h1 := Player.gridScan_miss b i0 columns st
        (fun i j hi hj => hm i j (by omega) hj (Or.inl hi))
      unfold forGrid at h1
      rw [h1]
      exact Player.rowScan_hit b i0 columns st h j0 hj0 hh
        (fun j hj => hm i0 j (by omega) (by omega) (Or.inr ⟨rfl, hj⟩))

/-- Among the cells of a grid that satisfy a test there is a first one in
row-major order. -/
theorem exists_first_cell (rows columns : Nat) (p : Nat → Nat → Bool)
    (h : ∃ i j, i < rows ∧ j < columns ∧ p i j = true) :
    ∃ i j, i < rows ∧ j < columns ∧ p i j = true
      ∧ ∀ a c, a < rows → c < columns → (a < i ∨ (a = i ∧ c < j)) → p a c = false := by
  classical
  have hrow : ∃ i, ∃ j, i < rows ∧ j < columns ∧ p i j = true := h
  obtain ⟨hcol, hmin⟩ := Nat.find_spec hrow, fun a => Nat.find_min hrow (m := a)
  have hj := Nat.find_spec hcol
  have hjmin := fun c => Nat.find_min hcol (m := c)
  refine ⟨Nat.find hrow, Nat.find hcol, hj.1, hj.2.1, hj.2.2, ?_⟩
  intro a c ha hc hlt
  rcases hlt with hlt | ⟨rfl, hlt⟩
  · rw [← Bool.not_eq_true]
    intro hp
    exact hmin a hlt ⟨c, ha, hc, hp⟩
  · rw [← Bool.not_eq_true]
    intro hp
    exact hjmin c hlt ⟨ha, hc, hp⟩

theorem Player.scanEnemies_miss (b : Bullet) (w : EnemyWave) (m : Metrics)
    (hm : ∀ i j, i < w.rows → j < w.columns → Player.hits b w i j = false) :
    Player.scanEnemies b w m = { wave := w, metrics := m, bulletRemoved := false } :=
  Player.gridScan_miss b w.rows w.columns _ hm

theorem Player.scanEnemies_hit (b : Bullet) (w : EnemyWave) (m : Metrics) (i j : Nat)
    (hi : i < w.rows) (hj : j < w.columns) (hh : Player.hits b w i j = true)
    (hm : ∀ a c, a < w.rows → c < w.columns → (a < i ∨ (a = i ∧ c < j)) →
      Player.hits b w a c = false) :
    Player.scanEnemies b w m
      = { wave := w.killAt i j, metrics := m.increaseScore 10, bulletRemoved := true } :=
  Player.gridScan_hit b w.rows w.columns _ rfl i j hi hj hh hm

/-- Each projectile either leaves wave and metrics alone and stays, or kills
one enemy, scores 10 and is removed. -/
theorem Player.scanEnemies_cases (b : Bullet) (w : EnemyWave) (m : Metrics) :
    Player.scanEnemies b w m = { wave := w, metrics := m, bulletRemoved := false }
      ∨ ∃ i j, Player.scanEnemies b w m
          = { wave := w.killAt i j, metrics := m.increaseScore 10, bulletRemoved := true } := by
  by_cases h : ∃ i j, i < w.rows ∧ j < w.columns ∧ Player.hits b w i j = true
  · obtain ⟨i, j, hi, hj, hh, hm⟩ := exists_first_cell w.rows w.columns (Player.hits b w) h
    exact Or.inr ⟨i, j, Player.scanEnemies_hit b w m i j hi hj hh hm⟩
  · left
    apply Player.scanEnemies_miss
    intro i j hi hj
    rw [← Bool.not_eq_true]
    intro hh
    exact h ⟨i, j, hi, hj, hh⟩

theorem Metrics.increaseScore_score (m : Metrics) (points : Int) :
    (m.increaseScore points).score = m.score + points := by
  unfold Metrics.increaseScore Metrics.updateHighestScore
  split_ifs <;> rfl

/-- The projectiles that stay are a sub-list of the projectiles processed, and
the score grows by 10 for each projectile removed. -/
theorem Player.resolveBullets_score (bs : List Bullet) (w : EnemyWave) (m : Metrics) :
    (Player.resolveBullets bs w m).1.Sublist bs
      ∧ (Player.resolveBullets bs w m).2.2.score
          = m.score + 10 * ((bs.length : Int) - ((Player.resolveBullets bs w m).1.length : Int)) := by
  induction bs generalizing w m with
  | nil => exact ⟨List.Sublist.slnil, by simp [Player.resolveBullets]⟩
  | cons b rest ih =>
    rcases Player.scanEnemies_cases b w m with h | ⟨i, j, h⟩
    · have e : Player.resolveBullets (b :: rest) w m
          = (b :: (Player.resolveBullets rest w m).1, (Player.resolveBullets rest w m).2.1,
              (Player.resolveBullets rest w m).2.2) := by
        rw [Player.resolveBullets, h]
        rfl
      rw [e]
      refine ⟨(ih w m).1.cons₂ b, ?_⟩
      have := (ih w m).2
      simp only [List.length_cons, Nat.cast_add, Nat.cast_one]
      omega
    · have e : Player.resolveBullets (b :: rest) w m
          = Player.resolveBullets rest (w.killAt i j) (m.increaseScore 10) := by
        rw [Player.resolveBullets, h]
        rfl
      rw [e]
      refine ⟨(ih _ _).1.cons b, ?_⟩
      have := (ih (w.killAt i j) (m.increaseScore 10)).2
      have hlen := (ih (w.killAt i j) (m.increaseScore 10)).1.length_le
      rw [Metrics.increaseScore_score] at this
      simp only [List.length_cons, Nat.cast_add, Nat.cast_one]
      omega

/-- Claim C1: `updateBullets` moves every projectile and then handles them in
order.  A projectile `b` whose box intersects some enemy alive at that moment
kills exactly the first such enemy in row-major order (no other cell changes),
raises the score by exactly 10 and is removed; the remaining projectiles are
handled against the resulting grid.  A projectile that intersects no living
enemy stays in the collection and leaves grid and metrics as they are.  In
total the projectiles that stay are a sub-list of the moved ones and the score
grows by 10 per removed projectile. -/
theorem updateBullets_first_match (p : Player) (delta : ℚ) (b : Bullet) (rest : List Bullet)
    (w : EnemyWave) (m : Metrics) :
    (p.updateBullets delta w m
        = ({ p with bullet := (Player.resolveBullets
              (p.bullet.map (fun x => x.update delta "player")) w m).1 },
            (Player.resolveBullets (p.bullet.map (fun x => x.update delta "player")) w m).2.1,
            (Player.resolveBullets (p.bullet.map (fun x => x.update delta "player")) w m).2.2))
      ∧ ((∃ i j, i < w.rows ∧ j < w.columns ∧ Player.hits b w i j = true) →
          ∃ i j e, i < w.rows ∧ j < w.columns ∧ w.getEnemy i j = some e
            ∧ e.isAlive = true ∧ b.getGlobalBounds.intersects e.getGlobalBounds = true
            ∧ (∀ a c, a < w.rows → c < w.columns → (a < i ∨ (a = i ∧ c < j)) →
                Player.hits b w a c = false)
            ∧ Player.resolveBullets (b :: rest) w m
                = Player.resolveBullets rest (w.killAt i j) (m.increaseScore 10)
            ∧ (w.killAt i j).getEnemy i j = some e.kill
            ∧ e.kill.isAlive = false
            ∧ (∀ a c, ¬ (i = a ∧ j = c) → (w.killAt i j).getEnemy a c = w.getEnemy a c)
            ∧ (m.increaseScore 10).score = m.score + 10)
      ∧ ((∀ i j, i < w.rows → j < w.columns → Player.hits b w i j = false) →
          Player.resolveBullets (b :: rest) w m
            = (b :: (Player.resolveBullets rest w m).1, (Player.resolveBullets rest w m).2.1,
                (Player.resolveBullets rest w m).2.2))
      ∧ ((p.updateBullets delta w m).1.bullet.Sublist
            (p.bullet.map (fun x => x.update delta "player"))
          ∧ (p.updateBullets delta w m).2.2.score
              = m.score + 10 * ((p.bullet.length : Int)
                  - ((p.updateBullets delta w m).1.bullet.length : Int))) := by
  refine ⟨rfl, ?_, ?_, ?_⟩
  · intro h
    obtain ⟨i, j, hi, hj, hh, hm⟩ := exists_first_cell w.rows w.columns (Player.hits b w) h
    have hscan := Player.scanEnemies_hit b w m i j hi hj hh hm
    have hcell : ∀ a c, (w.killAt i j).getEnemy a c
        = if i = a ∧ j = c then (w.getEnemy a c).map Enemy.kill else w.getEnemy a c :=
      fun a c => cellAt_modifyCell w.enemyGrid i j Enemy.kill a c
    have hh2 := hh
    unfold Player.hits at hh2
    cases he : w.getEnemy i j with
    | none => rw [he] at hh2; cases hh2
    | some e =>
      rw [he] at hh2
      simp only [Bool.and_eq_true, Enemy.getIsAlive] at hh2
      refine ⟨i, j, e, hi, hj, he, hh2.1, hh2.2, hm, ?_, ?_, rfl, ?_,
        Metrics.increaseScore_score m 10⟩
      · rw [Player.resolveBullets, hscan]
        rfl
      · rw [hcell, if_pos ⟨rfl, rfl⟩, he]
        rfl
      · intro a c hne
        rw [hcell, if_neg hne]
  · intro hm
    rw [Player.resolveBullets, Player.scanEnemies_miss b w m hm]
    rfl
  · have := Player.resolveBullets_score (p.bullet.map (fun x => x.update delta "player")) w m
    rw [List.length_map] at this
    exact this

/-- Witness for claim C1: a wide projectile over the first row of the
constructed 1280x720 formation overlaps the living enemies at (0,0) and (0,1);
only the enemy at (0,0) is killed, the score grows by 10 once and the
projectile is removed. -/
theorem updateBullets_first_match_witness :
    Player.hits ⟨⟨10, 150, 1, 1, 200, 10⟩, 300⟩
        (EnemyWave.new (1280, 720) (1280, 720) 72 32 32) 0 1 = true
      ∧ Player.resolveBullets [⟨⟨10, 150, 1, 1, 200, 10⟩, 300⟩]
          (EnemyWave.new (1280, 720) (1280, 720) 72 32 32) ⟨0, 0, 20, []⟩
        = ([], (EnemyWave.new (1280, 720) (1280, 720) 72 32 32).killAt 0 0,
            (⟨0, 0, 20, []⟩ : Metrics).increaseScore 10) := by
  have h00 : Player.hits ⟨⟨10, 150, 1, 1, 200, 10⟩, 300⟩
      (EnemyWave.new (1280, 720) (1280, 720) 72 32 32) 0 0 = true := by
    unfold Player.hits
    rw [EnemyWave.new_getEnemy _ _ _ _ _ 0 0 (by decide) (by decide)]
    norm_num [Enemy.getIsAlive, Enemy.setTexture, Enemy.new, Enemy.setPosition,
      Enemy.getGlobalBounds, Bullet.getGlobalBounds, FloatRect.intersects,
      Sprite.getGlobalBounds, Sprite.setTexture, Sprite.setPosition, Sprite.setScale,
      Sprite.default, EnemyWave.new, EnemyWave.adjustSpacingForResolution]
  have h01 : Player.hits ⟨⟨10, 150, 1, 1, 200, 10⟩, 300⟩
      (EnemyWave.new (1280, 720) (1280, 720) 72 32 32) 0 1 = true := by
    unfold Player.hits
    rw [EnemyWave.new_getEnemy _ _ _ _ _ 0 1 (by decide) (by decide)]
    norm_num [Enemy.getIsAlive, Enemy.setTexture, Enemy.new, Enemy.setPosition,
      Enemy.getGlobalBounds, Bullet.getGlobalBounds, FloatRect.intersects,
      Sprite.getGlobalBounds, Sprite.setTexture, Sprite.setPosition, Sprite.setScale,
      Sprite.default, EnemyWave.new, EnemyWave.adjustSpacingForResolution]
  refine ⟨h01, ?_⟩
  obtain ⟨i, j, e, _, _, _, _, _, hmin, hres, _⟩ :=
    (updateBullets_first_match (Player.new (1280, 720) ⟨1280, 720, true⟩) 0
      ⟨⟨10, 150, 1, 1, 200, 10⟩, 300⟩ [] (EnemyWave.new (1280, 720) (1280, 720) 72 32 32)
      ⟨0, 0, 20, []⟩).2.1 ⟨0, 0, by decide, by decide, h00⟩
  have hij : i = 0 ∧ j = 0 := by
    by_contra hne
    have hlt : 0 < i ∨ (0 = i ∧ 0 < j) := by omega
    have := hmin 0 0 (by decide) (by decide) hlt
    rw [h00] at this
    cases this
  rw [hij.1, hij.2] at hres
  rw [hres]
  rfl

/-! ## Projectile movement -/

/-- Claim C11: `Bullet::update` with speed 300 (the speed the constructor sets
and no operation changes) moves an "enemy" projectile from (x, y) to
(x + 300*dt, y) and a "player" projectile to (x - 300*dt, y), for every time
step dt, in particular dt >= 0; the y coordinate never changes, and for any
other type string the projectile is unchanged. -/
theorem bullet_update_moves (b : Bullet) (dt : ℚ) (type : String) (hs : b.speed = 300) :
    ((b.update dt "enemy").bulletSprite.posX = b.bulletSprite.posX + 300 * dt
        ∧ (b.update dt "enemy").bulletSprite.posY = b.bulletSprite.posY)
      ∧ ((b.update dt "player").bulletSprite.posX = b.bulletSprite.posX - 300 * dt
        ∧ (b.update dt "player").bulletSprite.posY = b.bulletSprite.posY)
      ∧ (type ≠ "enemy" → type ≠ "player" → b.update dt type = b)
      ∧ (b.update dt type).bulletSprite.posY = b.bulletSprite.posY
      ∧ (b.update dt type).speed = 300
      ∧ (∀ (x y : ℚ) (ty : String) (res : Nat × Nat) (tw th : Nat),
          (Bullet.new x y ty res tw th).speed = 300
            ∧ (Bullet.new x y ty res tw th).bulletSprite.posX = x
            ∧ (Bullet.new x y ty res tw th).bulletSprite.posY = y) := by
  have hpe : ¬ ("player" = "enemy") := by decide
  refine ⟨⟨?_, ?_⟩, ⟨?_, ?_⟩, ?_, ?_, ?_, ?_⟩
  · simp [Bullet.update, Sprite.move, hs]
  · simp [Bullet.update, Sprite.move]
  · simp only [Bullet.update, if_neg hpe, if_true, Sprite.move, hs]
    ring
  · simp [Bullet.update, Sprite.move, hpe]
  · intro h1 h2
    simp [Bullet.update, h1, h2]
  · unfold Bullet.update
    split_ifs <;> simp [Sprite.move]
  · unfold Bullet.update
    split_ifs <;> exact hs
  · intro x y ty res tw th
    unfold Bullet.new
    refine ⟨rfl, ?_, ?_⟩ <;> (split_ifs <;> rfl)

/-- Witness for claim C11: a constructed player projectile at (1174, 376) and a
time step of 1/60 s. -/
theorem bullet_update_moves_witness :
    ((Bullet.new 1174 376 "player" (1280, 720) 16 16).update (1 / 60) "player").bulletSprite.posX
      = (Bullet.new 1174 376 "player" (1280, 720) 16 16).bulletSprite.posX - 300 * (1 / 60) :=
  (bullet_update_moves (Bullet.new 1174 376 "player" (1280, 720) 16 16) (1 / 60) "player"
    rfl).2.1.1

/-! ## Expired enemy projectiles -/

theorem Enemy.removeBulletAt_keep (resX : Nat) (pre post : List Bullet) (b : Bullet)
    (h : ¬ b.getGlobalBounds.left > (resX : ℚ)) :
    Enemy.removeBulletAt resX (pre ++ b :: post) pre.length = pre ++ b :: post := by
  have hb : (pre ++ b :: post)[pre.length]? = some b := by
    rw [List.getElem?_append_right (le_refl _), Nat.sub_self]
    exact List.getElem?_cons_zero
  unfold Enemy.removeBulletAt
  rw [hb]
  simp only []
  rw [if_neg h]

theorem Enemy.removeBulletAt_drop (resX : Nat) (pre post : List Bullet) (b : Bullet)
    (h : b.getGlobalBounds.left > (resX : ℚ)) :
    Enemy.removeBulletAt resX (pre ++ b :: post) pre.length = pre ++ post := by
  have hb : (pre ++ b :: post)[pre.length]? = some b := by
    rw [List.getElem?_append_right (le_refl _), Nat.sub_self]
    exact List.getElem?_cons_zero
  unfold Enemy.removeBulletAt
  rw [hb]
  simp only []
  rw [if_pos h, List.eraseIdx_append_of_length_le (le_refl _), Nat.sub_self]
  rfl

/-- The backward loop of `Enemy::removeBullet` over the first `pre.length`
indices filters `pre` and leaves the rest of the list alone. -/
theorem Enemy.removeBullet_loop (resX : Nat) (pre : List Bullet) :
    ∀ post : List Bullet,
      (List.range pre.length).reverse.foldl (Enemy.removeBulletAt resX) (pre ++ post)
        = pre.filter (fun b => decide (b.getGlobalBounds.left ≤ (resX : ℚ))) ++ post := by
  induction pre using List.reverseRecOn with
  | nil => intro post; rfl
  | append_singleton pre b ih =>
    intro post
    rw [List.length_append, List.length_singleton, List.range_succ, List.reverse_append,
      List.reverse_singleton, List.singleton_append, List.foldl_cons, List.append_assoc,
      List.singleton_append, List.filter_append]
    by_cases h : b.getGlobalBounds.left > (resX : ℚ)
    · rw [Enemy.removeBulletAt_drop resX pre post b h, ih post]
      have : ¬ b.getGlobalBounds.left ≤ (resX : ℚ) := not_le.mpr h
      simp [this]
    · rw [Enemy.removeBulletAt_keep resX pre post b h, ih (b :: post)]
      have : b.getGlobalBounds.left ≤ (resX : ℚ) := not_lt.mp h
      simp [this]

theorem Enemy.removeBullet_bullets (e : Enemy) :
    e.removeBullet.bullets
      = e.bullets.filter (fun b => decide (b.getGlobalBounds.left ≤ (e.res1.1 : ℚ))) := by
  have h := Enemy.removeBullet_loop e.res1.1 e.bullets []
  rw [List.append_nil, List.append_nil] at h
  exact h

/-- Claim C12: `Enemy::removeBullet` leaves exactly the sub-list of the
projectiles whose bounding-box left coordinate is at most the screen width
(the width `res1.x` of the configured resolution), in their original order, and
touches nothing else of the enemy; `Enemy::update` moves the projectiles and
then removes, so after it no projectile of the enemy lies beyond that edge. -/
theorem removeBullet_keeps_on_screen (e : Enemy) (dt : ℚ) :
    e.removeBullet.bullets
        = e.bullets.filter (fun b => decide (b.getGlobalBounds.left ≤ (e.res1.1 : ℚ)))
      ∧ e.removeBullet = { e with bullets := e.removeBullet.bullets }
      ∧ e.removeBullet.bullets.Sublist e.bullets
      ∧ (∀ b ∈ e.bullets, (b ∈ e.removeBullet.bullets ↔ b.getGlobalBounds.left ≤ (e.res1.1 : ℚ)))
      ∧ (e.update dt).bullets
          = (e.bullets.map (fun b => b.update dt "enemy")).filter
              (fun b => decide (b.getGlobalBounds.left ≤ (e.res1.1 : ℚ)))
      ∧ (∀ b ∈ (e.update dt).bullets, b.getGlobalBounds.left ≤ (e.res1.1 : ℚ)) := by
  have h1 := e.removeBullet_bullets
  have hupd : (e.update dt).bullets
      = (e.bullets.map (fun b => b.update dt "enemy")).filter
          (fun b => decide (b.getGlobalBounds.left ≤ (e.res1.1 : ℚ))) := by
    unfold Enemy.update
    simp only []
    split_ifs <;> exact Enemy.removeBullet_bullets _
  refine ⟨h1, rfl, ?_, ?_, hupd, ?_⟩
  · rw [h1]
    exact List.filter_sublist _
  · intro b hb
    rw [h1, List.mem_filter]
    simp [hb]
  · intro b hb
    rw [hupd, List.mem_filter] at hb
    simpa using hb.2

/-! ## Constructor layout -/

/-- Claim C16: the constructor builds a 5x4 grid with startX = 0 and
startY = 75 + metricsBarHeight and puts a living enemy (i,j) at
(startX + j*spacingX, startY + i*spacingY); the spacing is (70,40) for 640x360,
(100,70) for 1280x720, (130,90) for 1920x1080, (160,110) for 3840x2160, and for
every other resolution `adjustSpacingForResolution` keeps the current value,
which is the default (100,70) at construction. -/
theorem constructor_layout (ws res : Nat × Nat) (mbh : ℚ) (tw th : Nat) (i j : Nat)
    (hi : i < 5) (hj : j < 4) :
    (∃ e, (EnemyWave.new ws res mbh tw th).getEnemy i j = some e
        ∧ e.getPosition
            = ((EnemyWave.new ws res mbh tw th).startX
                + (j : ℚ) * (EnemyWave.new ws res mbh tw th).spacingX,
               (EnemyWave.new ws res mbh tw th).startY
                + (i : ℚ) * (EnemyWave.new ws res mbh tw th).spacingY)
        ∧ e.isAlive = true)
      ∧ (EnemyWave.new ws res mbh tw th).rows = 5
      ∧ (EnemyWave.new ws res mbh tw th).columns = 4
      ∧ (EnemyWave.new ws res mbh tw th).startX = 0
      ∧ (EnemyWave.new ws res mbh tw th).startY = 75 + mbh
      ∧ ((EnemyWave.new ws res mbh tw th).spacingX, (EnemyWave.new ws res mbh tw th).spacingY)
          = EnemyWave.adjustSpacingForResolution (100, 70) res
      ∧ (∀ cur : ℚ × ℚ,
          EnemyWave.adjustSpacingForResolution cur (640, 360) = (70, 40)
            ∧ EnemyWave.adjustSpacingForResolution cur (1280, 720) = (100, 70)
            ∧ EnemyWave.adjustSpacingForResolution cur (1920, 1080) = (130, 90)
            ∧ EnemyWave.adjustSpacingForResolution cur (3840, 2160) = (160, 110)
            ∧ (res ≠ (640, 360) → res ≠ (1280, 720) → res ≠ (1920, 1080) → res ≠ (3840, 2160) →
                EnemyWave.adjustSpacingForResolution cur res = cur)) := by
  refine ⟨⟨_, EnemyWave.new_getEnemy ws res mbh tw th i j hi hj, rfl, rfl⟩, rfl, rfl, rfl, rfl,
    rfl, ?_⟩
  intro cur
  refine ⟨by simp [EnemyWave.adjustSpacingForResolution],
    by simp [EnemyWave.adjustSpacingForResolution],
    by simp [EnemyWave.adjustSpacingForResolution],
    by simp [EnemyWave.adjustSpacingForResolution], ?_⟩
  intro h1 h2 h3 h4
  simp [EnemyWave.adjustSpacingForResolution, h1, h2, h3, h4]

/-- Witness for claim C16: enemy (2, 3) of the 1920x1080 formation sits at
(0 + 3*130, 75 + 108 + 2*90). -/
theorem constructor_layout_witness :
    ∃ e, (EnemyWave.new (1920, 1080) (1920, 1080) 108 32 32).getEnemy 2 3 = some e
      ∧ e.getPosition = ((0 : ℚ) + 3 * 130, (75 : ℚ) + 108 + 2 * 90) := by
  obtain ⟨⟨e, he, hpos, _⟩, _, _, hx, hy, hsp, htab⟩ :=
    constructor_layout (1920, 1080) (1920, 1080) 108 32 32 2 3 (by decide) (by decide)
  refine ⟨e, he, ?_⟩
  rw [hpos, hx, hy]
  have h2 := (htab (100, 70)).2.2.1
  rw [h2] at hsp
  have hsx := congrArg Prod.fst hsp
  have hsy := congrArg Prod.snd hsp
  simp only [] at hsx hsy
  rw [hsx, hsy]
  norm_num

/-! ## Highest score -/

/-- Claim C18, as the code has it: `isCollidingWithEnemy` is true exactly when
the two bounding boxes overlap on the x axis (player left < enemy right and
enemy left < player right); the y axis is not examined, so the result does not
change when the enemy is moved vertically.  It is therefore true whenever the
boxes intersect, and also for an enemy entirely above or below the player whose
x extent overlaps the player's. -/
theorem colliding_iff_x_overlap (p : Player) (enemySprite : Sprite) :
    (p.isCollidingWithEnemy enemySprite = true
        ↔ p.sprite.getGlobalBounds.left
              < enemySprite.getGlobalBounds.left + enemySprite.getGlobalBounds.width
            ∧ enemySprite.getGlobalBounds.left
              < p.sprite.getGlobalBounds.left + p.sprite.getGlobalBounds.width)
      ∧ (∀ y : ℚ, p.isCollidingWithEnemy (enemySprite.setPosition enemySprite.posX y)
          = p.isCollidingWithEnemy enemySprite)
      ∧ (p.sprite.getGlobalBounds.intersects enemySprite.getGlobalBounds = true →
          p.isCollidingWithEnemy enemySprite = true) := by
  have hiff : p.isCollidingWithEnemy enemySprite = true
        ↔ p.sprite.getGlobalBounds.left
              < enemySprite.getGlobalBounds.left + enemySprite.getGlobalBounds.width
            ∧ enemySprite.getGlobalBounds.left
              < p.sprite.getGlobalBounds.left + p.sprite.getGlobalBounds.width := by
    unfold Player.isCollidingWithEnemy
    simp
  refine ⟨hiff, ?_, ?_⟩
  · intro y
    rfl
  · intro h
    rw [hiff]
    unfold FloatRect.intersects at h
    simp only [Bool.and_eq_true, decide_eq_true_eq] at h
    have hx := h.1
    have hwp : 0 ≤ p.sprite.getGlobalBounds.width := by
      unfold Sprite.getGlobalBounds
      simp only []
      exact sub_nonneg.mpr (le_trans (min_le_left _ _) (le_max_left _ _))
    have hwe : 0 ≤ enemySprite.getGlobalBounds.width := by
      unfold Sprite.getGlobalBounds
      simp only []
      exact sub_nonneg.mpr (le_trans (min_le_left _ _) (le_max_left _ _))
    have e1 : min p.sprite.getGlobalBounds.left
        (p.sprite.getGlobalBounds.left + p.sprite.getGlobalBounds.width)
        = p.sprite.getGlobalBounds.left := min_eq_left (by linarith)
    have e2 : max p.sprite.getGlobalBounds.left
        (p.sprite.getGlobalBounds.left + p.sprite.getGlobalBounds.width)
        = p.sprite.getGlobalBounds.left + p.sprite.getGlobalBounds.width :=
      max_eq_right (by linarith)
    have e3 : min enemySprite.getGlobalBounds.left
        (enemySprite.getGlobalBounds.left + enemySprite.getGlobalBounds.width)
        = enemySprite.getGlobalBounds.left := min_eq_left (by linarith)
    have e4 : max enemySprite.getGlobalBounds.left
        (enemySprite.getGlobalBounds.left + enemySprite.getGlobalBounds.width)
        = enemySprite.getGlobalBounds.left + enemySprite.getGlobalBounds.width :=
      max_eq_right (by linarith)
    rw [e1, e2, e3, e4, max_lt_iff, lt_min_iff, lt_min_iff] at hx
    exact ⟨hx.1.2, hx.2.1⟩

/-- Claim C18, as stated, fails: a 32x32 enemy at (1190, 0), entirely above the
32x32 player at (1190, 360), is reported as colliding although the two boxes do
not intersect. -/
theorem colliding_iff_intersects_refuted :
    ¬ (({ sprite := ⟨1190, 360, 1, 1, 32, 32⟩, bullet := [], movementSpeed := 3, lives := 3,
          options := ⟨1280, 720, true⟩ } : Player).isCollidingWithEnemy
            ⟨1190, 0, 1, 1, 32, 32⟩ = true
        ↔ (⟨1190, 360, 1, 1, 32, 32⟩ : Sprite).getGlobalBounds.intersects
            (⟨1190, 0, 1, 1, 32, 32⟩ : Sprite).getGlobalBounds = true) := by
  norm_num [Player.isCollidingWithEnemy, FloatRect.intersects, Sprite.getGlobalBounds]

/-! ## Formation movement -/

theorem EnemyWave.update_layout (w : EnemyWave) (motion : WaveMotion) (mbh : ℚ) :
    (w.update motion mbh).1.rows = w.rows ∧ (w.update motion mbh).1.columns = w.columns
      ∧ (w.update motion mbh).1.startX = w.startX ∧ (w.update motion mbh).1.startY = w.startY
      ∧ (w.update motion mbh).1.spacingX = w.spacingX
      ∧ (w.update motion mbh).1.spacingY = w.spacingY
      ∧ (w.update motion mbh).1.totalSpawned = w.totalSpawned
      ∧ (w.update motion mbh).1.windowSize = w.windowSize := by
  unfold EnemyWave.update
  simp only []
  split_ifs <;> exact ⟨rfl, rfl, rfl, rfl, rfl, rfl, rfl, rfl⟩

/-- A cell-wise update of the grid keeps the grid well formed. -/
theorem EnemyWave.wellFormed_forGrid (w : EnemyWave) (F : Nat → Nat → Enemy → Enemy)
    (h : w.WellFormed) :
    EnemyWave.WellFormed
      { w with
        enemyGrid := forGrid w.rows w.columns (fun g i j => modifyCell g i j (F i j))
          w.enemyGrid } := by
  apply forGrid_invariant (fun g : List (List Enemy) => g.length = w.rows
    ∧ ∀ row ∈ g, row.length = w.columns) _ _ _ _ _ h
  intro g i j hg
  exact ⟨by rw [length_modifyCell]; exact hg.1, row_length_modifyCell g i j _ _ hg.2⟩

theorem EnemyWave.wellFormed_update (w : EnemyWave) (motion : WaveMotion) (mbh : ℚ)
    (h : w.WellFormed) : (w.update motion mbh).1.WellFormed := by
  unfold EnemyWave.update
  simp only []
  by_cases h1 : motion.firstUpdate = true
  · rw [if_pos h1]
    exact h
  · rw [if_neg h1]
    by_cases h2 : (((w.scanEdges mbh).1 || (w.scanEdges mbh).2)
        && !motion.hasMovedRightAfterReach) = true
    · rw [if_pos h2]
      exact w.wellFormed_forGrid (fun _ _ (enemy : Enemy) =>
        enemy.setPosition (enemy.getPosition.1 + 50) enemy.getPosition.2) h
    · rw [if_neg h2]
      exact w.wellFormed_forGrid (fun _ _ (enemy : Enemy) =>
        enemy.setPosition enemy.getPosition.1
          (enemy.getPosition.2 + (if motion.movingDown then 1 else -1))) h

/-- The sideways branch of `update`. -/
theorem EnemyWave.update_shift (w : EnemyWave) (motion : WaveMotion) (mbh : ℚ)
    (hfirst : motion.firstUpdate = false)
    (hedge : ((w.scanEdges mbh).1 || (w.scanEdges mbh).2) = true)
    (hlatch : motion.hasMovedRightAfterReach = false) :
    w.update motion mbh
      = ({ w with
            enemyGrid := forGrid w.rows w.columns
              (fun grid i j => modifyCell grid i j (fun enemy =>
                enemy.setPosition (enemy.getPosition.1 + 50) enemy.getPosition.2))
              w.enemyGrid },
         { motion with hasMovedRightAfterReach := true, movingDown := !motion.movingDown }) := by
  unfold EnemyWave.update
  simp only [hfirst, hedge, hlatch, Bool.not_false, Bool.and_self, if_true, Bool.false_eq_true,
    if_false]

/-- The vertical branch of `update`. -/
theorem EnemyWave.update_vertical (w : EnemyWave) (motion : WaveMotion) (mbh : ℚ)
    (hfirst : motion.firstUpdate = false)
    (hcase : ((w.scanEdges mbh).1 || (w.scanEdges mbh).2) = false
      ∨ motion.hasMovedRightAfterReach = true) :
    w.update motion mbh
      = ({ w with
            enemyGrid := forGrid w.rows w.columns
              (fun grid i j => modifyCell grid i j (fun enemy =>
                enemy.setPosition enemy.getPosition.1
                  (enemy.getPosition.2 + (if motion.movingDown then 1 else -1))))
              w.enemyGrid },
         if motion.hasMovedRightAfterReach && ((w.scanEdges mbh).1 || (w.scanEdges mbh).2) then
           { motion with hasMovedRightAfterReach := false }
         else motion) := by
  have hcond : (((w.scanEdges mbh).1 || (w.scanEdges mbh).2)
      && !motion.hasMovedRightAfterReach) = false := by
    rcases hcase with h | h
    · rw [h]; rfl
    · rw [h]; simp
  unfold EnemyWave.update
  simp only [hfirst, hcond, Bool.false_eq_true, if_false]

/-- Claim C19: in an invocation of `update` after the first in which the scan
detects an edge and the latch is clear, the enemy of every cell is moved from
(x, y) to (x + 50, y) and is otherwise unchanged, the direction flag is
flipped and the latch is set. -/
theorem update_edge_shifts_right (w : EnemyWave) (motion : WaveMotion) (mbh : ℚ)
    (hwf : w.WellFormed) (hfirst : motion.firstUpdate = false)
    (hedge : (w.scanEdges mbh).1 = true ∨ (w.scanEdges mbh).2 = true)
    (hlatch : motion.hasMovedRightAfterReach = false) :
    (∀ i j, i < w.rows → j < w.columns → ∃ e e2, w.getEnemy i j = some e
        ∧ (w.update motion mbh).1.getEnemy i j = some e2
        ∧ e2.getPosition = (e.getPosition.1 + 50, e.getPosition.2)
        ∧ e2 = e.setPosition (e.getPosition.1 + 50) e.getPosition.2)
      ∧ (w.update motion mbh).2.movingDown = !motion.movingDown
      ∧ (w.update motion mbh).2.hasMovedRightAfterReach = true
      ∧ (w.update motion mbh).2.firstUpdate = false
      ∧ (w.update motion mbh).1.WellFormed
      ∧ ((w.update motion mbh).1.rows = w.rows ∧ (w.update motion mbh).1.columns = w.columns) := by
  have hedge2 : ((w.scanEdges mbh).1 || (w.scanEdges mbh).2) = true := by
    rcases hedge with h | h <;> simp [h]
  have hupd := w.update_shift motion mbh hfirst hedge2 hlatch
  refine ⟨?_, ?_, ?_, ?_, w.wellFormed_update motion mbh hwf, (w.update_layout motion mbh).1,
    (w.update_layout motion mbh).2.1⟩
  · intro i j hi hj
    obtain ⟨e, he⟩ := w.getEnemy_isSome hwf i j hi hj
    refine ⟨e, e.setPosition (e.getPosition.1 + 50) e.getPosition.2, he, ?_, rfl, rfl⟩
    rw [hupd]
    show cellAt (forGrid w.rows w.columns _ w.enemyGrid) i j = _
    rw [cellAt_forGrid (fun _ _ (enemy : Enemy) =>
      enemy.setPosition (enemy.getPosition.1 + 50) enemy.getPosition.2), if_pos ⟨hi, hj⟩]
    show Option.map _ (w.getEnemy i j) = _
    rw [he]
    rfl
  · rw [hupd]
  · rw [hupd]
  · rw [hupd]
    exact hfirst

/-- Claim C20: in an invocation of `update` after the first in which no edge is
detected or the latch is already set, the enemy of every cell is moved from
(x, y) to (x, y + 1) when the direction flag is moving-down and to (x, y - 1)
otherwise, and is otherwise unchanged; the direction flag is unchanged; the
displacement is the same for all cells, so differences of positions inside the
grid are preserved.  The latch is cleared exactly when it was set and the scan
detects an edge. -/
theorem update_vertical_step (w : EnemyWave) (motion : WaveMotion) (mbh : ℚ)
    (hwf : w.WellFormed) (hfirst : motion.firstUpdate = false)
    (hcase : ((w.scanEdges mbh).1 = false ∧ (w.scanEdges mbh).2 = false)
      ∨ motion.hasMovedRightAfterReach = true) :
    (∀ i j, i < w.rows → j < w.columns → ∃ e e2, w.getEnemy i j = some e
        ∧ (w.update motion mbh).1.getEnemy i j = some e2
        ∧ e2.getPosition
            = (e.getPosition.1, e.getPosition.2 + (if motion.movingDown then 1 else -1))
        ∧ e2 = e.setPosition e.getPosition.1
            (e.getPosition.2 + (if motion.movingDown then 1 else -1)))
      ∧ (∀ i j k l e1 e2 f1 f2, w.getEnemy i j = some e1 → w.getEnemy k l = some f1 →
          i < w.rows → j < w.columns → k < w.rows → l < w.columns →
          (w.update motion mbh).1.getEnemy i j = some e2 →
          (w.update motion mbh).1.getEnemy k l = some f2 →
          e2.getPosition.1 - f2.getPosition.1 = e1.getPosition.1 - f1.getPosition.1
            ∧ e2.getPosition.2 - f2.getPosition.2 = e1.getPosition.2 - f1.getPosition.2)
      ∧ (w.update motion mbh).2.movingDown = motion.movingDown
      ∧ (w.update motion mbh).2.firstUpdate = false
      ∧ (w.update motion mbh).2.hasMovedRightAfterReach
          = (motion.hasMovedRightAfterReach
              && !((w.scanEdges mbh).1 || (w.scanEdges mbh).2))
      ∧ (w.update motion mbh).1.WellFormed
      ∧ ((w.update motion mbh).1.rows = w.rows ∧ (w.update motion mbh).1.columns = w.columns) := by
  have hcase2 : ((w.scanEdges mbh).1 || (w.scanEdges mbh).2) = false
      ∨ motion.hasMovedRightAfterReach = true := by
    rcases hcase with ⟨h1, h2⟩ | h
    · left; rw [h1, h2]; rfl
    · right; exact h
  have hupd := w.update_vertical motion mbh hfirst hcase2
  have hcell : ∀ i j, i < w.rows → j < w.columns → ∀ e, w.getEnemy i j = some e →
      (w.update motion mbh).1.getEnemy i j
        = some (e.setPosition e.getPosition.1
            (e.getPosition.2 + (if motion.movingDown then 1 else -1))) := by
    intro i j hi hj e he
    rw [hupd]
    show cellAt (forGrid w.rows w.columns _ w.enemyGrid) i j = _
    rw [cellAt_forGrid (fun _ _ (enemy : Enemy) => enemy.setPosition enemy.getPosition.1
      (enemy.getPosition.2 + (if motion.movingDown then 1 else -1))), if_pos ⟨hi, hj⟩]
    show Option.map _ (w.getEnemy i j) = _
    rw [he]
    rfl
  refine ⟨?_, ?_, ?_, ?_, ?_, w.wellFormed_update motion mbh hwf, (w.update_layout motion mbh).1,
    (w.update_layout motion mbh).2.1⟩
  · intro i j hi hj
    obtain ⟨e, he⟩ := w.getEnemy_isSome hwf i j hi hj
    exact ⟨e, _, he, hcell i j hi hj e he, rfl, rfl⟩
  · intro i j k l e1 e2 f1 f2 he1 hf1 hi hj hk hl he2 hf2
    rw [hcell i j hi hj e1 he1] at he2
    rw [hcell k l hk hl f1 hf1] at hf2
    simp only [Option.some.injEq] at he2 hf2
    rw [← he2, ← hf2]
    simp only [Enemy.setPosition, Enemy.getPosition, Sprite.setPosition]
    exact ⟨trivial, by ring⟩
  · rw [hupd]
    simp only []
    split_ifs <;> rfl
  · rw [hupd]
    simp only []
    split_ifs <;> exact hfirst
  · rw [hupd]
    simp only []
    cases hm : motion.hasMovedRightAfterReach <;>
      cases hs : ((w.scanEdges mbh).1 || (w.scanEdges mbh).2) <;> simp [hm]

/-- A loop whose body leaves the state fixed leaves it fixed. -/
theorem foldl_fixed {σ ι : Type} (f : σ → ι → σ) (s : σ) (l : List ι)
    (h : ∀ x ∈ l, f s x = s) : l.foldl f s = s := by
  induction l with
  | nil => rfl
  | cons x rest ih =>
    rw [List.foldl_cons, h x (List.mem_cons_self x rest)]
    exact ih (fun y hy => h y (List.mem_cons_of_mem x hy))

/-- Nested loops whose body leaves the state fixed at every cell in range leave
it fixed. -/
theorem forGrid_fixed {σ : Type} (rows columns : Nat) (body : σ → Nat → Nat → σ) (s : σ)
    (h : ∀ i j, i < rows → j < columns → body s i j = s) : forGrid rows columns body s = s := by
  unfold forGrid
  apply foldl_fixed
  intro i hi
  apply foldl_fixed
  intro j hj
  exact h i j (List.mem_range.mp hi) (List.mem_range.mp hj)

/-- Nested loops whose first cell leads to a state that the body never leaves
end in that state. -/
theorem forGrid_first_stuck {σ : Type} (rows columns : Nat) (body : σ → Nat → Nat → σ)
    (s t : σ) (h0 : body s 0 0 = t) (hstuck : ∀ i j, body t i j = t) :
    forGrid (rows + 1) (columns + 1) body s = t := by
  have hrow : (List.range (columns + 1)).foldl (fun s j => body s 0 j) s = t := by
    rw [List.range_succ_eq_map, List.foldl_cons, h0]
    exact foldl_fixed _ t _ (fun j _ => hstuck 0 j)
  have hrange : List.range (rows + 1) = 0 :: (List.range rows).map Nat.succ :=
    List.range_succ_eq_map rows
  show (List.range (rows + 1)).foldl
    (fun s i => (List.range (columns + 1)).foldl (fun s j => body s i j) s) s = t
  rw [hrange, List.foldl_cons, hrow]
  apply foldl_fixed
  intro i _
  exact foldl_fixed _ t _ (fun j _ => hstuck i j)

theorem EnemyWave.scanEdgeCell_stuck (w : EnemyWave) (mbh : ℚ) (st : Bool × Bool) (i j : Nat)
    (h : (st.1 || st.2) = true) : w.scanEdgeCell mbh st i j = st := by
  unfold EnemyWave.scanEdgeCell
  rw [if_pos h]

/-- The scan reports the bottom edge when the first enemy has passed it. -/
theorem EnemyWave.scanEdges_first_bottom (w : EnemyWave) (mbh : ℚ) (e : Enemy)
    (hr : 0 < w.rows) (hc : 0 < w.columns) (he : w.getEnemy 0 0 = some e)
    (hb : e.getPosition.2 + e.getGlobalBounds.height > (w.windowSize.2 : ℚ)) :
    w.scanEdges mbh = (true, false) := by
  unfold EnemyWave.scanEdges
  obtain ⟨r, hr2⟩ := Nat.exists_eq_succ_of_ne_zero (Nat.pos_iff_ne_zero.mp hr)
  obtain ⟨c, hc2⟩ := Nat.exists_eq_succ_of_ne_zero (Nat.pos_iff_ne_zero.mp hc)
  rw [hr2, hc2]
  apply forGrid_first_stuck
  · unfold EnemyWave.scanEdgeCell
    rw [he]
    simp only [Bool.or_self, Bool.false_eq_true, if_false]
    rw [if_pos hb]
  · intro i j
    exact w.scanEdgeCell_stuck mbh _ i j rfl

/-- The scan reports no edge when every enemy is strictly inside the band. -/
theorem EnemyWave.scanEdges_none (w : EnemyWave) (mbh : ℚ)
    (h : ∀ i j e, i < w.rows → j < w.columns → w.getEnemy i j = some e →
      e.getPosition.2 + e.getGlobalBounds.height ≤ (w.windowSize.2 : ℚ)
        ∧ mbh < e.getPosition.2) :
    w.scanEdges mbh = (false, false) := by
  unfold EnemyWave.scanEdges
  apply forGrid_fixed
  intro i j hi hj
  unfold EnemyWave.scanEdgeCell
  simp only [Bool.or_self, Bool.false_eq_true, if_false]
  cases he : w.getEnemy i j with
  | none => rfl
  | some e =>
    obtain ⟨h1, h2⟩ := h i j e hi hj he
    simp only []
    rw [if_neg (not_lt.mpr h1), if_neg (not_le.mpr h2)]

/-- Witness for claim C19: a well-formed 5x4 formation whose enemies have all
passed the bottom edge of a 1280x720 window, after the first invocation, latch
clear. -/
theorem update_edge_shifts_right_witness :
    (({ EnemyWave.new (1280, 720) (1280, 720) 72 32 32 with
          enemyGrid := List.replicate 5 (List.replicate 4
            ((Enemy.new 300 700 1280 (1280, 720)).setTexture 32 32)) } : EnemyWave).update
        ⟨true, false, false⟩ 72).2
      = ⟨false, true, false⟩ := by
  have hscan : ({ EnemyWave.new (1280, 720) (1280, 720) 72 32 32 with
        enemyGrid := List.replicate 5 (List.replicate 4
          ((Enemy.new 300 700 1280 (1280, 720)).setTexture 32 32)) } : EnemyWave).scanEdges 72
      = (true, false) :=
    EnemyWave.scanEdges_first_bottom _ 72
      ((Enemy.new 300 700 1280 (1280, 720)).setTexture 32 32) (by decide) (by decide) rfl
      (by norm_num [Enemy.getPosition, Enemy.getGlobalBounds, Enemy.setTexture, Enemy.new,
        Enemy.setPosition, Sprite.getGlobalBounds, Sprite.setTexture, Sprite.setPosition,
        Sprite.setScale, Sprite.default, EnemyWave.new])
  have h := update_edge_shifts_right
    { EnemyWave.new (1280, 720) (1280, 720) 72 32 32 with
        enemyGrid := List.replicate 5 (List.replicate 4
          ((Enemy.new 300 700 1280 (1280, 720)).setTexture 32 32)) }
    ⟨true, false, false⟩ 72 (by decide) rfl (Or.inl (by rw [hscan])) rfl
  obtain ⟨_, h1, h2, h3, _⟩ := h
  cases hu : (({ EnemyWave.new (1280, 720) (1280, 720) 72 32 32 with
          enemyGrid := List.replicate 5 (List.replicate 4
            ((Enemy.new 300 700 1280 (1280, 720)).setTexture 32 32)) } : EnemyWave).update
        ⟨true, false, false⟩ 72).2 with
  | mk a b c =>
    rw [hu] at h1 h2 h3
    simp only [] at h1 h2 h3
    rw [h1, h2, h3]
    rfl

/-- Witness for claim C20: the constructed 1280x720 formation, which touches no
edge, after the first invocation, moving down. -/
theorem update_vertical_step_witness :
    ((EnemyWave.new (1280, 720) (1280, 720) 72 32 32).update ⟨true, false, false⟩ 72).2
      = ⟨true, false, false⟩ := by
  have hscan : (EnemyWave.new (1280, 720) (1280, 720) 72 32 32).scanEdges 72 = (false, false) := by
    apply EnemyWave.scanEdges_none
    intro i j e hi hj he
    have hi5 : i < 5 := hi
    rw [EnemyWave.new_getEnemy _ _ _ _ _ i j hi hj] at he
    simp only [Option.some.injEq] at he
    have hiq : (i : ℚ) ≤ 4 := by exact_mod_cast Nat.lt_succ_iff.mp hi5
    have hi0 : (0 : ℚ) ≤ (i : ℚ) := Nat.cast_nonneg i
    rw [← he]
    norm_num [Enemy.getPosition, Enemy.getGlobalBounds, Enemy.setTexture, Enemy.new,
      Enemy.setPosition, Sprite.getGlobalBounds, Sprite.setTexture, Sprite.setPosition,
      Sprite.setScale, Sprite.default, EnemyWave.new, EnemyWave.adjustSpacingForResolution]
    constructor <;> linarith
  have h := update_vertical_step (EnemyWave.new (1280, 720) (1280, 720) 72 32 32)
    ⟨true, false, false⟩ 72 (by decide) rfl
    (Or.inl ⟨by rw [hscan], by rw [hscan]⟩)
  obtain ⟨_, _, h1, h2, h3, _⟩ := h
  cases hu : ((EnemyWave.new (1280, 720) (1280, 720) 72 32 32).update
      ⟨true, false, false⟩ 72).2 with
  | mk a b c =>
    rw [hu] at h1 h2 h3
    simp only [Bool.false_and] at h1 h2 h3
    rw [h1, h2, h3]

/-! ## Spawn counter and divisors -/

theorem FormationOp.step_totalSpawned (s : EnemyWave × WaveMotion) (op : FormationOp) :
    (FormationOp.step s op).1.totalSpawned = s.1.totalSpawned := by
  cases op with
  | onEnemy i j f => rfl
  | respawn flag => rfl
  | update mbh => exact (s.1.update_layout s.2 mbh).2.2.2.2.2.2.1

theorem FormationOp.run_totalSpawned (ops : List FormationOp) (s : EnemyWave × WaveMotion) :
    (FormationOp.run s ops).1.totalSpawned = s.1.totalSpawned := by
  induction ops generalizing s with
  | nil => rfl
  | cons op rest ih =>
    exact (ih (FormationOp.step s op)).trans (FormationOp.step_totalSpawned s op)

theorem Metrics.increaseScore_enemySum (m : Metrics) (points : Int) :
    (m.increaseScore points).enemySum = m.enemySum := by
  unfold Metrics.increaseScore Metrics.updateHighestScore
  split_ifs <;> rfl

theorem MetricsOp.run_enemySum (ops : List MetricsOp) (m : Metrics) :
    (MetricsOp.run m ops).enemySum = m.enemySum := by
  induction ops generalizing m with
  | nil => rfl
  | cons op rest ih =>
    refine (ih (MetricsOp.step m op)).trans ?_
    cases op with
    | increaseScore points => exact m.increaseScore_enemySum points
    | reset => rfl

/-- Claim C15: the constructor leaves the total-spawned counter at
rows*columns = 20; no operation on the formation (a member call on an enemy
such as kill, respawnEnemies, update) changes it; so `setEnemyCount` receives 20
and `enemySum` stays 20 under increaseScore and reset, and neither the
divisions and the modulo of `increaseScore(10)` nor the division of `getStage`
have a zero divisor. -/
theorem totalSpawned_is_twenty (ws res : Nat × Nat) (mbh : ℚ) (tw th : Nat)
    (motion : WaveMotion) (ops : List FormationOp) (m : Metrics) (mops : List MetricsOp) :
    (EnemyWave.new ws res mbh tw th).totalSpawned = 20
      ∧ ((EnemyWave.new ws res mbh tw th).totalSpawned
          = (((EnemyWave.new ws res mbh tw th).rows
              * (EnemyWave.new ws res mbh tw th).columns : Nat) : Int))
      ∧ (FormationOp.run (EnemyWave.new ws res mbh tw th, motion) ops).1.getTotalSpawned = 20
      ∧ (MetricsOp.run (m.setEnemyCount
            (FormationOp.run (EnemyWave.new ws res mbh tw th, motion) ops).1.getTotalSpawned)
          mops).enemySum = 20
      ∧ (MetricsOp.run (m.setEnemyCount
            (FormationOp.run (EnemyWave.new ws res mbh tw th, motion) ops).1.getTotalSpawned)
          mops).getStageChecked
          = some (MetricsOp.run (m.setEnemyCount
              (FormationOp.run (EnemyWave.new ws res mbh tw th, motion) ops).1.getTotalSpawned)
            mops).getStage
      ∧ ((MetricsOp.run (m.setEnemyCount
            (FormationOp.run (EnemyWave.new ws res mbh tw th, motion) ops).1.getTotalSpawned)
          mops).increaseScore 10).scoreTexts 10 ≠ none := by
  have h20 : (EnemyWave.new ws res mbh tw th).totalSpawned = 20 := rfl
  have hrun : (FormationOp.run (EnemyWave.new ws res mbh tw th, motion) ops).1.getTotalSpawned
      = 20 := (FormationOp.run_totalSpawned ops _).trans h20
  have hsum : (MetricsOp.run (m.setEnemyCount
        (FormationOp.run (EnemyWave.new ws res mbh tw th, motion) ops).1.getTotalSpawned)
      mops).enemySum = 20 := by
    rw [MetricsOp.run_enemySum, hrun]
    rfl
  refine ⟨h20, rfl, hrun, hsum, ?_, ?_⟩
  · unfold Metrics.getStageChecked
    rw [hsum]
    rfl
  · unfold Metrics.scoreTexts
    rw [Metrics.increaseScore_enemySum, hsum]
    simp

/-! ## Enemy projectiles against the player -/

/-- Updating an element of a list by a function that fixes it changes nothing. -/
theorem List.modify_of_fixed {α : Type} (f : α → α) (n : Nat) (l : List α)
    (h : ∀ a, l[n]? = some a → f a = a) : List.modify f n l = l := by
  apply List.ext_getElem?
  intro m
  rw [List.getElem?_modify]
  cases hm : l[m]? with
  | none => rfl
  | some a =>
    by_cases hn : n = m
    · subst hn
      simp [h a hm]
    · simp [hn]

/-- Updating a cell of a grid by a function that fixes its content changes
nothing. -/
theorem modifyCell_of_fixed {α : Type} (g : List (List α)) (i j : Nat) (f : α → α)
    (h : ∀ a, cellAt g i j = some a → f a = a) : modifyCell g i j f = g := by
  unfold modifyCell
  apply List.modify_of_fixed
  intro row hrow
  apply List.modify_of_fixed
  intro a ha
  apply h
  unfold cellAt
  rw [hrow]
  exact ha

/-- Nested loops whose body leaves the state fixed at every cell before the
last one act as the body at the last cell. -/
theorem forGrid_last {σ : Type} (rows columns : Nat) (body : σ → Nat → Nat → σ) (s : σ)
    (h : ∀ i j, i < rows + 1 → j < columns + 1 → ¬ (i = rows ∧ j = columns) → body s i j = s) :
    forGrid (rows + 1) (columns + 1) body s = body s rows columns := by
  have hr : List.range (rows + 1) = List.range rows ++ [rows] := List.range_succ rows
  have hc : List.range (columns + 1) = List.range columns ++ [columns] :=
    List.range_succ columns
  show (List.range (rows + 1)).foldl
    (fun s i => (List.range (columns + 1)).foldl (fun s j => body s i j) s) s = _
  rw [hr, List.foldl_append]
  have hpre : (List.range rows).foldl
      (fun s i => (List.range (columns + 1)).foldl (fun s j => body s i j) s) s = s := by
    apply foldl_fixed
    intro i hi
    apply foldl_fixed
    intro j hj
    have hi2 := List.mem_range.mp hi
    exact h i j (by omega) (List.mem_range.mp hj) (by omega)
  rw [hpre]
  simp only [List.foldl_cons, List.foldl_nil]
  rw [hc, List.foldl_append]
  have hrow : (List.range columns).foldl (fun s j => body s rows j) s = s := by
    apply foldl_fixed
    intro j hj
    have hj2 := List.mem_range.mp hj
    exact h rows j (by omega) (by omega) (by omega)
  rw [hrow]
  rfl

theorem Game.playerHit_frame (g : Game) (answers : Nat → Bool) :
    (g.playerHit answers).player = g.player.decreaseLife
      ∧ (g.playerHit answers).enemyWave = g.enemyWave
      ∧ (g.playerHit answers).barrier1 = g.barrier1
      ∧ (g.playerHit answers).barrier2 = g.barrier2
      ∧ (g.playerHit answers).barrier3 = g.barrier3
      ∧ (g.playerHit answers).metrics = g.metrics := by
  unfold Game.playerHit Game.gameOver
  simp only []
  split_ifs <;> exact ⟨rfl, rfl, rfl, rfl, rfl, rfl⟩

theorem Player.decreaseLife_sprite (p : Player) : p.decreaseLife.sprite = p.sprite := by
  unfold Player.decreaseLife
  split_ifs <;> rfl

theorem Player.decreaseLife_lives (p : Player) :
    p.decreaseLife.lives = if p.lives > 0 then p.lives - 1 else p.lives := by
  unfold Player.decreaseLife
  split_ifs <;> rfl

/-- A hit that leaves the player without lives invokes the game-over screen. -/
theorem Game.playerHit_gameOver (g : Game) (answers : Nat → Bool) (h : g.player.lives ≤ 1) :
    (g.playerHit answers).gameOverCalls = g.gameOverCalls + 1
      ∧ (g.playerHit answers).restFlag
          = (if !answers g.gameOverCalls then true else g.restFlag)
      ∧ (g.playerHit answers).windowOpen = false
      ∧ (g.playerHit answers).player.lives ≤ 0 := by
  have hl : g.player.decreaseLife.lives ≤ 0 := by
    rw [Player.decreaseLife_lives]
    split_ifs <;> omega
  unfold Game.playerHit
  simp only [Player.getLives]
  rw [if_pos hl]
  exact ⟨rfl, rfl, rfl, hl⟩

/-- Projectiles that all intersect the player are all erased, each at the price
of one hit. -/
theorem Game.enemyBulletLoop_all_hit (answers : Nat → Bool) (bs : List Bullet) (g : Game)
    (h : ∀ b ∈ bs, b.getGlobalBounds.intersects g.player.sprite.getGlobalBounds = true) :
    Game.enemyBulletLoop answers bs g = ([], (fun x => Game.playerHit x answers)^[bs.length] g) := by
  induction bs generalizing g with
  | nil => rfl
  | cons b rest ih =>
    rw [Game.enemyBulletLoop, if_pos (h b (List.mem_cons_self b rest))]
    rw [ih (g.playerHit answers)]
    · rfl
    · intro c hc
      rw [(g.playerHit_frame answers).1, Player.decreaseLife_sprite]
      exact h c (List.mem_cons_of_mem b hc)

/-- A cell whose enemy holds no projectile and does not touch the player is left
as it is by the resolution. -/
theorem Game.resolveEnemyAt_idle (answers : Nat → Bool) (g : Game) (i j : Nat) (e : Enemy)
    (he : g.enemyWave.getEnemy i j = some e) (hb : e.bullets = [])
    (hc : g.player.isCollidingWithEnemy e.sprite = false) :
    Game.resolveEnemyAt answers g i j = g := by
  unfold Game.resolveEnemyAt
  rw [he]
  simp only [Enemy.getBullets, hb, Game.enemyBulletLoop, hc, Bool.and_false, Bool.false_eq_true,
    if_false]
  have hfix : modifyCell g.enemyWave.enemyGrid i j (fun x => { x with bullets := [] })
      = g.enemyWave.enemyGrid := by
    apply modifyCell_of_fixed
    intro a ha
    have : a = e := by
      have h2 : some a = some e := ha.symm.trans he
      exact Option.some.inj h2
    rw [this, ← hb]
  rw [hfix]

theorem Game.start_getEnemy (i j : Nat) (hi : i < 5) (hj : j < 4) :
    Game.start.enemyWave.getEnemy i j = some (Game.startEnemy i j) := by
  show (EnemyWave.new (1280, 720) (1280, 720) 72 32 32).getEnemy i j = _
  rw [EnemyWave.new_getEnemy _ _ _ _ _ i j hi hj]
  rfl

theorem Game.startEnemy_bullets (i j : Nat) : (Game.startEnemy i j).bullets = [] := rfl

theorem Game.startEnemy_isAlive (i j : Nat) : (Game.startEnemy i j).isAlive = true := rfl

theorem Game.start_player_bounds :
    Game.start.player.sprite.getGlobalBounds
      = { left := 5952 / 5, top := 360, width := 32, height := 32 } := by
  norm_num [Game.start, Player.setPlayerTexture, Player.new, Player.setPosition,
    Settings.getVector, Settings.widthScaling, Settings.heightScaling, Sprite.getGlobalBounds,
    Sprite.setTexture, Sprite.setPosition, Sprite.setScale, Sprite.default]

theorem Game.startEnemy_bounds (i j : Nat) :
    (Game.startEnemy i j).sprite.getGlobalBounds
      = { left := (j : ℚ) * 100, top := 147 + (i : ℚ) * 70, width := 32, height := 32 } := by
  norm_num [Game.startEnemy, Enemy.setTexture, Enemy.new, Enemy.setPosition,
    Sprite.getGlobalBounds, Sprite.setTexture, Sprite.setPosition, Sprite.setScale,
    Sprite.default]

theorem Game.enemyShotOnPlayer_bounds :
    Game.enemyShotOnPlayer.getGlobalBounds
      = { left := 1200, top := 370, width := 8, height := 8 } := by
  norm_num [Game.enemyShotOnPlayer, Bullet.getGlobalBounds, Bullet.new, Sprite.getGlobalBounds,
    Sprite.setTexture, Sprite.setPosition, Sprite.setScale, Sprite.default]

theorem Game.iterate_playerHit_sprite (answers : Nat → Bool) (n : Nat) (g : Game) :
    ((fun x => Game.playerHit x answers)^[n] g).player.sprite = g.player.sprite := by
  induction n generalizing g with
  | zero => rfl
  | succ k ih =>
    rw [Function.iterate_succ_apply, ih, (g.playerHit_frame answers).1,
      Player.decreaseLife_sprite]

/-- A cell whose enemy does not touch the player and whose projectiles all
intersect the player: the projectiles are erased, each at the price of one hit. -/
theorem Game.resolveEnemyAt_all_hit (answers : Nat → Bool) (g : Game) (i j : Nat) (e : Enemy)
    (he : g.enemyWave.getEnemy i j = some e)
    (hb : ∀ b ∈ e.bullets, b.getGlobalBounds.intersects g.player.sprite.getGlobalBounds = true)
    (hc : ∀ p : Player, p.sprite = g.player.sprite → p.isCollidingWithEnemy e.sprite = false) :
    (Game.resolveEnemyAt answers g i j).gameOverCalls
        = ((fun x => Game.playerHit x answers)^[e.bullets.length] g).gameOverCalls
      ∧ (Game.resolveEnemyAt answers g i j).restFlag
        = ((fun x => Game.playerHit x answers)^[e.bullets.length] g).restFlag
      ∧ (Game.resolveEnemyAt answers g i j).player
        = ((fun x => Game.playerHit x answers)^[e.bullets.length] g).player := by
  unfold Game.resolveEnemyAt
  rw [he]
  simp only [Enemy.getBullets]
  rw [Game.enemyBulletLoop_all_hit answers e.bullets g hb]
  simp only []
  rw [hc _ (Game.iterate_playerHit_sprite answers e.bullets.length g)]
  simp only [Bool.and_false, Bool.false_eq_true, if_false, and_self]

theorem Game.start_no_contact (p : Player) (i j : Nat) (hp : p.sprite = Game.start.player.sprite)
    (hj : j < 4) : p.isCollidingWithEnemy (Game.startEnemy i j).sprite = false := by
  unfold Player.isCollidingWithEnemy
  rw [hp, Game.start_player_bounds, Game.startEnemy_bounds]
  have hjq : (j : ℚ) ≤ 3 := by exact_mod_cast Nat.lt_succ_iff.mp hj
  simp only [Bool.and_eq_false_imp, decide_eq_true_eq, decide_eq_false_iff_not, not_lt]
  intro h
  linarith

/-- Claim C14 fails on the code.  In `Game.lastLifeTwoShots` the player has one
life and two projectiles of enemy (4,3) touch the player.  One pass of the
resolution invokes `gameOverScreen` twice, once for each projectile: the first
hit brings the lives to 0, the second finds them at 0 again.  The flag
`restFlag` then also depends on what the second invocation returns. -/
theorem gameOver_invoked_twice (answers : Nat → Bool) :
    Game.lastLifeTwoShots.player.lives = 1
      ∧ Game.lastLifeTwoShots.gameOverCalls = 0
      ∧ (Game.lastLifeTwoShots.resolveEnemyProjectiles answers).gameOverCalls = 2
      ∧ (Game.lastLifeTwoShots.resolveEnemyProjectiles answers).player.lives = 0
      ∧ (Game.lastLifeTwoShots.resolveEnemyProjectiles answers).restFlag
          = (!answers 0 || !answers 1) := by
  have hcell : Game.lastLifeTwoShots.enemyWave.getEnemy 4 3
      = some { Game.startEnemy 4 3 with
          bullets := [Game.enemyShotOnPlayer, Game.enemyShotOnPlayer] } := by
    show cellAt (modifyCell Game.start.enemyWave.enemyGrid 4 3 _) 4 3 = _
    rw [cellAt_modifyCell, if_pos ⟨rfl, rfl⟩]
    show Option.map _ (Game.start.enemyWave.getEnemy 4 3) = _
    rw [Game.start_getEnemy 4 3 (by decide) (by decide)]
    rfl
  have hother : ∀ i j, i < 5 → j < 4 → ¬ (i = 4 ∧ j = 3) →
      Game.lastLifeTwoShots.enemyWave.getEnemy i j = some (Game.startEnemy i j) := by
    intro i j hi hj hne
    show cellAt (modifyCell Game.start.enemyWave.enemyGrid 4 3 _) i j = _
    rw [cellAt_modifyCell, if_neg (fun h => hne ⟨h.1.symm, h.2.symm⟩)]
    exact Game.start_getEnemy i j hi hj
  have hpass : Game.lastLifeTwoShots.resolveEnemyProjectiles answers
      = Game.resolveEnemyAt answers Game.lastLifeTwoShots 4 3 := by
    show forGrid (4 + 1) (3 + 1) (Game.resolveEnemyAt answers) Game.lastLifeTwoShots = _
    apply forGrid_last
    intro i j hi hj hne
    exact Game.resolveEnemyAt_idle answers _ i j _ (hother i j hi hj hne)
      (Game.startEnemy_bullets i j) (Game.start_no_contact _ i j rfl hj)
  have hshot : Game.enemyShotOnPlayer.getGlobalBounds.intersects
      Game.lastLifeTwoShots.player.sprite.getGlobalBounds = true := by
    show Game.enemyShotOnPlayer.getGlobalBounds.intersects
      Game.start.player.sprite.getGlobalBounds = true
    rw [Game.start_player_bounds, Game.enemyShotOnPlayer_bounds]
    norm_num [FloatRect.intersects]
  have hres := Game.resolveEnemyAt_all_hit answers Game.lastLifeTwoShots 4 3 _ hcell
    (by
      intro b hb
      simp only [List.mem_cons, List.mem_singleton, or_self, List.not_mem_nil, or_false] at hb
      rw [hb]
      exact hshot)
    (fun p hp => Game.start_no_contact p 4 3 hp (by decide))
  have h1 := Game.playerHit_gameOver Game.lastLifeTwoShots answers (le_of_eq rfl)
  have h2 := Game.playerHit_gameOver (Game.lastLifeTwoShots.playerHit answers) answers
    (le_trans h1.2.2.2 (by decide))
  have hlives : ((Game.lastLifeTwoShots.playerHit answers).playerHit answers).player.lives = 0 := by
    have hge : 0 ≤ ((Game.lastLifeTwoShots.playerHit answers).playerHit answers).player.lives := by
      rw [(Game.playerHit_frame _ answers).1, (Game.playerHit_frame _ answers).1]
      exact (Player.decreaseLife_bounds _ (Player.decreaseLife_bounds _
        ⟨by decide, by decide⟩)).1
    exact le_antisymm h2.2.2.2 hge
  refine ⟨rfl, rfl, ?_, ?_, ?_⟩
  · rw [hpass, hres.1]
    show ((Game.lastLifeTwoShots.playerHit answers).playerHit answers).gameOverCalls = 2
    rw [h2.1, h1.1]
    rfl
  · rw [hpass, hres.2.2]
    exact hlives
  · rw [hpass, hres.2.1]
    show ((Game.lastLifeTwoShots.playerHit answers).playerHit answers).restFlag = _
    rw [h2.2.1, h1.2.1, h1.1]
    show (if !answers (0 + 1) then true else if !answers 0 then true else false) = _
    cases answers 0 <;> cases answers (0 + 1) <;> rfl

/-! ## Player projectiles past the playfield -/

theorem Sprite.getGlobalBounds_width_nonneg (s : Sprite) : 0 ≤ s.getGlobalBounds.width := by
  unfold Sprite.getGlobalBounds
  simp only []
  exact sub_nonneg.mpr (le_trans (min_le_left _ _) (le_max_left _ _))

/-- A rectangle that ends left of the start of another one does not intersect it. -/
theorem FloatRect.not_intersects_of_left (a b : FloatRect) (ha : 0 ≤ a.width)
    (hb : 0 ≤ b.width) (h : a.left + a.width ≤ b.left) : a.intersects b = false := by
  unfold FloatRect.intersects
  simp only []
  have e2 : max a.left (a.left + a.width) = a.left + a.width := max_eq_right (by linarith)
  have e3 : min b.left (b.left + b.width) = b.left := min_eq_left (by linarith)
  rw [e2, e3]
  have h1 : ¬ (max (min a.left (a.left + a.width)) b.left
      < min (a.left + a.width) (max b.left (b.left + b.width))) := by
    have a1 := le_max_right (min a.left (a.left + a.width)) b.left
    have a2 := min_le_left (a.left + a.width) (max b.left (b.left + b.width))
    intro hlt
    linarith
  simp [h1]

theorem Game.playerShotAt_bounds (x : ℚ) :
    (Game.playerShotAt x).getGlobalBounds
      = { left := x, top := 376, width := 96 / 5, height := 96 / 5 } := by
  have hpe : ¬ ("player" = "enemy") := by decide
  have hres : ¬ (((1280, 720) : Nat × Nat).1 = 3840) := by decide
  simp only [Game.playerShotAt, Bullet.getGlobalBounds, Bullet.new, if_neg hpe, if_neg hres]
  norm_num [Sprite.getGlobalBounds, Sprite.setTexture, Sprite.setPosition, Sprite.setScale,
    Sprite.default]

theorem Game.playerShotAt_update (x dt : ℚ) :
    (Game.playerShotAt x).update dt "player" = Game.playerShotAt (x - 300 * dt) := by
  have hpe : ¬ ("player" = "enemy") := by decide
  have hres : ¬ (((1280, 720) : Nat × Nat).1 = 3840) := by decide
  simp only [Game.playerShotAt, Bullet.update, Bullet.new, if_neg hpe, if_neg hres, if_true,
    Sprite.move, Sprite.setTexture, Sprite.setPosition, Sprite.setScale, Sprite.default]
  norm_num
  ring

/-- A projectile of the player that ends left of `x = 0` hits no enemy of the
formation of `Game.start`. -/
theorem Game.start_shot_misses_enemies (x : ℚ) (hx : x + 96 / 5 ≤ 0) (i j : Nat)
    (hi : i < 5) (hj : j < 4) :
    Player.hits (Game.playerShotAt x) Game.start.enemyWave i j = false := by
  unfold Player.hits
  rw [Game.start_getEnemy i j hi hj]
  simp only [Enemy.getGlobalBounds]
  rw [FloatRect.not_intersects_of_left]
  · simp
  · rw [Game.playerShotAt_bounds]; norm_num
  · exact Sprite.getGlobalBounds_width_nonneg _
  · rw [Game.playerShotAt_bounds, Game.startEnemy_bounds]
    simp only []
    have : (0 : ℚ) ≤ (j : ℚ) * 100 := by positivity
    linarith

theorem Game.start_barrier_bounds :
    Game.start.barrier1.iceBlockSprite.getGlobalBounds
        = { left := 1062, top := 162, width := 96, height := 96 }
      ∧ Game.start.barrier2.iceBlockSprite.getGlobalBounds
        = { left := 1062, top := 356, width := 96, height := 96 }
      ∧ Game.start.barrier3.iceBlockSprite.getGlobalBounds
        = { left := 1062, top := 550, width := 96, height := 96 } := by
  refine ⟨?_, ?_, ?_⟩ <;>
    norm_num [Game.start, Barrier.setPosition, Barrier.new, Settings.getVector,
      Settings.widthScaling, Settings.heightScaling, Sprite.getGlobalBounds,
      Sprite.setTexture, Sprite.setPosition, Sprite.setScale, Sprite.default]

theorem Player.updateBullets_miss_single (p : Player) (dt : ℚ) (w : EnemyWave) (m : Metrics)
    (b : Bullet) (hb : p.bullet = [b])
    (hm : ∀ i j, i < w.rows → j < w.columns →
      Player.hits (b.update dt "player") w i j = false) :
    p.updateBullets dt w m = ({ p with bullet := [b.update dt "player"] }, w, m) := by
  unfold Player.updateBullets
  rw [hb]
  simp only [List.map_cons, List.map_nil]
  rw [Player.resolveBullets, Player.scanEnemies_miss _ w m hm]
  rfl

theorem Player.updateBarrier_miss_single (p : Player) (dt : ℚ) (barrier : Barrier)
    (b : Bullet) (hb : p.bullet = [b])
    (hm : barrier.bulletCollision (b.update dt "player").getSprite = false) :
    p.updateBarrier dt barrier = ({ p with bullet := [b.update dt "player"] }, barrier) := by
  unfold Player.updateBarrier
  rw [hb, Player.updateBarrierLoop]
  simp only [hm, Bool.false_eq_true, if_false, Player.updateBarrierLoop]

/-- A projectile of the player that ends left of `x = 0` collides with no
barrier of `Game.start`. -/
theorem Game.start_shot_misses_barriers (x : ℚ) (hx : x + 96 / 5 ≤ 0) :
    Game.start.barrier1.bulletCollision (Game.playerShotAt x).getSprite = false
      ∧ Game.start.barrier2.bulletCollision (Game.playerShotAt x).getSprite = false
      ∧ Game.start.barrier3.bulletCollision (Game.playerShotAt x).getSprite = false := by
  have key : ∀ r : FloatRect, 0 ≤ r.width → (0 : ℚ) ≤ r.left →
      r.intersects (Game.playerShotAt x).getGlobalBounds = false := by
    intro r hw hl
    unfold FloatRect.intersects
    rw [Game.playerShotAt_bounds]
    simp only []
    have e1 : min r.left (r.left + r.width) = r.left := min_eq_left (by linarith)
    have e2 : max x (x + 96 / 5) = x + 96 / 5 := max_eq_right (by linarith)
    rw [e1, e2]
    have h1 : ¬ (max r.left (min x (x + 96 / 5))
        < min (max r.left (r.left + r.width)) (x + 96 / 5)) := by
      have a1 := le_max_left r.left (min x (x + 96 / 5))
      have a2 := min_le_right (max r.left (r.left + r.width)) (x + 96 / 5)
      intro hlt
      linarith
    simp [h1]
  obtain ⟨h1, h2, h3⟩ := Game.start_barrier_bounds
  refine ⟨?_, ?_, ?_⟩
  · exact key _ (Sprite.getGlobalBounds_width_nonneg _) (by rw [h1]; norm_num)
  · exact key _ (Sprite.getGlobalBounds_width_nonneg _) (by rw [h2]; norm_num)
  · exact key _ (Sprite.getGlobalBounds_width_nonneg _) (by rw [h3]; norm_num)

theorem Game.playerProjectileUpdates_eq (g : Game) (dt : ℚ) (p1 p2 p3 p4 : Player)
    (w : EnemyWave) (m : Metrics) (b1 b2 b3 : Barrier)
    (h0 : g.player.updateBullets dt g.enemyWave g.metrics = (p1, w, m))
    (h1 : p1.updateBarrier dt g.barrier1 = (p2, b1))
    (h2 : p2.updateBarrier dt g.barrier2 = (p3, b2))
    (h3 : p3.updateBarrier dt g.barrier3 = (p4, b3)) :
    g.playerProjectileUpdates dt
      = { g with player := p4, enemyWave := w, metrics := m, barrier1 := b1, barrier2 := b2,
                 barrier3 := b3 } := by
  unfold Game.playerProjectileUpdates
  simp only [h0, h1, h2, h3]

/-- One frame on a projectile of the player that has left the playfield: it is
moved four times and stays in the collection. -/
theorem Game.shotFlownTo_frame (x dt : ℚ) (hx : x + 96 / 5 ≤ 0) (hdt : 0 ≤ dt) :
    (Game.shotFlownTo x).playerProjectileUpdates dt
      = Game.shotFlownTo (x - 300 * dt - 300 * dt - 300 * dt - 300 * dt) := by
  have hx1 : x - 300 * dt + 96 / 5 ≤ 0 := by nlinarith
  have hx2 : x - 300 * dt - 300 * dt + 96 / 5 ≤ 0 := by nlinarith
  have hx3 : x - 300 * dt - 300 * dt - 300 * dt + 96 / 5 ≤ 0 := by nlinarith
  have hx4 : x - 300 * dt - 300 * dt - 300 * dt - 300 * dt + 96 / 5 ≤ 0 := by nlinarith
  have h0 : (Game.shotFlownTo x).player.updateBullets dt (Game.shotFlownTo x).enemyWave
      (Game.shotFlownTo x).metrics
      = ((Game.shotFlownTo (x - 300 * dt)).player, Game.start.enemyWave, Game.start.metrics) := by
    rw [Player.updateBullets_miss_single (Game.shotFlownTo x).player dt
      (Game.shotFlownTo x).enemyWave (Game.shotFlownTo x).metrics (Game.playerShotAt x) rfl
      (fun i j hi hj => by
        rw [Game.playerShotAt_update]
        exact Game.start_shot_misses_enemies _ hx1 i j hi hj)]
    rw [Game.playerShotAt_update]
    rfl
  have hb : ∀ (y : ℚ) (barrier : Barrier),
      barrier.bulletCollision (Game.playerShotAt (y - 300 * dt)).getSprite = false →
      (Game.shotFlownTo y).player.updateBarrier dt barrier
        = ((Game.shotFlownTo (y - 300 * dt)).player, barrier) := by
    intro y barrier hm
    rw [Player.updateBarrier_miss_single (Game.shotFlownTo y).player dt barrier
      (Game.playerShotAt y) rfl (by rw [Game.playerShotAt_update]; exact hm)]
    rw [Game.playerShotAt_update]
    rfl
  rw [Game.playerProjectileUpdates_eq (Game.shotFlownTo x) dt _ _ _ _ _ _ _ _ _ h0
    (hb _ _ (Game.start_shot_misses_barriers _ hx2).1)
    (hb _ _ (Game.start_shot_misses_barriers _ hx3).2.1)
    (hb _ _ (Game.start_shot_misses_barriers _ hx4).2.2)]
  rfl

/-- Claim C13 fails on the code.  In `Game.shotPastEdge` the only projectile of
the player lies entirely left of `x = 0` (at x = -500) and touches no enemy and
no barrier.  After any number `n` of frames of 1/60 s the projectile updates of
the frame have only moved it further left, to x = -500 - 20 n: the collection
of the player still contains it. -/
theorem player_shot_never_removed (n : Nat) :
    ((fun g => Game.playerProjectileUpdates g (1 / 60))^[n] Game.shotPastEdge).player.bullet
        = [Game.playerShotAt (-500 - 20 * (n : ℚ))]
      ∧ (Game.playerShotAt (-500 - 20 * (n : ℚ))).getGlobalBounds.left
          + (Game.playerShotAt (-500 - 20 * (n : ℚ))).getGlobalBounds.width < 0 := by
  have hstate : (fun g => Game.playerProjectileUpdates g (1 / 60))^[n] Game.shotPastEdge
      = Game.shotFlownTo (-500 - 20 * (n : ℚ)) := by
    induction n with
    | zero =>
      show Game.shotPastEdge = _
      norm_num
      rfl
    | succ k ih =>
      rw [Function.iterate_succ_apply', ih, Game.shotFlownTo_frame _ _ (by
        have : (0 : ℚ) ≤ (k : ℚ) := Nat.cast_nonneg k
        linarith) (by norm_num)]
      congr 1
      push_cast
      ring
  refine ⟨by rw [hstate]; rfl, ?_⟩
  rw [Game.playerShotAt_bounds]
  simp only []
  have : (0 : ℚ) ≤ (n : ℚ) := Nat.cast_nonneg n
  linarith

/-! ## First invocation of the formation update -/

/-- Claim C21: on the first invocation of `update` (the static flags at their
initial values) the formation is returned unchanged whatever the positions and
whatever the scan finds, the direction flag is moving-down, the latch is still
clear and the first-invocation flag is cleared.  More generally, whenever the
first-invocation flag is set the formation and the latch are left as they are
and the direction flag is set to moving-down. -/
theorem first_update_bootstrap (w : EnemyWave) (mbh : ℚ) :
    w.update WaveMotion.initial mbh
        = (w, { movingDown := true, hasMovedRightAfterReach := false, firstUpdate := false })
      ∧ (w.update WaveMotion.initial mbh).1.enemyGrid = w.enemyGrid
      ∧ (w.update WaveMotion.initial mbh).2.movingDown = WaveMotion.initial.movingDown
      ∧ (∀ motion : WaveMotion, motion.firstUpdate = true →
          (w.update motion mbh).1 = w
            ∧ (w.update motion mbh).2.movingDown = true
            ∧ (w.update motion mbh).2.hasMovedRightAfterReach = motion.hasMovedRightAfterReach
            ∧ (w.update motion mbh).2.firstUpdate = false) := by
  have h0 : w.update WaveMotion.initial mbh
      = (w, { movingDown := true, hasMovedRightAfterReach := false, firstUpdate := false }) := by
    unfold EnemyWave.update
    simp only [WaveMotion.initial, if_true]
  refine ⟨h0, by rw [h0], by rw [h0]; rfl, ?_⟩
  intro motion hm
  have h1 : w.update motion mbh = (w, { motion with movingDown := true, firstUpdate := false }) := by
    unfold EnemyWave.update
    simp only [hm, if_true]
  rw [h1]
  exact ⟨rfl, rfl, rfl, rfl⟩

/-! ## Edge scan -/

/-- A loop reaches a property that its body keeps and that the body establishes
at one of the visited indices. -/
theorem foldl_reaches {σ ι : Type} (P : σ → Prop) (f : σ → ι → σ) (l : List ι) (x : ι)
    (hx : x ∈ l) (hkeep : ∀ s y, P s → P (f s y)) (hhit : ∀ s, P (f s x)) (s : σ) :
    P (l.foldl f s) := by
  induction l generalizing s with
  | nil => cases hx
  | cons y rest ih =>
    rw [List.foldl_cons]
    rcases List.mem_cons.mp hx with h | h
    · subst h
      have hP : P (f s x) := hhit s
      clear ih hx
      generalize f s x = t at hP
      induction rest generalizing t with
      | nil => exact hP
      | cons z rest2 ih2 =>
        rw [List.foldl_cons]
        exact ih2 _ (hkeep t z hP)
    · exact ih h (f s y)

/-- Nested loops reach a property that the body keeps and that the body
establishes at one of the cells in range. -/
theorem forGrid_reaches {σ : Type} (P : σ → Prop) (rows columns : Nat)
    (body : σ → Nat → Nat → σ) (i0 j0 : Nat) (hi : i0 < rows) (hj : j0 < columns)
    (hkeep : ∀ s i j, P s → P (body s i j)) (hhit : ∀ s, P (body s i0 j0)) (s : σ) :
    P (forGrid rows columns body s) := by
  unfold forGrid
  apply foldl_reaches P _ (List.range rows) i0 (List.mem_range.mpr hi)
  · intro s i hs
    exact foldl_range_invariant P _ (fun s j hs => hkeep s i j hs) columns s hs
  · intro s
    exact foldl_reaches P _ (List.range columns) j0 (List.mem_range.mpr hj)
      (fun s j hs => hkeep s i0 j hs) hhit s

/-- The scan of `update` detects an edge exactly when some enemy has passed the
bottom of the window or stands at or above the bar. -/
theorem EnemyWave.scanEdges_edge_iff (w : EnemyWave) (mbh : ℚ) :
    ((w.scanEdges mbh).1 || (w.scanEdges mbh).2) = true
      ↔ ∃ i j e, i < w.rows ∧ j < w.columns ∧ w.getEnemy i j = some e
          ∧ (e.getPosition.2 + e.getGlobalBounds.height > (w.windowSize.2 : ℚ)
            ∨ e.getPosition.2 ≤ mbh) := by
  constructor
  · intro h
    by_contra hne
    have hnone : w.scanEdges mbh = (false, false) := by
      apply EnemyWave.scanEdges_none
      intro i j e hi hj he
      constructor
      · by_contra hb
        exact hne ⟨i, j, e, hi, hj, he, Or.inl (not_le.mp hb)⟩
      · by_contra ht
        exact hne ⟨i, j, e, hi, hj, he, Or.inr (not_lt.mp ht)⟩
    rw [hnone] at h
    exact absurd h (by decide)
  · rintro ⟨i, j, e, hi, hj, he, hcond⟩
    unfold EnemyWave.scanEdges
    apply forGrid_reaches (fun st : Bool × Bool => (st.1 || st.2) = true) w.rows w.columns
      (w.scanEdgeCell mbh) i j hi hj
    · intro st a b hst
      rw [w.scanEdgeCell_stuck mbh st a b hst]
      exact hst
    · intro st
      by_cases hst : (st.1 || st.2) = true
      · rw [w.scanEdgeCell_stuck mbh st i j hst]
        exact hst
      · unfold EnemyWave.scanEdgeCell
        rw [if_neg hst, he]
        simp only []
        by_cases hb : e.getPosition.2 + e.getGlobalBounds.height > (w.windowSize.2 : ℚ)
        · rw [if_pos hb]
          rfl
        · rw [if_neg hb]
          have ht : e.getPosition.2 ≤ mbh := by
            rcases hcond with h | h
            · exact absurd h hb
            · exact h
          rw [if_pos ht]
          simp

/-- The exhaustive scan detects an edge exactly when some enemy has passed the
bottom of the window or stands at or above the bar. -/
theorem EnemyWave.scanEdgesExhaustive_edge_iff (w : EnemyWave) (mbh : ℚ) :
    ((w.scanEdgesExhaustive mbh).1 || (w.scanEdgesExhaustive mbh).2) = true
      ↔ ∃ i j e, i < w.rows ∧ j < w.columns ∧ w.getEnemy i j = some e
          ∧ (e.getPosition.2 + e.getGlobalBounds.height > (w.windowSize.2 : ℚ)
            ∨ e.getPosition.2 ≤ mbh) := by
  constructor
  · intro h
    by_contra hne
    have hnone : w.scanEdgesExhaustive mbh = (false, false) := by
      unfold EnemyWave.scanEdgesExhaustive
      apply forGrid_fixed
      intro i j hi hj
      unfold EnemyWave.scanEdgeCellExhaustive
      cases he : w.getEnemy i j with
      | none => rfl
      | some e =>
        simp only []
        have hb : ¬ e.getPosition.2 + e.getGlobalBounds.height > (w.windowSize.2 : ℚ) :=
          fun hb => hne ⟨i, j, e, hi, hj, he, Or.inl hb⟩
        have ht : ¬ e.getPosition.2 ≤ mbh := fun ht => hne ⟨i, j, e, hi, hj, he, Or.inr ht⟩
        rw [if_neg hb, if_neg ht]
    rw [hnone] at h
    exact absurd h (by decide)
  · rintro ⟨i, j, e, hi, hj, he, hcond⟩
    unfold EnemyWave.scanEdgesExhaustive
    apply forGrid_reaches (fun st : Bool × Bool => (st.1 || st.2) = true) w.rows w.columns
      (w.scanEdgeCellExhaustive mbh) i j hi hj
    · intro st a b hst
      unfold EnemyWave.scanEdgeCellExhaustive
      cases w.getEnemy a b with
      | none => exact hst
      | some e2 =>
        simp only []
        rcases Bool.or_eq_true_iff.mp hst with h1 | h2
        · rw [h1]; simp
        · rw [h2]; simp
    · intro st
      unfold EnemyWave.scanEdgeCellExhaustive
      rw [he]
      simp only []
      rcases hcond with hb | ht
      · rw [if_pos hb]; simp
      · rw [if_pos ht]; simp

/-- Claim C22, as the code has it: the scan at the start of `update` detects an
edge exactly when some enemy's bottom edge (y + bounding-box height) is
strictly greater than the window height H or some enemy's top edge (y) is at
most the bar height B.  When every enemy has its bottom edge at most H, H
itself included, and its top edge below the bar, no edge is detected. -/
theorem scan_detects_edge_iff (w : EnemyWave) (mbh : ℚ) :
    (((w.scanEdges mbh).1 || (w.scanEdges mbh).2) = true
        ↔ ∃ i j e, i < w.rows ∧ j < w.columns ∧ w.getEnemy i j = some e
            ∧ (e.getPosition.2 + e.getGlobalBounds.height > (w.windowSize.2 : ℚ)
              ∨ e.getPosition.2 ≤ mbh))
      ∧ ((∀ i j e, i < w.rows → j < w.columns → w.getEnemy i j = some e →
            e.getPosition.2 + e.getGlobalBounds.height ≤ (w.windowSize.2 : ℚ)
              ∧ mbh < e.getPosition.2) →
          w.scanEdges mbh = (false, false)) :=
  ⟨w.scanEdges_edge_iff mbh, w.scanEdges_none mbh⟩

/-- Claim C22, as stated, fails: in `EnemyWave.restingOnBottom` the bottom edge
of every enemy equals the window height 720, so some enemy has its bottom edge
>= H, yet the scan detects no edge. -/
theorem scan_bottom_equal_refuted :
    ¬ (((EnemyWave.restingOnBottom.scanEdges 72).1
          || (EnemyWave.restingOnBottom.scanEdges 72).2) = true
        ↔ ∃ i j e, i < EnemyWave.restingOnBottom.rows ∧ j < EnemyWave.restingOnBottom.columns
            ∧ EnemyWave.restingOnBottom.getEnemy i j = some e
            ∧ (e.getPosition.2 + e.getGlobalBounds.height
                  ≥ (EnemyWave.restingOnBottom.windowSize.2 : ℚ)
              ∨ e.getPosition.2 ≤ 72)) := by
  have hb : ((Enemy.new 300 688 1280 (1280, 720)).setTexture 32 32).getPosition.2
      + ((Enemy.new 300 688 1280 (1280, 720)).setTexture 32 32).getGlobalBounds.height
      = 720 := by
    norm_num [Enemy.getPosition, Enemy.getGlobalBounds, Enemy.setTexture, Enemy.new,
      Enemy.setPosition, Sprite.getGlobalBounds, Sprite.setTexture, Sprite.setPosition,
      Sprite.setScale, Sprite.default]
  have hy : ((Enemy.new 300 688 1280 (1280, 720)).setTexture 32 32).getPosition.2 = 688 := rfl
  have hH : (EnemyWave.restingOnBottom.windowSize.2 : ℚ) = 720 := by
    norm_num [EnemyWave.restingOnBottom, EnemyWave.new]
  have hscan : EnemyWave.restingOnBottom.scanEdges 72 = (false, false) := by
    apply EnemyWave.scanEdges_none
    intro i j e _ _ he
    obtain ⟨row, hrow, hmem⟩ := mem_of_cellAt _ i j e he
    have hrow2 : row = List.replicate 4 ((Enemy.new 300 688 1280 (1280, 720)).setTexture 32 32) :=
      List.eq_of_mem_replicate hrow
    rw [hrow2] at hmem
    have he2 : e = (Enemy.new 300 688 1280 (1280, 720)).setTexture 32 32 :=
      List.eq_of_mem_replicate hmem
    rw [he2, hb, hy, hH]
    norm_num
  intro hiff
  have hex : ∃ i j e, i < EnemyWave.restingOnBottom.rows ∧ j < EnemyWave.restingOnBottom.columns
      ∧ EnemyWave.restingOnBottom.getEnemy i j = some e
      ∧ (e.getPosition.2 + e.getGlobalBounds.height
            ≥ (EnemyWave.restingOnBottom.windowSize.2 : ℚ)
        ∨ e.getPosition.2 ≤ 72) :=
    ⟨0, 0, (Enemy.new 300 688 1280 (1280, 720)).setTexture 32 32, by decide, by decide, rfl,
      Or.inl (by rw [hb, hH])⟩
  have h := hiff.mpr hex
  rw [hscan] at h
  exact absurd h (by decide)

/-- Claim C28: `update` with its short-circuiting scan and the variant whose
scan computes both flags over all enemies without leaving the loops return the
same formation (hence the same positions) and the same flags, for every
formation, every value of the flags and every bar height; the two scans agree
on the disjunction of their flags, which is all that `update` reads. -/
theorem update_eq_exhaustive (w : EnemyWave) (motion : WaveMotion) (mbh : ℚ) :
    w.update motion mbh = w.updateExhaustive motion mbh
      ∧ ((w.scanEdges mbh).1 || (w.scanEdges mbh).2)
          = ((w.scanEdgesExhaustive mbh).1 || (w.scanEdgesExhaustive mbh).2) := by
  have hdisj : ((w.scanEdges mbh).1 || (w.scanEdges mbh).2)
      = ((w.scanEdgesExhaustive mbh).1 || (w.scanEdgesExhaustive mbh).2) := by
    rw [Bool.eq_iff_iff, w.scanEdges_edge_iff mbh, w.scanEdgesExhaustive_edge_iff mbh]
  refine ⟨?_, hdisj⟩
  unfold EnemyWave.update EnemyWave.updateExhaustive
  simp only [hdisj]

/-! ## Movement of dead enemies -/

theorem EnemyWave.getEnemy_update_first (w : EnemyWave) (motion : WaveMotion) (mbh : ℚ)
    (hfirst : motion.firstUpdate = true) (i j : Nat) :
    (w.update motion mbh).1.getEnemy i j = w.getEnemy i j := by
  unfold EnemyWave.update
  simp only [hfirst, if_true]

theorem EnemyWave.getEnemy_update_shift (w : EnemyWave) (motion : WaveMotion) (mbh : ℚ)
    (hfirst : motion.firstUpdate = false)
    (hedge : ((w.scanEdges mbh).1 || (w.scanEdges mbh).2) = true)
    (hlatch : motion.hasMovedRightAfterReach = false) (i j : Nat) (hi : i < w.rows)
    (hj : j < w.columns) :
    (w.update motion mbh).1.getEnemy i j
      = (w.getEnemy i j).map (fun e => e.setPosition (e.getPosition.1 + 50) e.getPosition.2) := by
  rw [w.update_shift motion mbh hfirst hedge hlatch]
  show cellAt (forGrid w.rows w.columns _ w.enemyGrid) i j = _
  rw [cellAt_forGrid (fun _ _ (enemy : Enemy) =>
    enemy.setPosition (enemy.getPosition.1 + 50) enemy.getPosition.2), if_pos ⟨hi, hj⟩]
  rfl

theorem EnemyWave.getEnemy_update_vertical (w : EnemyWave) (motion : WaveMotion) (mbh : ℚ)
    (hfirst : motion.firstUpdate = false)
    (hcase : ((w.scanEdges mbh).1 || (w.scanEdges mbh).2) = false
      ∨ motion.hasMovedRightAfterReach = true) (i j : Nat) (hi : i < w.rows)
    (hj : j < w.columns) :
    (w.update motion mbh).1.getEnemy i j
      = (w.getEnemy i j).map (fun e => e.setPosition e.getPosition.1
          (e.getPosition.2 + (if motion.movingDown then 1 else -1))) := by
  rw [w.update_vertical motion mbh hfirst hcase]
  show cellAt (forGrid w.rows w.columns _ w.enemyGrid) i j = _
  rw [cellAt_forGrid (fun _ _ (enemy : Enemy) =>
    enemy.setPosition enemy.getPosition.1
      (enemy.getPosition.2 + (if motion.movingDown then 1 else -1))), if_pos ⟨hi, hj⟩]
  rfl

theorem Enemy.update_isAlive (e : Enemy) (dt : ℚ) : (e.update dt).isAlive = e.isAlive := by
  unfold Enemy.update Enemy.removeBullet
  simp only []
  split_ifs <;> rfl

theorem Enemy.update_sprite (e : Enemy) (dt : ℚ) :
    (e.update dt).sprite
      = if e.sprite.posX + e.movementSpeed * dt > (e.screenWidth : ℚ) then
          (e.sprite.move (e.movementSpeed * dt) 0).setPosition
            (-(e.sprite.move (e.movementSpeed * dt) 0).getGlobalBounds.width) e.sprite.posY
        else e.sprite.move (e.movementSpeed * dt) 0 := by
  unfold Enemy.update Enemy.removeBullet
  simp only [Sprite.move, add_zero]
  split_ifs <;> rfl

/-- Claim C26, as the code has it: the movement operations do not look at the
liveness flag.  `Enemy::update` moves an enemy by `movementSpeed * dt` to the
right (wrapping behind the left edge once x exceeds the screen width) whether
it is alive or dead, and leaves the flag as it is.  `EnemyWave::update` gives
the enemy of every cell, dead or alive, the step of the branch taken: none on
the first invocation, (x + 50, y) in the sideways branch, (x, y + 1) or
(x, y - 1) in the vertical branch.  The enemy stays addressable at its cell
with its flag unchanged. -/
theorem dead_enemy_moves_too (e : Enemy) (dt : ℚ) (w : EnemyWave) (motion : WaveMotion)
    (mbh : ℚ) (i j : Nat) (hwf : w.WellFormed) (hi : i < w.rows) (hj : j < w.columns) :
    ((e.update dt).sprite = ((e.setIsAlive true).update dt).sprite
        ∧ (e.update dt).sprite = ((e.setIsAlive false).update dt).sprite
        ∧ (e.update dt).isAlive = e.isAlive
        ∧ (e.update dt).getPosition.2 = e.getPosition.2
        ∧ (e.getPosition.1 + e.movementSpeed * dt ≤ (e.screenWidth : ℚ) →
            (e.update dt).getPosition.1 = e.getPosition.1 + e.movementSpeed * dt))
      ∧ ∃ e0 e1, w.getEnemy i j = some e0
          ∧ (w.update motion mbh).1.getEnemy i j = some e1
          ∧ e1.isAlive = e0.isAlive
          ∧ (motion.firstUpdate = true → e1 = e0)
          ∧ (motion.firstUpdate = false →
              ((w.scanEdges mbh).1 || (w.scanEdges mbh).2) = true →
              motion.hasMovedRightAfterReach = false →
              e1 = e0.setPosition (e0.getPosition.1 + 50) e0.getPosition.2)
          ∧ (motion.firstUpdate = false →
              (((w.scanEdges mbh).1 || (w.scanEdges mbh).2) = false
                ∨ motion.hasMovedRightAfterReach = true) →
              e1 = e0.setPosition e0.getPosition.1
                (e0.getPosition.2 + (if motion.movingDown then 1 else -1))) := by
  constructor
  · refine ⟨?_, ?_, e.update_isAlive dt, ?_, ?_⟩
    · rw [Enemy.update_sprite, Enemy.update_sprite]
      rfl
    · rw [Enemy.update_sprite, Enemy.update_sprite]
      rfl
    · show (e.update dt).sprite.posY = e.sprite.posY
      rw [Enemy.update_sprite]
      split_ifs
      · rfl
      · show e.sprite.posY + 0 = e.sprite.posY
        exact add_zero _
    · intro h
      have h2 : ¬ (e.sprite.posX + e.movementSpeed * dt > (e.screenWidth : ℚ)) := not_lt.mpr h
      show (e.update dt).sprite.posX = e.sprite.posX + e.movementSpeed * dt
      rw [Enemy.update_sprite, if_neg h2]
      rfl
  · obtain ⟨e0, he0⟩ := w.getEnemy_isSome hwf i j hi hj
    by_cases hfirst : motion.firstUpdate = true
    · refine ⟨e0, e0, he0, ?_, rfl, fun _ => rfl, ?_, ?_⟩
      · rw [w.getEnemy_update_first motion mbh hfirst]
        exact he0
      · intro hf
        rw [hf] at hfirst
        exact absurd hfirst (by decide)
      · intro hf
        rw [hf] at hfirst
        exact absurd hfirst (by decide)
    · have hf : motion.firstUpdate = false := by
        cases h : motion.firstUpdate
        · rfl
        · exact absurd h hfirst
      by_cases hshift : ((w.scanEdges mbh).1 || (w.scanEdges mbh).2) = true
          ∧ motion.hasMovedRightAfterReach = false
      · refine ⟨e0, e0.setPosition (e0.getPosition.1 + 50) e0.getPosition.2, he0, ?_, rfl,
          fun h => absurd h hfirst, fun _ _ _ => rfl, ?_⟩
        · rw [w.getEnemy_update_shift motion mbh hf hshift.1 hshift.2 i j hi hj, he0]
          rfl
        · intro _ hcase
          rcases hcase with h | h
          · rw [hshift.1] at h
            exact absurd h (by decide)
          · rw [hshift.2] at h
            exact absurd h (by decide)
      · have hcase : ((w.scanEdges mbh).1 || (w.scanEdges mbh).2) = false
            ∨ motion.hasMovedRightAfterReach = true := by
          cases h1 : ((w.scanEdges mbh).1 || (w.scanEdges mbh).2)
          · exact Or.inl rfl
          · cases h2 : motion.hasMovedRightAfterReach
            · exact absurd ⟨h1, h2⟩ hshift
            · exact Or.inr rfl
        refine ⟨e0, e0.setPosition e0.getPosition.1
          (e0.getPosition.2 + (if motion.movingDown then 1 else -1)), he0, ?_, rfl,
          fun h => absurd h hfirst, ?_, fun _ _ => rfl⟩
        · rw [w.getEnemy_update_vertical motion mbh hf hcase i j hi hj, he0]
          rfl
        · intro _ h1 h2
          exact absurd ⟨h1, h2⟩ hshift

/-- Witness for claim C26: the constructed 1280x720 formation at cell (0, 0),
on its first invocation of `update`, and an enemy at (100, 200). -/
theorem dead_enemy_moves_too_witness :
    ∃ e0 e1, (EnemyWave.new (1280, 720) (1280, 720) 72 32 32).getEnemy 0 0 = some e0
      ∧ ((EnemyWave.new (1280, 720) (1280, 720) 72 32 32).update WaveMotion.initial 72).1.getEnemy
          0 0 = some e1
      ∧ e1.isAlive = e0.isAlive :=
  have h := dead_enemy_moves_too (Enemy.new 100 200 1280 (1280, 720)) 1
    (EnemyWave.new (1280, 720) (1280, 720) 72 32 32) WaveMotion.initial 72 0 0 (by decide)
    (by decide) (by decide)
  match h.2 with
  | ⟨e0, e1, h0, h1, h2, _⟩ => ⟨e0, e1, h0, h1, h2⟩

/-- Claim C26, as stated, fails: the enemy constructed at (100, 200) for a
1280x720 screen and then killed has its liveness flag false, and `Enemy::update`
with a time step of one second moves it from x = 100 to x = 103. -/
theorem dead_enemy_unmoved_refuted :
    ((Enemy.new 100 200 1280 (1280, 720)).kill).isAlive = false
      ∧ ((Enemy.new 100 200 1280 (1280, 720)).kill.update 1).getPosition = (103, 200)
      ∧ ¬ (((Enemy.new 100 200 1280 (1280, 720)).kill.update 1).getPosition
            = ((Enemy.new 100 200 1280 (1280, 720)).kill).getPosition) := by
  have hpos : ((Enemy.new 100 200 1280 (1280, 720)).kill.update 1).getPosition = (103, 200) := by
    show (((Enemy.new 100 200 1280 (1280, 720)).kill.update 1).sprite.posX,
      ((Enemy.new 100 200 1280 (1280, 720)).kill.update 1).sprite.posY) = _
    rw [Enemy.update_sprite]
    norm_num [Enemy.new, Enemy.kill, Enemy.setPosition, Sprite.move, Sprite.setPosition,
      Sprite.setScale, Sprite.default]
  refine ⟨rfl, hpos, ?_⟩
  rw [hpos]
  norm_num [Enemy.new, Enemy.kill, Enemy.setPosition, Enemy.getPosition, Sprite.setPosition,
    Sprite.setScale, Sprite.default]

/-! ## Enemy projectiles: one target each -/

theorem Game.enemyBulletLoop_player (answers : Nat → Bool) (b : Bullet) (rest : List Bullet)
    (g : Game)
    (hp : b.getGlobalBounds.intersects g.player.sprite.getGlobalBounds = true) :
    Game.enemyBulletLoop answers (b :: rest) g
      = Game.enemyBulletLoop answers rest (g.playerHit answers) := by
  rw [Game.enemyBulletLoop, if_pos hp]

theorem Game.enemyBulletLoop_barrier1 (answers : Nat → Bool) (b : Bullet) (rest : List Bullet)
    (g : Game)
    (hp : b.getGlobalBounds.intersects g.player.sprite.getGlobalBounds = false)
    (h1 : g.barrier1.bulletCollision b.getSprite = true) :
    Game.enemyBulletLoop answers (b :: rest) g
      = (rest, { g with barrier1 := g.barrier1.shrink }) := by
  rw [Game.enemyBulletLoop, hp, h1]
  simp only [Bool.false_eq_true, if_false, if_true]

theorem Game.enemyBulletLoop_barrier2 (answers : Nat → Bool) (b : Bullet) (rest : List Bullet)
    (g : Game)
    (hp : b.getGlobalBounds.intersects g.player.sprite.getGlobalBounds = false)
    (h1 : g.barrier1.bulletCollision b.getSprite = false)
    (h2 : g.barrier2.bulletCollision b.getSprite = true) :
    Game.enemyBulletLoop answers (b :: rest) g
      = (rest, { g with barrier2 := g.barrier2.shrink }) := by
  rw [Game.enemyBulletLoop, hp, h1, h2]
  simp only [Bool.false_eq_true, if_false, if_true]

theorem Game.enemyBulletLoop_barrier3 (answers : Nat → Bool) (b : Bullet) (rest : List Bullet)
    (g : Game)
    (hp : b.getGlobalBounds.intersects g.player.sprite.getGlobalBounds = false)
    (h1 : g.barrier1.bulletCollision b.getSprite = false)
    (h2 : g.barrier2.bulletCollision b.getSprite = false)
    (h3 : g.barrier3.bulletCollision b.getSprite = true) :
    Game.enemyBulletLoop answers (b :: rest) g
      = (rest, { g with barrier3 := g.barrier3.shrink }) := by
  rw [Game.enemyBulletLoop, hp, h1, h2, h3]
  simp only [Bool.false_eq_true, if_false, if_true]

theorem Game.enemyBulletLoop_miss (answers : Nat → Bool) (b : Bullet) (rest : List Bullet)
    (g : Game)
    (hp : b.getGlobalBounds.intersects g.player.sprite.getGlobalBounds = false)
    (h1 : g.barrier1.bulletCollision b.getSprite = false)
    (h2 : g.barrier2.bulletCollision b.getSprite = false)
    (h3 : g.barrier3.bulletCollision b.getSprite = false) :
    Game.enemyBulletLoop answers (b :: rest) g
      = (b :: (Game.enemyBulletLoop answers rest g).1,
         (Game.enemyBulletLoop answers rest g).2) := by
  rw [Game.enemyBulletLoop, hp, h1, h2, h3]
  simp only [Bool.false_eq_true, if_false]

theorem Game.playerHit_barriers (g : Game) (answers : Nat → Bool) :
    (g.playerHit answers).barrier1 = g.barrier1 ∧ (g.playerHit answers).barrier2 = g.barrier2
      ∧ (g.playerHit answers).barrier3 = g.barrier3
      ∧ (g.playerHit answers).enemyWave = g.enemyWave := by
  unfold Game.playerHit Game.gameOver
  simp only []
  split_ifs <;> exact ⟨rfl, rfl, rfl, rfl⟩

/-- The projectile loop erases projectiles and never adds or reorders any. -/
theorem Game.enemyBulletLoop_sublist (answers : Nat → Bool) (bs : List Bullet) (g : Game) :
    (Game.enemyBulletLoop answers bs g).1.Sublist bs := by
  induction bs generalizing g with
  | nil => exact List.Sublist.refl _
  | cons b rest ih =>
    rw [Game.enemyBulletLoop]
    split_ifs
    · exact List.Sublist.cons b (ih _)
    · exact List.sublist_cons_self b rest
    · exact List.sublist_cons_self b rest
    · exact List.sublist_cons_self b rest
    · exact List.Sublist.cons₂ b (ih _)

/-- Claim C24: the projectile `b` under examination in the loop over an enemy's
projectiles is resolved against at most one target, tested in the order
player, barrier1, barrier2, barrier3.  If it intersects the player, the player
takes the hit (one life less while the lives are above 0), the projectile is
erased and no barrier changes, whatever barriers it also intersects, and the
loop goes on with the rest.  If it misses the player, the first barrier it
intersects in that order shrinks once, no other barrier changes and the
projectile is erased.  If it intersects none, it stays at the front of the
collection and nothing changes.  The loop never adds or reorders projectiles. -/
theorem enemy_projectile_one_target (answers : Nat → Bool) (b : Bullet) (rest : List Bullet)
    (g : Game) :
    (b.getGlobalBounds.intersects g.player.sprite.getGlobalBounds = true →
        Game.enemyBulletLoop answers (b :: rest) g
            = Game.enemyBulletLoop answers rest (g.playerHit answers)
          ∧ (g.playerHit answers).player.lives
              = (if g.player.lives > 0 then g.player.lives - 1 else g.player.lives)
          ∧ (g.playerHit answers).barrier1 = g.barrier1
          ∧ (g.playerHit answers).barrier2 = g.barrier2
          ∧ (g.playerHit answers).barrier3 = g.barrier3
          ∧ Game.enemyBulletLoop answers [b] g = ([], g.playerHit answers))
      ∧ (b.getGlobalBounds.intersects g.player.sprite.getGlobalBounds = false →
          g.barrier1.bulletCollision b.getSprite = true →
          Game.enemyBulletLoop answers (b :: rest) g
            = (rest, { g with barrier1 := g.barrier1.shrink }))
      ∧ (b.getGlobalBounds.intersects g.player.sprite.getGlobalBounds = false →
          g.barrier1.bulletCollision b.getSprite = false →
          g.barrier2.bulletCollision b.getSprite = true →
          Game.enemyBulletLoop answers (b :: rest) g
            = (rest, { g with barrier2 := g.barrier2.shrink }))
      ∧ (b.getGlobalBounds.intersects g.player.sprite.getGlobalBounds = false →
          g.barrier1.bulletCollision b.getSprite = false →
          g.barrier2.bulletCollision b.getSprite = false →
          g.barrier3.bulletCollision b.getSprite = true →
          Game.enemyBulletLoop answers (b :: rest) g
            = (rest, { g with barrier3 := g.barrier3.shrink }))
      ∧ (b.getGlobalBounds.intersects g.player.sprite.getGlobalBounds = false →
          g.barrier1.bulletCollision b.getSprite = false →
          g.barrier2.bulletCollision b.getSprite = false →
          g.barrier3.bulletCollision b.getSprite = false →
          Game.enemyBulletLoop answers (b :: rest) g
              = (b :: (Game.enemyBulletLoop answers rest g).1,
                 (Game.enemyBulletLoop answers rest g).2)
            ∧ Game.enemyBulletLoop answers [b] g = ([b], g))
      ∧ (Game.enemyBulletLoop answers (b :: rest) g).1.Sublist (b :: rest) := by
  refine ⟨?_, Game.enemyBulletLoop_barrier1 answers b rest g,
    Game.enemyBulletLoop_barrier2 answers b rest g,
    Game.enemyBulletLoop_barrier3 answers b rest g, ?_,
    Game.enemyBulletLoop_sublist answers (b :: rest) g⟩
  · intro hp
    refine ⟨Game.enemyBulletLoop_player answers b rest g hp, ?_,
      (g.playerHit_barriers answers).1, (g.playerHit_barriers answers).2.1,
      (g.playerHit_barriers answers).2.2.1, ?_⟩
    · rw [(g.playerHit_frame answers).1]
      unfold Player.decreaseLife
      split_ifs <;> rfl
    · rw [Game.enemyBulletLoop_player answers b [] g hp]
      rfl
  · intro hp h1 h2 h3
    refine ⟨Game.enemyBulletLoop_miss answers b rest g hp h1 h2 h3, ?_⟩
    rw [Game.enemyBulletLoop_miss answers b [] g hp h1 h2 h3]
    rfl

/-! ## Enemy projectiles behind a barrier hit -/

theorem Game.enemyShotOnBarrier_bounds :
    Game.enemyShotOnBarrier.getGlobalBounds
      = { left := 1070, top := 170, width := 8, height := 8 } := by
  norm_num [Game.enemyShotOnBarrier, Bullet.getGlobalBounds, Bullet.new, Sprite.getGlobalBounds,
    Sprite.setTexture, Sprite.setPosition, Sprite.setScale, Sprite.default]

/-- Claim C25 fails on the code.  In `Game.barrierShotThenPlayerShot` enemy
(4, 3) holds two projectiles: the first intersects the first barrier, the
second intersects the bounding box of the player, who has 3 lives.  One pass of
the resolution shrinks the barrier and erases the first projectile, and then
leaves the loop over the projectiles of that enemy: the second projectile is
still in the collection afterwards and the player still has 3 lives. -/
theorem shot_behind_barrier_hit_skipped (answers : Nat → Bool) :
    Game.barrierShotThenPlayerShot.player.lives = 3
      ∧ Game.enemyShotOnPlayer.getGlobalBounds.intersects
          Game.barrierShotThenPlayerShot.player.sprite.getGlobalBounds = true
      ∧ (Game.barrierShotThenPlayerShot.enemyWave.getEnemy 4 3).map Enemy.getBullets
          = some [Game.enemyShotOnBarrier, Game.enemyShotOnPlayer]
      ∧ (Game.barrierShotThenPlayerShot.resolveEnemyProjectiles answers).player.lives = 3
      ∧ ((Game.barrierShotThenPlayerShot.resolveEnemyProjectiles answers).enemyWave.getEnemy
            4 3).map Enemy.getBullets = some [Game.enemyShotOnPlayer]
      ∧ (Game.barrierShotThenPlayerShot.resolveEnemyProjectiles answers).barrier1
          = Game.barrierShotThenPlayerShot.barrier1.shrink := by
  have hcell : Game.barrierShotThenPlayerShot.enemyWave.getEnemy 4 3
      = some { Game.startEnemy 4 3 with
          bullets := [Game.enemyShotOnBarrier, Game.enemyShotOnPlayer] } := by
    show cellAt (modifyCell Game.start.enemyWave.enemyGrid 4 3 _) 4 3 = _
    rw [cellAt_modifyCell, if_pos ⟨rfl, rfl⟩]
    show Option.map _ (Game.start.enemyWave.getEnemy 4 3) = _
    rw [Game.start_getEnemy 4 3 (by decide) (by decide)]
    rfl
  have hother : ∀ i j, i < 5 → j < 4 → ¬ (i = 4 ∧ j = 3) →
      Game.barrierShotThenPlayerShot.enemyWave.getEnemy i j = some (Game.startEnemy i j) := by
    intro i j hi hj hne
    show cellAt (modifyCell Game.start.enemyWave.enemyGrid 4 3 _) i j = _
    rw [cellAt_modifyCell, if_neg (fun h => hne ⟨h.1.symm, h.2.symm⟩)]
    exact Game.start_getEnemy i j hi hj
  have hpass : Game.barrierShotThenPlayerShot.resolveEnemyProjectiles answers
      = Game.resolveEnemyAt answers Game.barrierShotThenPlayerShot 4 3 := by
    show forGrid (4 + 1) (3 + 1) (Game.resolveEnemyAt answers) Game.barrierShotThenPlayerShot = _
    apply forGrid_last
    intro i j hi hj hne
    exact Game.resolveEnemyAt_idle answers _ i j _ (hother i j hi hj hne)
      (Game.startEnemy_bullets i j) (Game.start_no_contact _ i j rfl hj)
  have hshot : Game.enemyShotOnPlayer.getGlobalBounds.intersects
      Game.barrierShotThenPlayerShot.player.sprite.getGlobalBounds = true := by
    show Game.enemyShotOnPlayer.getGlobalBounds.intersects
      Game.start.player.sprite.getGlobalBounds = true
    rw [Game.start_player_bounds, Game.enemyShotOnPlayer_bounds]
    norm_num [FloatRect.intersects]
  have hmiss : Game.enemyShotOnBarrier.getGlobalBounds.intersects
      Game.barrierShotThenPlayerShot.player.sprite.getGlobalBounds = false := by
    show Game.enemyShotOnBarrier.getGlobalBounds.intersects
      Game.start.player.sprite.getGlobalBounds = false
    rw [Game.start_player_bounds, Game.enemyShotOnBarrier_bounds]
    norm_num [FloatRect.intersects]
  have hbar : Game.barrierShotThenPlayerShot.barrier1.bulletCollision
      Game.enemyShotOnBarrier.getSprite = true := by
    show Game.start.barrier1.iceBlockSprite.getGlobalBounds.intersects
      Game.enemyShotOnBarrier.getGlobalBounds = true
    rw [Game.start_barrier_bounds.1, Game.enemyShotOnBarrier_bounds]
    norm_num [FloatRect.intersects]
  have hloop := Game.enemyBulletLoop_barrier1 answers Game.enemyShotOnBarrier
    [Game.enemyShotOnPlayer] Game.barrierShotThenPlayerShot hmiss hbar
  have hres : Game.resolveEnemyAt answers Game.barrierShotThenPlayerShot 4 3
      = { Game.barrierShotThenPlayerShot with
          barrier1 := Game.barrierShotThenPlayerShot.barrier1.shrink
          enemyWave := { Game.barrierShotThenPlayerShot.enemyWave with
            enemyGrid := modifyCell Game.barrierShotThenPlayerShot.enemyWave.enemyGrid 4 3
              (fun e => { e with bullets := [Game.enemyShotOnPlayer] }) } } := by
    unfold Game.resolveEnemyAt
    rw [hcell]
    simp only [Enemy.getBullets]
    rw [hloop]
    simp only []
    have hc : Game.barrierShotThenPlayerShot.player.isCollidingWithEnemy
        (Game.startEnemy 4 3).sprite = false :=
      Game.start_no_contact _ 4 3 rfl (by decide)
    rw [hc]
    simp only [Bool.and_false, Bool.false_eq_true, if_false]
  refine ⟨rfl, hshot, by rw [hcell]; rfl, ?_, ?_, ?_⟩
  · rw [hpass, hres]
    rfl
  · rw [hpass, hres]
    show Option.map Enemy.getBullets (cellAt (modifyCell
      Game.barrierShotThenPlayerShot.enemyWave.enemyGrid 4 3 _) 4 3) = _
    rw [cellAt_modifyCell, if_pos ⟨rfl, rfl⟩]
    show Option.map Enemy.getBullets (Option.map _
      (Game.barrierShotThenPlayerShot.enemyWave.getEnemy 4 3)) = _
    rw [hcell]
    rfl
  · rw [hpass, hres]

/-! ## Vertical keys -/

theorem Game.start_player_frame :
    Game.start.player.movementSpeed = 9 / 2 ∧ Game.start.player.sprite.scaleY = 1
      ∧ Game.start.player.sprite.texH = 32 ∧ Game.start.player.sprite.posY = 360 := by
  norm_num [Game.start, Player.setPlayerTexture, Player.new, Player.setPosition,
    Settings.getVector, Settings.widthScaling, Settings.heightScaling,
    Sprite.setTexture, Sprite.setPosition, Sprite.setScale, Sprite.default]

/-- One frame with the Down key pressed on a player like that of `Game.start`
(multiplier 4.5, 32 high) whose bottom edge is at most 719.5: the player goes
down by 2.25. -/
theorem Game.handleVerticalKeys_down (p : Player) (hm : p.movementSpeed = 9 / 2)
    (hs : p.sprite.scaleY = 1) (ht : p.sprite.texH = 32) (hy : p.sprite.posY + 32 + 1 / 2 ≤ 720) :
    Game.handleVerticalKeys (1280, 720) false true p
      = { p with sprite := { p.sprite with posX := p.sprite.posX + 0,
                                           posY := p.sprite.posY + 9 / 4 } } := by
  have hsize : p.getSize.2 = 32 := by
    simp only [Player.getSize, Sprite.getGlobalBounds, hs, ht]
    norm_num
  unfold Game.handleVerticalKeys
  simp only [Bool.false_eq_true, if_false, if_true, Player.getPosition, hsize]
  have hcond : p.sprite.posY + 32 + 1 / 2 ≤ (((1280, 720) : Nat × Nat).2 : ℚ) := by
    norm_num
    linarith
  rw [if_pos hcond]
  simp only [Player.move, Sprite.move, hm]
  norm_num

/-- Frames with the Down key pressed, from the player of `Game.start`: as long
as the guard lets the player move, each frame adds 2.25 to y. -/
theorem Game.iterate_down (n : Nat) (hn : n ≤ 146) :
    ((Game.handleVerticalKeys (1280, 720) false true)^[n] Game.start.player).movementSpeed
        = 9 / 2
      ∧ ((Game.handleVerticalKeys (1280, 720) false true)^[n] Game.start.player).sprite.scaleY = 1
      ∧ ((Game.handleVerticalKeys (1280, 720) false true)^[n] Game.start.player).sprite.texH = 32
      ∧ ((Game.handleVerticalKeys (1280, 720) false true)^[n] Game.start.player).sprite.posY
          = 360 + 9 / 4 * (n : ℚ) := by
  induction n with
  | zero =>
    obtain ⟨h1, h2, h3, h4⟩ := Game.start_player_frame
    refine ⟨h1, h2, h3, ?_⟩
    rw [Function.iterate_zero, id, h4]
    norm_num
  | succ k ih =>
    obtain ⟨h1, h2, h3, h4⟩ := ih (by omega)
    have hk : (k : ℚ) ≤ 145 := by exact_mod_cast (by omega : k ≤ 145)
    rw [Function.iterate_succ_apply', Game.handleVerticalKeys_down _ h1 h2 h3 (by
      rw [h4]
      linarith)]
    refine ⟨h1, h2, h3, ?_⟩
    show _ + 9 / 4 = _
    rw [h4]
    push_cast
    ring

/-- Claim C30 fails on the code.  From the player of `Game.start` (1280x720
window, movement-speed multiplier 4.5, 32 high, y = 360), after 145 frames with
the Down key pressed the player is at y = 686.25: its top edge is not above
the bar line (72 <= y) and its bottom edge is at 718.25 <= 720.  In the next frame
with Down pressed the guard `y + height + 0.5 <= 720` holds and `Player::move`
moves the player by 0.5 * 4.5 = 2.25: the bottom edge is then at 720.5, below
the window. -/
theorem down_key_leaves_playfield :
    ((Game.handleVerticalKeys (1280, 720) false true)^[145] Game.start.player).getPosition.2
        = 2745 / 4
      ∧ ((1280, 720) : Nat × Nat).2 * (1 / 10 : ℚ)
          ≤ ((Game.handleVerticalKeys (1280, 720) false true)^[145] Game.start.player).getPosition.2
      ∧ ((Game.handleVerticalKeys (1280, 720) false true)^[145] Game.start.player).getPosition.2
          + ((Game.handleVerticalKeys (1280, 720) false true)^[145] Game.start.player).getSize.2
          ≤ (((1280, 720) : Nat × Nat).2 : ℚ)
      ∧ (Game.handleVerticalKeys (1280, 720) false true
            ((Game.handleVerticalKeys (1280, 720) false true)^[145]
              Game.start.player)).getPosition.2
          + (Game.handleVerticalKeys (1280, 720) false true
              ((Game.handleVerticalKeys (1280, 720) false true)^[145]
                Game.start.player)).getSize.2
          = 1441 / 2
      ∧ ¬ ((Game.handleVerticalKeys (1280, 720) false true
              ((Game.handleVerticalKeys (1280, 720) false true)^[145]
                Game.start.player)).getPosition.2
            + (Game.handleVerticalKeys (1280, 720) false true
                ((Game.handleVerticalKeys (1280, 720) false true)^[145]
                  Game.start.player)).getSize.2
            ≤ (((1280, 720) : Nat × Nat).2 : ℚ)) := by
  obtain ⟨a1, a2, a3, a4⟩ := Game.iterate_down 145 (by decide)
  have hb := Game.iterate_down 146 (by decide)
  rw [Function.iterate_succ_apply'] at hb
  obtain ⟨b1, b2, b3, b4⟩ := hb
  have hsize : ∀ p : Player, p.sprite.scaleY = 1 → p.sprite.texH = 32 → p.getSize.2 = 32 := by
    intro p hs ht
    simp only [Player.getSize, Sprite.getGlobalBounds, hs, ht]
    norm_num
  have hbottom : (Game.handleVerticalKeys (1280, 720) false true
        ((Game.handleVerticalKeys (1280, 720) false true)^[145]
          Game.start.player)).getPosition.2
      + (Game.handleVerticalKeys (1280, 720) false true
          ((Game.handleVerticalKeys (1280, 720) false true)^[145]
            Game.start.player)).getSize.2 = 1441 / 2 := by
    rw [hsize _ b2 b3]
    show (Game.handleVerticalKeys (1280, 720) false true
        ((Game.handleVerticalKeys (1280, 720) false true)^[145]
          Game.start.player)).sprite.posY + 32 = _
    rw [b4]
    norm_num
  refine ⟨?_, ?_, ?_, hbottom, ?_⟩
  · show ((Game.handleVerticalKeys (1280, 720) false true)^[145]
      Game.start.player).sprite.posY = _
    rw [a4]
    norm_num
  · show _ ≤ ((Game.handleVerticalKeys (1280, 720) false true)^[145]
      Game.start.player).sprite.posY
    rw [a4]
    norm_num
  · rw [hsize _ a2 a3]
    show ((Game.handleVerticalKeys (1280, 720) false true)^[145]
      Game.start.player).sprite.posY + 32 ≤ _
    rw [a4]
    norm_num
  · rw [hbottom]
    norm_num

/-! ## Advances of a projectile per frame -/

theorem Game.enemyFrameCell_cell (st : EnemyLoop) (dt : ℚ) (i j : Nat) (e0 : Enemy)
    (he : st.wave.getEnemy i j = some e0) :
    EnemyWave.getEnemy
        { st.wave with enemyGrid := modifyCell st.wave.enemyGrid i j (fun e => e.update dt) } i j
      = some (e0.update dt) := by
  show cellAt (modifyCell st.wave.enemyGrid i j _) i j = _
  rw [cellAt_modifyCell, if_pos ⟨rfl, rfl⟩]
  show Option.map _ (st.wave.getEnemy i j) = _
  rw [he]
  rfl

theorem Game.enemyFrameCell_right (st : EnemyLoop) (dt : ℚ) (i j : Nat) :
    EnemyWave.getEnemy
        { st.wave with enemyGrid := modifyCell st.wave.enemyGrid i j (fun e => e.update dt) } i
        (j + 1)
      = st.wave.getEnemy i (j + 1) := by
  show cellAt (modifyCell st.wave.enemyGrid i j _) i (j + 1) = _
  rw [cellAt_modifyCell, if_neg (fun h => absurd h.2 (by omega))]
  rfl

/-- The enemy at `(i, j)` has a living enemy on its right. -/
theorem Game.enemyFrameCell_blocked (st : EnemyLoop) (dt : ℚ) (draws : Nat → Int)
    (tw th : Nat) (i j : Nat) (r : Enemy) (hj : j + 1 < st.wave.columns)
    (hr : st.wave.getEnemy i (j + 1) = some r) (ha : r.isAlive = true) :
    Game.enemyFrameCell dt draws tw th st i j
      = { st with
          wave := { st.wave with
            enemyGrid := modifyCell st.wave.enemyGrid i j (fun e => e.update dt) } } := by
  unfold Game.enemyFrameCell
  simp only []
  rw [Game.enemyFrameCell_right, hr]
  have hlt : ((j : Int) < ((st.wave.columns : Nat) : Int) - 1) := by omega
  simp only [EnemyWave.getColumns, Enemy.getIsAlive, ha, hlt, decide_True, Bool.and_self,
    if_true]

/-- The enemy at `(i, j)` has no living enemy on its right and the clock of its
row is below the value drawn. -/
theorem Game.enemyFrameCell_early (st : EnemyLoop) (dt : ℚ) (draws : Nat → Int)
    (tw th : Nat) (i j : Nat)
    (hright : j + 1 = st.wave.columns
      ∨ ∃ r, st.wave.getEnemy i (j + 1) = some r ∧ r.isAlive = false)
    (hclock : st.clocks i < (draws st.drawsTaken : ℚ)) :
    Game.enemyFrameCell dt draws tw th st i j
      = { st with
          wave := { st.wave with
            enemyGrid := modifyCell st.wave.enemyGrid i j (fun e => e.update dt) }
          drawsTaken := st.drawsTaken + 1 } := by
  unfold Game.enemyFrameCell
  simp only []
  rw [Game.enemyFrameCell_right]
  have hR : (decide ((j : Int) < ((st.wave.columns : Nat) : Int) - 1)
      && (match st.wave.getEnemy i (j + 1) with
          | some e => e.getIsAlive
          | none => false)) = false := by
    rcases hright with h | ⟨r, hr, ha⟩
    · have hlt : ¬ ((j : Int) < ((st.wave.columns : Nat) : Int) - 1) := by omega
      simp only [hlt, decide_False, Bool.false_and]
    · rw [hr]
      simp only [Enemy.getIsAlive, ha, Bool.and_false]
  simp only [EnemyWave.getColumns, hR, Bool.false_eq_true, if_false, ge_iff_le]
  rw [if_neg (not_le.mpr hclock)]

/-- The enemy at `(i, j)` is dead and has no living enemy on its right. -/
theorem Game.enemyFrameCell_dead (st : EnemyLoop) (dt : ℚ) (draws : Nat → Int)
    (tw th : Nat) (i j : Nat) (e0 : Enemy) (he : st.wave.getEnemy i j = some e0)
    (hdead : e0.isAlive = false)
    (hright : j + 1 = st.wave.columns
      ∨ ∃ r, st.wave.getEnemy i (j + 1) = some r ∧ r.isAlive = false) :
    Game.enemyFrameCell dt draws tw th st i j
      = { st with
          wave := { st.wave with
            enemyGrid := modifyCell st.wave.enemyGrid i j (fun e => e.update dt) }
          drawsTaken := st.drawsTaken + 1 } := by
  unfold Game.enemyFrameCell
  simp only []
  rw [Game.enemyFrameCell_right, Game.enemyFrameCell_cell st dt i j e0 he]
  have hR : (decide ((j : Int) < ((st.wave.columns : Nat) : Int) - 1)
      && (match st.wave.getEnemy i (j + 1) with
          | some e => e.getIsAlive
          | none => false)) = false := by
    rcases hright with h | ⟨r, hr, ha⟩
    · have hlt : ¬ ((j : Int) < ((st.wave.columns : Nat) : Int) - 1) := by omega
      simp only [hlt, decide_False, Bool.false_and]
    · rw [hr]
      simp only [Enemy.getIsAlive, ha, Bool.and_false]
  simp only [EnemyWave.getColumns]
  rw [hR]
  simp only [Bool.false_eq_true, if_false, Enemy.getIsAlive, e0.update_isAlive dt, hdead,
    ite_self]

/-- The enemy at `(i, j)` is alive, has no living enemy on its right and the
clock of its row has reached the value drawn: it shoots. -/
theorem Game.enemyFrameCell_fire (st : EnemyLoop) (dt : ℚ) (draws : Nat → Int)
    (tw th : Nat) (i j : Nat) (e0 : Enemy) (he : st.wave.getEnemy i j = some e0)
    (halive : e0.isAlive = true)
    (hright : j + 1 = st.wave.columns
      ∨ ∃ r, st.wave.getEnemy i (j + 1) = some r ∧ r.isAlive = false)
    (hclock : (draws st.drawsTaken : ℚ) ≤ st.clocks i) :
    Game.enemyFrameCell dt draws tw th st i j
      = { wave := { st.wave with
            enemyGrid := modifyCell
              (modifyCell st.wave.enemyGrid i j (fun e => e.update dt)) i j
              (fun e => e.shoot tw th) }
          clocks := Function.update st.clocks i 0
          drawsTaken := st.drawsTaken + 1 } := by
  unfold Game.enemyFrameCell
  simp only []
  rw [Game.enemyFrameCell_right, Game.enemyFrameCell_cell st dt i j e0 he]
  have hR : (decide ((j : Int) < ((st.wave.columns : Nat) : Int) - 1)
      && (match st.wave.getEnemy i (j + 1) with
          | some e => e.getIsAlive
          | none => false)) = false := by
    rcases hright with h | ⟨r, hr, ha⟩
    · have hlt : ¬ ((j : Int) < ((st.wave.columns : Nat) : Int) - 1) := by omega
      simp only [hlt, decide_False, Bool.false_and]
    · rw [hr]
      simp only [Enemy.getIsAlive, ha, Bool.and_false]
  simp only [EnemyWave.getColumns]
  rw [hR]
  simp only [Bool.false_eq_true, if_false, ge_iff_le]
  rw [if_pos hclock]
  simp only [Enemy.getIsAlive, e0.update_isAlive dt, halive, if_true]

/-- Claim C27: in the loop body at cell (i, j) the enemy is first moved by
`Enemy::update`; then either it does not fire (its cell holds the moved enemy
and the clocks are as before) or it fires, and then it is alive, it is in the
last column or the enemy at (i, j+1) is dead, the clock of row i has reached
the value drawn, which is at least 2, its collection has grown by exactly the
one projectile constructed at its current position, and the clock of row i is
reset.  A dead enemy, an enemy with a living enemy on its right and an enemy
whose row clock is below 2 s do not fire; a living enemy without a living
enemy on its right whose row clock has reached the value drawn fires. -/
theorem enemy_fires_only_when_allowed (st : EnemyLoop) (dt : ℚ) (draws : Nat → Int)
    (tw th : Nat) (i j : Nat) (hwf : st.wave.WellFormed) (hi : i < st.wave.rows)
    (hj : j < st.wave.columns) (hdraw : ∀ k, 2 ≤ draws k ∧ draws k ≤ 13) :
    ∃ e0, st.wave.getEnemy i j = some e0
      ∧ (((Game.enemyFrameCell dt draws tw th st i j).wave.getEnemy i j = some (e0.update dt)
            ∧ (Game.enemyFrameCell dt draws tw th st i j).clocks = st.clocks)
          ∨ (e0.isAlive = true
            ∧ (j + 1 = st.wave.columns
              ∨ ∃ r, st.wave.getEnemy i (j + 1) = some r ∧ r.isAlive = false)
            ∧ (draws st.drawsTaken : ℚ) ≤ st.clocks i
            ∧ 2 ≤ st.clocks i
            ∧ (Game.enemyFrameCell dt draws tw th st i j).wave.getEnemy i j
                = some ((e0.update dt).shoot tw th)
            ∧ ((e0.update dt).shoot tw th).bullets
                = (e0.update dt).bullets
                  ++ [Bullet.new (e0.update dt).getPosition.1 (e0.update dt).getPosition.2
                        "enemy" (e0.update dt).res1 tw th]
            ∧ ((e0.update dt).shoot tw th).bullets.length = (e0.update dt).bullets.length + 1
            ∧ (Game.enemyFrameCell dt draws tw th st i j).clocks
                = Function.update st.clocks i 0
            ∧ (Game.enemyFrameCell dt draws tw th st i j).clocks i = 0))
      ∧ (e0.isAlive = false →
          (Game.enemyFrameCell dt draws tw th st i j).wave.getEnemy i j = some (e0.update dt)
            ∧ (Game.enemyFrameCell dt draws tw th st i j).clocks = st.clocks)
      ∧ (st.clocks i < 2 →
          (Game.enemyFrameCell dt draws tw th st i j).wave.getEnemy i j = some (e0.update dt)
            ∧ (Game.enemyFrameCell dt draws tw th st i j).clocks = st.clocks)
      ∧ ((∃ r, st.wave.getEnemy i (j + 1) = some r ∧ r.isAlive = true) →
          (Game.enemyFrameCell dt draws tw th st i j).wave.getEnemy i j = some (e0.update dt)
            ∧ (Game.enemyFrameCell dt draws tw th st i j).clocks = st.clocks)
      ∧ (e0.isAlive = true →
          (j + 1 = st.wave.columns
            ∨ ∃ r, st.wave.getEnemy i (j + 1) = some r ∧ r.isAlive = false) →
          (draws st.drawsTaken : ℚ) ≤ st.clocks i →
          (Game.enemyFrameCell dt draws tw th st i j).wave.getEnemy i j
              = some ((e0.update dt).shoot tw th)
            ∧ (Game.enemyFrameCell dt draws tw th st i j).clocks i = 0) := by
  obtain ⟨e0, he⟩ := st.wave.getEnemy_isSome hwf i j hi hj
  have hcell := Game.enemyFrameCell_cell st dt i j e0 he
  have hdraw2 : (2 : ℚ) ≤ (draws st.drawsTaken : ℚ) := by exact_mod_cast (hdraw st.drawsTaken).1
  -- the three ways not to fire
  have hblocked : (∃ r, st.wave.getEnemy i (j + 1) = some r ∧ r.isAlive = true) →
      (Game.enemyFrameCell dt draws tw th st i j).wave.getEnemy i j = some (e0.update dt)
        ∧ (Game.enemyFrameCell dt draws tw th st i j).clocks = st.clocks := by
    rintro ⟨r, hr, ha⟩
    have hj1 : j + 1 < st.wave.columns := by
      by_contra hge
      have hrow : st.wave.enemyGrid[i]? ≠ none := by
        intro hnone
        have : st.wave.getEnemy i (j + 1) = none := by
          unfold EnemyWave.getEnemy cellAt
          rw [hnone]
        rw [this] at hr
        cases hr
      cases hrow2 : st.wave.enemyGrid[i]? with
      | none => exact hrow hrow2
      | some row =>
        have hmem : row ∈ st.wave.enemyGrid := List.mem_iff_getElem?.mpr ⟨i, hrow2⟩
        have hlen := hwf.2 row hmem
        have hcellr : st.wave.getEnemy i (j + 1) = row[j + 1]? := by
          unfold EnemyWave.getEnemy cellAt
          rw [hrow2]
        rw [hcellr, List.getElem?_eq_none (by omega)] at hr
        cases hr
    rw [Game.enemyFrameCell_blocked st dt draws tw th i j r hj1 hr ha]
    exact ⟨hcell, rfl⟩
  have hrightDead : (¬ ∃ r, st.wave.getEnemy i (j + 1) = some r ∧ r.isAlive = true) →
      (j + 1 = st.wave.columns
        ∨ ∃ r, st.wave.getEnemy i (j + 1) = some r ∧ r.isAlive = false) := by
    intro hno
    by_cases hlast : j + 1 = st.wave.columns
    · exact Or.inl hlast
    · obtain ⟨r, hr⟩ := st.wave.getEnemy_isSome hwf i (j + 1) hi (by omega)
      refine Or.inr ⟨r, hr, ?_⟩
      cases ha : r.isAlive
      · rfl
      · exact absurd ⟨r, hr, ha⟩ hno
  have hdead : e0.isAlive = false →
      (Game.enemyFrameCell dt draws tw th st i j).wave.getEnemy i j = some (e0.update dt)
        ∧ (Game.enemyFrameCell dt draws tw th st i j).clocks = st.clocks := by
    intro hd
    by_cases hb : ∃ r, st.wave.getEnemy i (j + 1) = some r ∧ r.isAlive = true
    · exact hblocked hb
    · rw [Game.enemyFrameCell_dead st dt draws tw th i j e0 he hd (hrightDead hb)]
      exact ⟨hcell, rfl⟩
  have hearly : st.clocks i < (draws st.drawsTaken : ℚ) →
      (Game.enemyFrameCell dt draws tw th st i j).wave.getEnemy i j = some (e0.update dt)
        ∧ (Game.enemyFrameCell dt draws tw th st i j).clocks = st.clocks := by
    intro hc
    by_cases hb : ∃ r, st.wave.getEnemy i (j + 1) = some r ∧ r.isAlive = true
    · exact hblocked hb
    · rw [Game.enemyFrameCell_early st dt draws tw th i j (hrightDead hb) hc]
      exact ⟨hcell, rfl⟩
  have hfire : e0.isAlive = true →
      (j + 1 = st.wave.columns
        ∨ ∃ r, st.wave.getEnemy i (j + 1) = some r ∧ r.isAlive = false) →
      (draws st.drawsTaken : ℚ) ≤ st.clocks i →
      (Game.enemyFrameCell dt draws tw th st i j).wave.getEnemy i j
          = some ((e0.update dt).shoot tw th)
        ∧ (Game.enemyFrameCell dt draws tw th st i j).clocks = Function.update st.clocks i 0 := by
    intro ha hr hc
    rw [Game.enemyFrameCell_fire st dt draws tw th i j e0 he ha hr hc]
    refine ⟨?_, rfl⟩
    show cellAt (modifyCell (modifyCell st.wave.enemyGrid i j _) i j _) i j = _
    rw [cellAt_modifyCell, if_pos ⟨rfl, rfl⟩]
    have hcell2 : cellAt (modifyCell st.wave.enemyGrid i j (fun e => e.update dt)) i j
        = some (e0.update dt) := hcell
    rw [hcell2]
    rfl
  refine ⟨e0, he, ?_, hdead, fun h => hearly (lt_of_lt_of_le h hdraw2), hblocked, ?_⟩
  · by_cases hb : ∃ r, st.wave.getEnemy i (j + 1) = some r ∧ r.isAlive = true
    · exact Or.inl (hblocked hb)
    · cases ha : e0.isAlive
      · exact Or.inl (hdead ha)
      · by_cases hc : (draws st.drawsTaken : ℚ) ≤ st.clocks i
        · obtain ⟨f1, f2⟩ := hfire ha (hrightDead hb) hc
          refine Or.inr ⟨rfl, hrightDead hb, hc, le_trans hdraw2 hc, f1, rfl, ?_, f2, ?_⟩
          · unfold Enemy.shoot
            simp only [List.length_append, List.length_singleton]
          · rw [f2]
            exact Function.update_same i 0 st.clocks
        · exact Or.inl (hearly (not_le.mp hc))
  · intro ha hr hc
    obtain ⟨f1, f2⟩ := hfire ha hr hc
    refine ⟨f1, ?_⟩
    rw [f2]
    exact Function.update_same i 0 st.clocks

/-- Witness for claim C27: the enemy of the last column of row 0 of the
constructed 1280x720 formation, the clock of every row at 5 s, every draw 3, a
frame of 1/60 s: the enemy fires and the clock of row 0 is reset. -/
theorem enemy_fires_only_when_allowed_witness :
    (Game.enemyFrameCell (1 / 60) (fun _ => 3) 16 16
        { wave := Game.start.enemyWave, clocks := fun _ => 5, drawsTaken := 0 } 0 3).clocks 0
      = 0 :=
  match enemy_fires_only_when_allowed
      { wave := Game.start.enemyWave, clocks := fun _ => 5, drawsTaken := 0 } (1 / 60)
      (fun _ => 3) 16 16 0 3 (by decide) (by decide) (by decide)
      (fun _ => ⟨by norm_num, by norm_num⟩) with
  | ⟨e0, he, _, _, _, _, hfire⟩ =>
    (hfire
      (by
        have h2 : some e0 = some (Game.startEnemy 0 3) :=
          he.symm.trans (Game.start_getEnemy 0 3 (by decide) (by decide))
        rw [Option.some.inj h2]
        rfl)
      (Or.inl rfl) (by norm_num)).2

/-! ## A respawn between an edge shift and the next edge -/

theorem EnemyWave.laidAt_cell (w : EnemyWave) (x0 y0 : ℚ) (hw : w.LaidAt x0 y0) (i j : Nat)
    (hi : i < 5) (hj : j < 4) :
    ∃ e, w.getEnemy i j = some e
      ∧ e.getPosition = (x0 + 100 * (j : ℚ), y0 + 70 * (i : ℚ))
      ∧ e.getGlobalBounds.height = 32 := by
  obtain ⟨e, he, hx, hy, hs, ht⟩ := hw.2.2.2.2.2.2.2.2 i j hi hj
  refine ⟨e, he, ?_, ?_⟩
  · show (e.sprite.posX, e.sprite.posY) = _
    rw [hx, hy]
  · simp only [Enemy.getGlobalBounds, Sprite.getGlobalBounds, hs, ht]
    norm_num

theorem EnemyWave.laidAt_edge_true (w : EnemyWave) (x0 y0 : ℚ) (hw : w.LaidAt x0 y0)
    (h : 408 < y0 ∨ y0 ≤ 72) :
    ((w.scanEdges 72).1 || (w.scanEdges 72).2) = true := by
  rw [w.scanEdges_edge_iff 72]
  rcases h with h | h
  · obtain ⟨e, he, hp, hh⟩ := w.laidAt_cell x0 y0 hw 4 0 (by decide) (by decide)
    refine ⟨4, 0, e, by rw [hw.2.1]; decide, by rw [hw.2.2.1]; decide, he, Or.inl ?_⟩
    rw [hp, hh, hw.2.2.2.1]
    norm_num
    linarith
  · obtain ⟨e, he, hp, hh⟩ := w.laidAt_cell x0 y0 hw 0 0 (by decide) (by decide)
    refine ⟨0, 0, e, by rw [hw.2.1]; decide, by rw [hw.2.2.1]; decide, he, Or.inr ?_⟩
    rw [hp]
    norm_num
    exact h

theorem EnemyWave.laidAt_edge_false (w : EnemyWave) (x0 y0 : ℚ) (hw : w.LaidAt x0 y0)
    (h1 : 72 < y0) (h2 : y0 ≤ 408) :
    ((w.scanEdges 72).1 || (w.scanEdges 72).2) = false := by
  have hnone : w.scanEdges 72 = (false, false) := by
    apply EnemyWave.scanEdges_none
    intro i j e hi hj he
    rw [hw.2.1] at hi
    rw [hw.2.2.1] at hj
    obtain ⟨e2, he2, hp, hh⟩ := w.laidAt_cell x0 y0 hw i j hi hj
    have hee : e = e2 := Option.some.inj (he.symm.trans he2)
    rw [hee, hp, hh, hw.2.2.2.1]
    have hiq : (i : ℚ) ≤ 4 := by exact_mod_cast Nat.lt_succ_iff.mp hi
    have hi0 : (0 : ℚ) ≤ (i : ℚ) := Nat.cast_nonneg i
    constructor
    · norm_num
      linarith
    · show 72 < y0 + 70 * (i : ℚ)
      linarith
  rw [hnone]
  rfl

/-- A cell-wise change of the grid that keeps every sprite keeps the layout. -/
theorem EnemyWave.laidAt_onCells (w : EnemyWave) (x0 y0 : ℚ) (hw : w.LaidAt x0 y0)
    (F : Nat → Nat → Enemy → Enemy) (x1 y1 : ℚ)
    (hF : ∀ (i j : Nat) (e : Enemy), i < 5 → j < 4 → e.sprite.posX = x0 + 100 * (j : ℚ) →
      e.sprite.posY = y0 + 70 * (i : ℚ) →
      (F i j e).sprite.posX = x1 + 100 * (j : ℚ) ∧ (F i j e).sprite.posY = y1 + 70 * (i : ℚ)
        ∧ (F i j e).sprite.scaleY = e.sprite.scaleY ∧ (F i j e).sprite.texH = e.sprite.texH) :
    EnemyWave.LaidAt
      { w with
        enemyGrid := forGrid w.rows w.columns (fun g i j => modifyCell g i j (F i j))
          w.enemyGrid } x1 y1 := by
  obtain ⟨hwf, hr, hc, hws, hsx, hsy, hpx, hpy, hcells⟩ := hw
  refine ⟨w.wellFormed_forGrid F hwf, hr, hc, hws, hsx, hsy, hpx, hpy, ?_⟩
  intro i j hi hj
  obtain ⟨e, he, hx, hy, hs, ht⟩ := hcells i j hi hj
  obtain ⟨f1, f2, f3, f4⟩ := hF i j e hi hj hx hy
  refine ⟨F i j e, ?_, f1, f2, by rw [f3, hs], by rw [f4, ht]⟩
  show cellAt (forGrid w.rows w.columns _ w.enemyGrid) i j = _
  rw [cellAt_forGrid F, if_pos ⟨by rw [hr]; exact hi, by rw [hc]; exact hj⟩]
  show Option.map _ (w.getEnemy i j) = _
  rw [he]
  rfl

theorem EnemyWave.laidAt_new : Game.start.enemyWave.LaidAt 0 147 := by
  refine ⟨by decide, rfl, rfl, rfl, rfl, ?_, rfl, rfl, ?_⟩
  · norm_num [Game.start, EnemyWave.new]
  · intro i j hi hj
    refine ⟨Game.startEnemy i j, Game.start_getEnemy i j hi hj, ?_, ?_, ?_, rfl⟩
    · norm_num [Game.startEnemy, Enemy.setTexture, Enemy.new, Enemy.setPosition,
        Sprite.setTexture, Sprite.setPosition, Sprite.setScale, Sprite.default]
      ring
    · norm_num [Game.startEnemy, Enemy.setTexture, Enemy.new, Enemy.setPosition,
        Sprite.setTexture, Sprite.setPosition, Sprite.setScale, Sprite.default]
      ring
    · norm_num [Game.startEnemy, Enemy.setTexture, Enemy.new, Enemy.setPosition,
        Sprite.setTexture, Sprite.setPosition, Sprite.setScale, Sprite.default]

/-- The first invocation of `update` on a laid-out formation. -/
theorem FormationOp.step_first (w : EnemyWave) (m : WaveMotion) (hf : m.firstUpdate = true) :
    FormationOp.step (w, m) (FormationOp.update 72)
      = (w, { m with movingDown := true, firstUpdate := false }) := by
  show w.update m 72 = _
  unfold EnemyWave.update
  simp only [hf, if_true]

/-- A vertical step of a laid-out formation. -/
theorem FormationOp.step_vertical (w : EnemyWave) (m : WaveMotion) (x0 y0 : ℚ)
    (hw : w.LaidAt x0 y0) (hf : m.firstUpdate = false)
    (hcase : ((w.scanEdges 72).1 || (w.scanEdges 72).2) = false
      ∨ m.hasMovedRightAfterReach = true) :
    ∃ w2, FormationOp.step (w, m) (FormationOp.update 72)
        = (w2, if m.hasMovedRightAfterReach && ((w.scanEdges 72).1 || (w.scanEdges 72).2) then
                 { m with hasMovedRightAfterReach := false }
               else m)
      ∧ w2.LaidAt x0 (y0 + (if m.movingDown then 1 else -1)) := by
  refine ⟨_, w.update_vertical m 72 hf hcase, ?_⟩
  apply w.laidAt_onCells x0 y0 hw (fun _ _ (enemy : Enemy) =>
    enemy.setPosition enemy.getPosition.1
      (enemy.getPosition.2 + (if m.movingDown then 1 else -1)))
  intro i j e _ _ hx hy
  refine ⟨hx, ?_, rfl, rfl⟩
  show e.sprite.posY + _ = _
  rw [hy]
  ring

/-- A sideways shift of a laid-out formation. -/
theorem FormationOp.step_shift (w : EnemyWave) (m : WaveMotion) (x0 y0 : ℚ)
    (hw : w.LaidAt x0 y0) (hf : m.firstUpdate = false)
    (hedge : ((w.scanEdges 72).1 || (w.scanEdges 72).2) = true)
    (hlatch : m.hasMovedRightAfterReach = false) :
    ∃ w2, FormationOp.step (w, m) (FormationOp.update 72)
        = (w2, { m with hasMovedRightAfterReach := true, movingDown := !m.movingDown })
      ∧ w2.LaidAt (x0 + 50) y0 := by
  refine ⟨_, w.update_shift m 72 hf hedge hlatch, ?_⟩
  apply w.laidAt_onCells x0 y0 hw (fun _ _ (enemy : Enemy) =>
    enemy.setPosition (enemy.getPosition.1 + 50) enemy.getPosition.2)
  intro i j e _ _ hx hy
  refine ⟨?_, hy, rfl, rfl⟩
  show e.sprite.posX + 50 = _
  rw [hx]
  ring

/-- Consecutive vertical steps of a laid-out formation that touches no edge on
its way: `n` invocations of `update` move it by `n` and leave the flags as they
are. -/
theorem FormationOp.run_vertical (n : Nat) (w : EnemyWave) (m : WaveMotion) (x0 y0 : ℚ)
    (hw : w.LaidAt x0 y0) (hf : m.firstUpdate = false)
    (hno : ∀ k : Nat, k < n →
      72 < y0 + (k : ℚ) * (if m.movingDown then 1 else -1)
        ∧ y0 + (k : ℚ) * (if m.movingDown then 1 else -1) ≤ 408) :
    ∃ w2, FormationOp.run (w, m) (List.replicate n (FormationOp.update 72)) = (w2, m)
      ∧ w2.LaidAt x0 (y0 + (n : ℚ) * (if m.movingDown then 1 else -1)) := by
  induction n generalizing w y0 with
  | zero =>
    refine ⟨w, rfl, ?_⟩
    have : y0 + ((0 : Nat) : ℚ) * (if m.movingDown then 1 else -1) = y0 := by
      push_cast
      ring
    rw [this]
    exact hw
  | succ k ih =>
    have h0 := hno 0 (Nat.succ_pos k)
    have h0a : 72 < y0 := by
      have := h0.1
      push_cast at this
      linarith
    have h0b : y0 ≤ 408 := by
      have := h0.2
      push_cast at this
      linarith
    have hedge := w.laidAt_edge_false x0 y0 hw h0a h0b
    obtain ⟨w1, hstep, hw1⟩ := FormationOp.step_vertical w m x0 y0 hw hf (Or.inl hedge)
    rw [hedge] at hstep
    simp only [Bool.and_false, Bool.false_eq_true, if_false] at hstep
    obtain ⟨w2, hrun, hw2⟩ := ih w1 (y0 + (if m.movingDown then 1 else -1)) hw1 (by
      intro c hc
      have := hno (c + 1) (Nat.succ_lt_succ hc)
      push_cast at this
      constructor
      · linarith [this.1]
      · linarith [this.2])
    refine ⟨w2, ?_, ?_⟩
    · show List.foldl FormationOp.step (w, m) (List.replicate (k + 1) (FormationOp.update 72)) = _
      rw [List.replicate_succ, List.foldl_cons, hstep]
      exact hrun
    · have : y0 + ((k + 1 : Nat) : ℚ) * (if m.movingDown then 1 else -1)
          = y0 + (if m.movingDown then 1 else -1)
            + (k : ℚ) * (if m.movingDown then 1 else -1) := by
        push_cast
        ring
      rw [this]
      exact hw2

theorem FormationOp.run_append (s : EnemyWave × WaveMotion) (a b : List FormationOp) :
    FormationOp.run s (a ++ b) = FormationOp.run (FormationOp.run s a) b :=
  List.foldl_append _ _ _ _

/-- Two loops over the same list whose bodies keep a relation between their
states keep it. -/
theorem foldl_rel {σ τ ι : Type} (R : σ → τ → Prop) (l : List ι) (f1 : σ → ι → σ)
    (f2 : τ → ι → τ) (h : ∀ s t x, R s t → R (f1 s x) (f2 t x)) (s : σ) (t : τ) (hst : R s t) :
    R (l.foldl f1 s) (l.foldl f2 t) := by
  induction l generalizing s t with
  | nil => exact hst
  | cons x rest ih =>
    rw [List.foldl_cons, List.foldl_cons]
    exact ih _ _ (h s t x hst)

/-- Two nested loops whose bodies keep a relation between their states keep it. -/
theorem forGrid_rel {σ τ : Type} (R : σ → τ → Prop) (rows columns : Nat)
    (b1 : σ → Nat → Nat → σ) (b2 : τ → Nat → Nat → τ)
    (h : ∀ s t i j, R s t → R (b1 s i j) (b2 t i j)) (s : σ) (t : τ) (hst : R s t) :
    R (forGrid rows columns b1 s) (forGrid rows columns b2 t) := by
  unfold forGrid
  apply foldl_rel R _ _ _ _ s t hst
  intro s2 t2 i h2
  exact foldl_rel R _ _ _ (fun s3 t3 j h3 => h s3 t3 i j h3) s2 t2 h2

/-- Killing every enemy is the cell-wise `kill` over the grid. -/
theorem FormationOp.run_killAll (w : EnemyWave) (m : WaveMotion) :
    FormationOp.run (w, m) FormationOp.killAll
      = ({ w with
            enemyGrid := forGrid 5 4 (fun g i j => modifyCell g i j Enemy.kill) w.enemyGrid },
         m) := by
  unfold FormationOp.killAll
  exact forGrid_rel
    (fun (ops : List FormationOp) (g : List (List Enemy)) =>
      FormationOp.run (w, m) ops = ({ w with enemyGrid := g }, m)) 5 4 _ _
    (by
      intro ops g i j hr
      show List.foldl FormationOp.step (w, m) (ops ++ [FormationOp.onEnemy i j Enemy.kill]) = _
      rw [List.foldl_append]
      have hr2 : List.foldl FormationOp.step (w, m) ops = ({ w with enemyGrid := g }, m) := hr
      rw [hr2]
      rfl)
    [] w.enemyGrid rfl

/-- After the kills the laid-out formation is cleared and stands where it
stood. -/
theorem FormationOp.killAll_cleared (w : EnemyWave) (m : WaveMotion) (x0 y0 : ℚ)
    (hw : w.LaidAt x0 y0) :
    ∃ w2, FormationOp.run (w, m) FormationOp.killAll = (w2, m) ∧ w2.LaidAt x0 y0
      ∧ w2.allEnemiesDead = true := by
  have hgrid : forGrid 5 4 (fun g i j => modifyCell g i j Enemy.kill) w.enemyGrid
      = forGrid w.rows w.columns (fun g i j => modifyCell g i j Enemy.kill) w.enemyGrid := by
    rw [hw.2.1, hw.2.2.1]
  have hlaid := w.laidAt_onCells x0 y0 hw (fun _ _ (enemy : Enemy) => enemy.kill) x0 y0
    (fun i j e _ _ hx hy => ⟨hx, hy, rfl, rfl⟩)
  refine ⟨_, FormationOp.run_killAll w m, ?_, ?_⟩
  · rw [hgrid]
    exact hlaid
  · rw [hgrid]
    unfold EnemyWave.allEnemiesDead
    rw [EnemyWave.rowsAllDead_iff]
    intro row hrow e he
    obtain ⟨a, b, ha, hb, hcell⟩ := exists_cellAt_of_mem _ row e hrow he
    rw [cellAt_forGrid (fun _ _ (enemy : Enemy) => enemy.kill)] at hcell
    have hlen := hlaid.1
    have ha2 : a < w.rows := by
      have h1 : (forGrid w.rows w.columns (fun g i j => modifyCell g i j Enemy.kill)
          w.enemyGrid).length = w.rows := hlen.1
      exact lt_of_lt_of_eq ha h1
    have hb2 : b < w.columns := by
      have h2 : row.length = w.columns := hlen.2 row hrow
      omega
    rw [if_pos ⟨ha2, hb2⟩] at hcell
    cases hc : cellAt w.enemyGrid a b with
    | none =>
      rw [hc] at hcell
      cases hcell
    | some e0 =>
      rw [hc] at hcell
      have : e = e0.kill := (Option.some.inj hcell).symm
      rw [this]
      rfl

/-- A respawn puts a laid-out formation back at its initial position. -/
theorem FormationOp.step_respawn (w : EnemyWave) (m : WaveMotion) (x0 y0 : ℚ) (flag : Int)
    (hw : w.LaidAt x0 y0) :
    ∃ w2, FormationOp.step (w, m) (FormationOp.respawn flag) = (w2, m) ∧ w2.LaidAt 0 147 := by
  refine ⟨_, rfl, ?_⟩
  apply w.laidAt_onCells x0 y0 hw (fun i j => w.respawnCell flag i j)
  intro i j e _ _ _ _
  have hpos := w.respawnCell_position flag i j e
  rw [hw.2.2.2.2.1, hw.2.2.2.2.2.1, hw.2.2.2.2.2.2.1, hw.2.2.2.2.2.2.2.1] at hpos
  have hx : (w.respawnCell flag i j e).sprite.posX = 0 + (j : ℚ) * 100 :=
    congrArg Prod.fst hpos
  have hy : (w.respawnCell flag i j e).sprite.posY = 147 + (i : ℚ) * 70 :=
    congrArg Prod.snd hpos
  refine ⟨by rw [hx]; ring, by rw [hy]; ring, ?_, ?_⟩
  · unfold EnemyWave.respawnCell
    simp only []
    split_ifs <;> rfl
  · unfold EnemyWave.respawnCell
    simp only []
    split_ifs <;> rfl

theorem EnemyWave.laidAt_congr (w : EnemyWave) (x0 y0 x1 y1 : ℚ) (hw : w.LaidAt x0 y0)
    (hx : x0 = x1) (hy : y0 = y1) : w.LaidAt x1 y1 := by
  subst hx
  subst hy
  exact hw

/-- The formation right after its shift at the bottom edge, in frame 264. -/
theorem FormationOp.run_untilShift :
    ∃ w, FormationOp.run (Game.start.enemyWave, WaveMotion.initial)
          (List.replicate 264 (FormationOp.update 72))
        = (w, { movingDown := false, hasMovedRightAfterReach := true, firstUpdate := false })
      ∧ w.LaidAt 50 409 := by
  have hsplit : List.replicate 264 (FormationOp.update 72)
      = [FormationOp.update 72] ++ List.replicate 262 (FormationOp.update 72)
        ++ [FormationOp.update 72] := by
    rw [show (264 : Nat) = 263 + 1 from rfl, List.replicate_succ',
      show (263 : Nat) = 262 + 1 from rfl, List.replicate_succ]
    rfl
  have h1 : FormationOp.run (Game.start.enemyWave, WaveMotion.initial) [FormationOp.update 72]
      = (Game.start.enemyWave,
          { movingDown := true, hasMovedRightAfterReach := false, firstUpdate := false }) :=
    FormationOp.step_first Game.start.enemyWave WaveMotion.initial rfl
  obtain ⟨w2, h2, hw2⟩ := FormationOp.run_vertical 262 Game.start.enemyWave
    { movingDown := true, hasMovedRightAfterReach := false, firstUpdate := false } 0 147
    EnemyWave.laidAt_new rfl (by
      intro k hk
      have hk2 : (k : ℚ) ≤ 261 := by exact_mod_cast Nat.lt_succ_iff.mp hk
      have hk0 : (0 : ℚ) ≤ (k : ℚ) := Nat.cast_nonneg k
      simp only [if_true]
      constructor <;> linarith)
  have hw2b : w2.LaidAt 0 409 := w2.laidAt_congr _ _ _ _ hw2 rfl (by norm_num)
  obtain ⟨w3, h3, hw3⟩ := FormationOp.step_shift w2
    { movingDown := true, hasMovedRightAfterReach := false, firstUpdate := false } 0 409 hw2b rfl
    (w2.laidAt_edge_true 0 409 hw2b (Or.inl (by norm_num))) rfl
  refine ⟨w3, ?_, w3.laidAt_congr _ _ _ _ hw3 (by norm_num) rfl⟩
  rw [hsplit, FormationOp.run_append, FormationOp.run_append, h1, h2]
  exact h3

/-- The formation at the end of `FormationOp.clearedAfterShift`: cleared, and
where the shift left it. -/
theorem FormationOp.run_clearedAfterShift :
    ∃ w, FormationOp.run (Game.start.enemyWave, WaveMotion.initial)
          FormationOp.clearedAfterShift
        = (w, { movingDown := false, hasMovedRightAfterReach := true, firstUpdate := false })
      ∧ w.LaidAt 50 409 ∧ w.allEnemiesDead = true := by
  obtain ⟨w1, h1, hw1⟩ := FormationOp.run_untilShift
  obtain ⟨w2, h2, hw2, hdead⟩ := FormationOp.killAll_cleared w1
    { movingDown := false, hasMovedRightAfterReach := true, firstUpdate := false } 50 409 hw1
  refine ⟨w2, ?_, hw2, hdead⟩
  unfold FormationOp.clearedAfterShift
  rw [FormationOp.run_append, h1, h2]

theorem FormationOp.afterUpdates_succ (n : Nat) :
    FormationOp.afterUpdates (n + 1)
      = FormationOp.step (FormationOp.afterUpdates n) (FormationOp.update 72) := by
  unfold FormationOp.afterUpdates
  rw [List.replicate_succ', ← List.append_assoc, FormationOp.run_append]
  rfl

/-- The formation after the respawn and its way up: it stands at the top edge
with the latch still set. -/
theorem FormationOp.afterUpdates_zero :
    ∃ w, FormationOp.afterUpdates 0
        = (w, { movingDown := false, hasMovedRightAfterReach := true, firstUpdate := false })
      ∧ w.LaidAt 0 72 := by
  obtain ⟨w1, h1, hw1, _⟩ := FormationOp.run_clearedAfterShift
  obtain ⟨w2, h2, hw2⟩ := FormationOp.step_respawn w1
    { movingDown := false, hasMovedRightAfterReach := true, firstUpdate := false } 50 409 0 hw1
  obtain ⟨w3, h3, hw3⟩ := FormationOp.run_vertical 75 w2
    { movingDown := false, hasMovedRightAfterReach := true, firstUpdate := false } 0 147 hw2 rfl
    (by
      intro k hk
      have hk2 : (k : ℚ) ≤ 74 := by exact_mod_cast Nat.lt_succ_iff.mp hk
      have hk0 : (0 : ℚ) ≤ (k : ℚ) := Nat.cast_nonneg k
      simp only [Bool.false_eq_true, if_false]
      constructor <;> linarith)
  refine ⟨w3, ?_, w3.laidAt_congr _ _ _ _ hw3 rfl (by norm_num)⟩
  unfold FormationOp.afterUpdates FormationOp.respawnAfterShift
  rw [List.replicate_zero, List.append_nil, FormationOp.run_append, FormationOp.run_append, h1]
  have h2b : FormationOp.run
      (w1, { movingDown := false, hasMovedRightAfterReach := true, firstUpdate := false })
      [FormationOp.respawn 0]
      = (w2, { movingDown := false, hasMovedRightAfterReach := true, firstUpdate := false }) := h2
  rw [h2b, h3]

/-- The four invocations of `update` after `FormationOp.afterUpdates 0`. -/
theorem FormationOp.afterUpdates_trace :
    (∃ w, FormationOp.afterUpdates 0
          = (w, { movingDown := false, hasMovedRightAfterReach := true, firstUpdate := false })
        ∧ w.LaidAt 0 72)
      ∧ (∃ w, FormationOp.afterUpdates 1
          = (w, { movingDown := false, hasMovedRightAfterReach := false, firstUpdate := false })
        ∧ w.LaidAt 0 71)
      ∧ (∃ w, FormationOp.afterUpdates 2
          = (w, { movingDown := true, hasMovedRightAfterReach := true, firstUpdate := false })
        ∧ w.LaidAt 50 71)
      ∧ (∃ w, FormationOp.afterUpdates 3
          = (w, { movingDown := true, hasMovedRightAfterReach := false, firstUpdate := false })
        ∧ w.LaidAt 50 72)
      ∧ (∃ w, FormationOp.afterUpdates 4
          = (w, { movingDown := false, hasMovedRightAfterReach := true, firstUpdate := false })
        ∧ w.LaidAt 100 72) := by
  obtain ⟨w0, h0, hw0⟩ := FormationOp.afterUpdates_zero
  have e0 := w0.laidAt_edge_true 0 72 hw0 (Or.inr (le_refl _))
  obtain ⟨w1, h1, hw1⟩ := FormationOp.step_vertical w0
    { movingDown := false, hasMovedRightAfterReach := true, firstUpdate := false } 0 72 hw0 rfl
    (Or.inr rfl)
  rw [e0] at h1
  have hw1b : w1.LaidAt 0 71 := w1.laidAt_congr _ _ _ _ hw1 rfl (by norm_num)
  have e1 := w1.laidAt_edge_true 0 71 hw1b (Or.inr (by norm_num))
  obtain ⟨w2, h2, hw2⟩ := FormationOp.step_shift w1
    { movingDown := false, hasMovedRightAfterReach := false, firstUpdate := false } 0 71 hw1b rfl
    e1 rfl
  have hw2b : w2.LaidAt 50 71 := w2.laidAt_congr _ _ _ _ hw2 (by norm_num) rfl
  have e2 := w2.laidAt_edge_true 50 71 hw2b (Or.inr (by norm_num))
  obtain ⟨w3, h3, hw3⟩ := FormationOp.step_vertical w2
    { movingDown := true, hasMovedRightAfterReach := true, firstUpdate := false } 50 71 hw2b rfl
    (Or.inr rfl)
  rw [e2] at h3
  have hw3b : w3.LaidAt 50 72 := w3.laidAt_congr _ _ _ _ hw3 rfl (by norm_num)
  have e3 := w3.laidAt_edge_true 50 72 hw3b (Or.inr (le_refl _))
  obtain ⟨w4, h4, hw4⟩ := FormationOp.step_shift w3
    { movingDown := true, hasMovedRightAfterReach := false, firstUpdate := false } 50 72 hw3b rfl
    e3 rfl
  have hw4b : w4.LaidAt 100 72 := w4.laidAt_congr _ _ _ _ hw4 (by norm_num) rfl
  have a1 : FormationOp.afterUpdates 1
      = (w1, { movingDown := false, hasMovedRightAfterReach := false, firstUpdate := false }) := by
    rw [FormationOp.afterUpdates_succ 0, h0]
    exact h1
  have a2 : FormationOp.afterUpdates 2
      = (w2, { movingDown := true, hasMovedRightAfterReach := true, firstUpdate := false }) := by
    rw [FormationOp.afterUpdates_succ 1, a1]
    exact h2
  have a3 : FormationOp.afterUpdates 3
      = (w3, { movingDown := true, hasMovedRightAfterReach := false, firstUpdate := false }) := by
    rw [FormationOp.afterUpdates_succ 2, a2]
    exact h3
  have a4 : FormationOp.afterUpdates 4
      = (w4, { movingDown := false, hasMovedRightAfterReach := true, firstUpdate := false }) := by
    rw [FormationOp.afterUpdates_succ 3, a3]
    exact h4
  exact ⟨⟨w0, h0, hw0⟩, ⟨w1, a1, hw1b⟩, ⟨w2, a2, hw2b⟩, ⟨w3, a3, hw3b⟩, ⟨w4, a4, hw4b⟩⟩

theorem EnemyWave.laidAt_origin (w : EnemyWave) (x0 y0 : ℚ) (hw : w.LaidAt x0 y0) :
    (w.getEnemy 0 0).map Enemy.getPosition = some (x0, y0) := by
  obtain ⟨e, he, hp, _⟩ := w.laidAt_cell x0 y0 hw 0 0 (by decide) (by decide)
  rw [he]
  show some e.getPosition = _
  rw [hp]
  norm_num

/-- Claim C23 fails on the code.  In a 1280x720 game (bar height 72) the
formation shifts at the bottom edge in frame 264, which sets the latch; it is
then cleared, so the next frame respawns it at its initial position, and the
static latch stays set.  It goes up 75 steps with the latch set
(`FormationOp.afterUpdates 0`: top row at y = 72).  The next four invocations
of `update` all detect the top edge, so they belong to one edge event, and
they are: a step up to y = 71 that clears the latch, a shift to x = 50 with a
flip of the direction, a step down to y = 72 that clears the latch, and a
second shift to x = 100 with a second flip. -/
theorem respawn_shifts_twice_in_one_edge_event :
    (FormationOp.run (Game.start.enemyWave, WaveMotion.initial)
        FormationOp.clearedAfterShift).1.allEnemiesDead = true
      ∧ (((FormationOp.afterUpdates 0).1.scanEdges 72).1
          || ((FormationOp.afterUpdates 0).1.scanEdges 72).2) = true
      ∧ (((FormationOp.afterUpdates 1).1.scanEdges 72).1
          || ((FormationOp.afterUpdates 1).1.scanEdges 72).2) = true
      ∧ (((FormationOp.afterUpdates 2).1.scanEdges 72).1
          || ((FormationOp.afterUpdates 2).1.scanEdges 72).2) = true
      ∧ (((FormationOp.afterUpdates 3).1.scanEdges 72).1
          || ((FormationOp.afterUpdates 3).1.scanEdges 72).2) = true
      ∧ (((FormationOp.afterUpdates 0).1.getEnemy 0 0).map Enemy.getPosition = some (0, 72)
        ∧ (FormationOp.afterUpdates 0).2.movingDown = false)
      ∧ (((FormationOp.afterUpdates 1).1.getEnemy 0 0).map Enemy.getPosition = some (0, 71)
        ∧ (FormationOp.afterUpdates 1).2.movingDown = false)
      ∧ (((FormationOp.afterUpdates 2).1.getEnemy 0 0).map Enemy.getPosition = some (50, 71)
        ∧ (FormationOp.afterUpdates 2).2.movingDown = true)
      ∧ (((FormationOp.afterUpdates 3).1.getEnemy 0 0).map Enemy.getPosition = some (50, 72)
        ∧ (FormationOp.afterUpdates 3).2.movingDown = true)
      ∧ (((FormationOp.afterUpdates 4).1.getEnemy 0 0).map Enemy.getPosition = some (100, 72)
        ∧ (FormationOp.afterUpdates 4).2.movingDown = false) := by
  obtain ⟨wc, hc, _, hdead⟩ := FormationOp.run_clearedAfterShift
  obtain ⟨⟨w0, h0, hw0⟩, ⟨w1, h1, hw1⟩, ⟨w2, h2, hw2⟩, ⟨w3, h3, hw3⟩, ⟨w4, h4, hw4⟩⟩ :=
    FormationOp.afterUpdates_trace
  rw [hc, h0, h1, h2, h3, h4]
  exact ⟨hdead,
    w0.laidAt_edge_true 0 72 hw0 (Or.inr (le_refl _)),
    w1.laidAt_edge_true 0 71 hw1 (Or.inr (by norm_num)),
    w2.laidAt_edge_true 50 71 hw2 (Or.inr (by norm_num)),
    w3.laidAt_edge_true 50 72 hw3 (Or.inr (le_refl _)),
    ⟨w0.laidAt_origin 0 72 hw0, rfl⟩, ⟨w1.laidAt_origin 0 71 hw1, rfl⟩,
    ⟨w2.laidAt_origin 50 71 hw2, rfl⟩, ⟨w3.laidAt_origin 50 72 hw3, rfl⟩,
    ⟨w4.laidAt_origin 100 72 hw4, rfl⟩⟩

end FireFighter
